import Mathlib

/-!
# MaxScale `mysql_client.c`: client protocol module

A shallow embedding of `src/modules/protocol/mysql_client.c` (authentication
engine, auth-response decoder, buffered writer, read/write event handlers)
and the properties of its specification that were checked against it.

Conventions of the embedding.

* A byte is a `Nat` (below 256 on every value that comes from the wire); a
  buffer, a C array and the contents of a C string (without its NUL) are
  `List Nat`.
* A pointer that the code tests against `NULL` is an `Option`.
* A C operation whose behaviour is undefined (a read outside the received
  buffer, an access outside a fixed-size array, a NULL dereference) ends the
  run with a `Fault`; defined runs end with `Except.ok`.
* Functions, macros and constants that the file uses but does not define
  (they live in headers and in other files of the gateway) are either fields
  of `Env` or definitions whose comment starts with "Modelled from the spec".
-/

set_option maxRecDepth 100000

namespace MaxScale

/-! ## Bytes and faults -/

/-- Undefined behaviour reached by the C code. -/
inductive Fault
  /-- a read at or past the end of the received buffer -/
  | outsideFrame
  /-- a `strncpy` that filled all 128 bytes of its destination without a NUL, so
  that the `strlen`/`%s` that follows runs past the destination -/
  | unterminated
  /-- an access outside a fixed-size local array or an allocated buffer -/
  | bufferOverrun
  /-- a dereference of a NULL pointer -/
  | nullDeref
deriving DecidableEq

/-- Equality of outcomes is decidable. -/
instance instDecidableEqExcept {ε α : Type} [DecidableEq ε] [DecidableEq α] :
    DecidableEq (Except ε α)
  | .ok a, .ok b => if h : a = b then isTrue (by rw [h]) else isFalse (by intro e; cases e; exact h rfl)
  | .error a, .error b =>
    if h : a = b then isTrue (by rw [h]) else isFalse (by intro e; cases e; exact h rfl)
  | .ok _, .error _ => isFalse (by intro e; cases e)
  | .error _, .ok _ => isFalse (by intro e; cases e)

/-- The bytes of an ASCII string literal. -/
def ascii (s : String) : List Nat := s.toList.map Char.toNat

/-- A run of `n` zero bytes: the initial contents of an array declared `= ""`. -/
def zeros (n : Nat) : List Nat := List.replicate n 0

/-- Concatenated bytes of a buffer chain. -/
def flat (q : List (List Nat)) : List Nat := q.flatten

/-- Constants and library functions that `mysql_client.c` takes from headers
and from other files. -/
structure Env where
  /-- the digest that `gw_sha1_str(in, len, out)` writes to `out`: SHA-1 of
  the `len` input bytes, 20 bytes -/
  gw_sha1_str : List Nat → List Nat
  /-- value of `errno` named `EAGAIN` -/
  EAGAIN : Nat
  /-- value of `errno` named `EWOULDBLOCK` -/
  EWOULDBLOCK : Nat
  /-- capability mask `GW_MYSQL_CAPABILITIES_CONNECT_WITH_DB` -/
  GW_MYSQL_CAPABILITIES_CONNECT_WITH_DB : Nat

/-- The digest function writes `SHA_DIGEST_LENGTH` bytes, each a byte. -/
def Env.Digest20 (env : Env) : Prop := ∀ x, (env.gw_sha1_str x).length = 20

/-- Modelled from the spec: `SHA_DIGEST_LENGTH` (OpenSSL header), the 20
bytes of a SHA-1 value. -/
def SHA_DIGEST_LENGTH : Nat := 20

/-- Modelled from the spec: `GW_MYSQL_SCRAMBLE_SIZE` (protocol header), the
size of the 20-byte server challenge. -/
def GW_MYSQL_SCRAMBLE_SIZE : Nat := 20

/-! ## Standard SHA-1, used to run the model on concrete inputs -/

namespace SHA1

/-- Rotate a 32-bit word left. -/
def rotl32 (x n : Nat) : Nat := ((x <<< n) ||| (x >>> (32 - n))) % 4294967296

/-- Big-endian 32-bit word at the head of a byte list. -/
def be32 : List Nat → Nat
  | a :: b :: c :: d :: _ => ((a * 256 + b) * 256 + c) * 256 + d
  | _ => 0

/-- The first `n` big-endian words of a block. -/
def words : Nat → List Nat → List Nat
  | 0, _ => []
  | n + 1, bs => be32 bs :: words n (bs.drop 4)

/-- Message schedule, newest word first, extended by `n` words. -/
def extend : Nat → List Nat → List Nat
  | 0, ws => ws
  | n + 1, ws =>
    extend n (rotl32 (ws.getD 2 0 ^^^ ws.getD 7 0 ^^^ ws.getD 13 0 ^^^ ws.getD 15 0) 1 :: ws)

/-- The five chaining words. -/
structure H5 where
  a : Nat
  b : Nat
  c : Nat
  d : Nat
  e : Nat
deriving DecidableEq

/-- Round function. -/
def f (t b c d : Nat) : Nat :=
  if t < 20 then (b &&& c) ||| ((4294967295 - b) &&& d)
  else if t < 40 then b ^^^ c ^^^ d
  else if t < 60 then (b &&& c) ||| (b &&& d) ||| (c &&& d)
  else b ^^^ c ^^^ d

/-- Round constant. -/
def k (t : Nat) : Nat :=
  if t < 20 then 0x5A827999 else if t < 40 then 0x6ED9EBA1
  else if t < 60 then 0x8F1BBCDC else 0xCA62C1D6

/-- The 80 rounds over the message schedule. -/
def rounds : List Nat → Nat → H5 → H5
  | [], _, h => h
  | w :: ws, t, h =>
    rounds ws (t + 1)
      ⟨(rotl32 h.a 5 + f t h.b h.c h.d + h.e + k t + w) % 4294967296,
        h.a, rotl32 h.b 30, h.c, h.d⟩

/-- Compression of one 64-byte block. -/
def block (h : H5) (bs : List Nat) : H5 :=
  let w := (extend 64 (words 16 bs).reverse).reverse
  let r := rounds w 0 h
  ⟨(h.a + r.a) % 4294967296, (h.b + r.b) % 4294967296, (h.c + r.c) % 4294967296,
   (h.d + r.d) % 4294967296, (h.e + r.e) % 4294967296⟩

/-- Compression of `n` consecutive blocks. -/
def blocks : Nat → H5 → List Nat → H5
  | 0, h, _ => h
  | n + 1, h, bs => blocks n (block h bs) (bs.drop 64)

/-- The `k` low bytes of `n`, most significant first. -/
def be (n : Nat) : Nat → List Nat
  | 0 => []
  | k + 1 => (n >>> (8 * k)) % 256 :: be n k

/-- Message padding: 0x80, zeros, 64-bit big-endian bit length. -/
def pad (m : List Nat) : List Nat :=
  m ++ [128] ++ List.replicate ((119 - m.length % 64) % 64) 0 ++ be (8 * m.length) 8

/-- Modelled from the spec: the function `SHA1` of the specification, which
`gw_sha1_str` (utility file, not part of `mysql_client.c`) computes through
OpenSSL; this is the standard SHA-1 digest (FIPS 180) of a byte string. -/
def sha1 (m : List Nat) : List Nat :=
  let p := pad m
  let h := blocks (p.length / 64)
    ⟨0x67452301, 0xEFCDAB89, 0x98BADCFE, 0x10325476, 0xC3D2E1F0⟩ p
  be h.a 4 ++ be h.b 4 ++ be h.c 4 ++ be h.d 4 ++ be h.e 4

end SHA1

/-- The environment of a Linux build: OpenSSL SHA-1, `EAGAIN` and
`EWOULDBLOCK` both 11, connect-with-db capability bit `1 << 3`. -/
def linuxEnv : Env :=
  { gw_sha1_str := SHA1.sha1
    EAGAIN := 11
    EWOULDBLOCK := 11
    GW_MYSQL_CAPABILITIES_CONNECT_WITH_DB := 8 }

/-! ## Library routines used by the authentication engine -/

/-- Modelled from the spec: `gw_sha1_2_str(in1, len1, in2, len2, out)`
(utility file), "`SHA1(challenge ++ stored_hash)`": the digest of the first
`len1` bytes of `in1` followed by the first `len2` bytes of `in2`. -/
def gw_sha1_2_str (env : Env) (in1 : List Nat) (in1_len : Nat) (in2 : List Nat)
    (in2_len : Nat) : Except Fault (List Nat) :=
  if in1.length < in1_len ∨ in2.length < in2_len then .error .bufferOverrun
  else .ok (env.gw_sha1_str (in1.take in1_len ++ in2.take in2_len))

/-- Modelled from the spec: `gw_str_xor(output, input1, input2, len)` (utility
file), "`auth_token XOR step1` (byte-wise)": the first `len` bytes of `output`
become the XOR of the first `len` bytes of the inputs, the rest of `output`
is kept; `len` bytes must exist in all three arrays. -/
def gw_str_xor (output input1 input2 : List Nat) (len : Nat) : Except Fault (List Nat) :=
  if input1.length < len ∨ input2.length < len ∨ output.length < len then
    .error .bufferOverrun
  else
    .ok (List.zipWith (· ^^^ ·) (input1.take len) (input2.take len) ++ output.drop len)

/-- C `memcpy(dst, src, n)`: the first `n` bytes of `dst` are replaced. -/
def memcpy (dst src : List Nat) (n : Nat) : List Nat := src.take n ++ dst.drop n

/-- C `memcmp(a, b, n)`: zero when the first `n` bytes agree, else the
difference of the first pair of bytes that differ. -/
def memcmp : List Nat → List Nat → Nat → Int
  | _, _, 0 => 0
  | a, b, n + 1 =>
    if a.headD 0 = b.headD 0 then memcmp a.tail b.tail n
    else (a.headD 0 : Int) - (b.headD 0 : Int)

/-! ## Authentication engine -/

/-- Source `gw_find_mysql_user_password_sha1(username, gateway_password,
repository)`: returns the status and the contents of `gateway_password`. -/
def gw_find_mysql_user_password_sha1 (env : Env) (username gateway_password : List Nat) :
    Int × List Nat :=
  if username = ascii "root" then (1, gateway_password)
  else
    let hash1 := env.gw_sha1_str username
    (0, memcpy gateway_password (env.gw_sha1_str (hash1.take SHA_DIGEST_LENGTH))
      SHA_DIGEST_LENGTH)

/-- Source `gw_check_mysql_scramble_data(token, token_len, scramble,
scramble_len, username, stage1_hash)`: returns the status and the contents
of the `stage1_hash` buffer after the call. The call of `gw_bin2hex` fills a
local array that is not read again and is left out. -/
def gw_check_mysql_scramble_data (env : Env) (token : Option (List Nat)) (token_len : Nat)
    (scramble : Option (List Nat)) (scramble_len : Nat) (username : Option (List Nat))
    (stage1_hash : Option (List Nat)) : Except Fault (Int × Option (List Nat)) :=
  match username, token, scramble, stage1_hash with
  | some username, some token, some scramble, some stage1 =>
    let (ret_val, password) :=
      gw_find_mysql_user_password_sha1 env username (zeros GW_MYSQL_SCRAMBLE_SIZE)
    if ret_val ≠ 0 then .ok (1, some stage1)
    else do
      let step1 ← gw_sha1_2_str env scramble scramble_len password SHA_DIGEST_LENGTH
      let step2 ← gw_str_xor (zeros (GW_MYSQL_SCRAMBLE_SIZE + 1)) token step1 token_len
      let stage1 := memcpy stage1 step2 SHA_DIGEST_LENGTH
      let check_hash := env.gw_sha1_str (step2.take SHA_DIGEST_LENGTH)
      .ok (memcmp password check_hash SHA_DIGEST_LENGTH, some stage1)
  | _, _, _, _ => .ok (1, stage1_hash)

/-! ## Data model -/

/-- Protocol sub-state of a client connection (`protocol->state`). -/
inductive MySQLState
  | MYSQL_ALLOC
  | MYSQL_AUTH_SENT
  | MYSQL_AUTH_RECV
  | MYSQL_AUTH_FAILED
  | MYSQL_IDLE
  | MYSQL_ROUTING
  | MYSQL_WAITING_RESULT
deriving DecidableEq

/-- Lifecycle state of a descriptor control block (`dcb->state`). -/
inductive DCBState
  | DCB_STATE_ALLOC
  | DCB_STATE_IDLE
  | DCB_STATE_POLLING
  | DCB_STATE_PROCESSING
  | DCB_STATE_LISTENING
  | DCB_STATE_DISCONNECTED
  | DCB_STATE_FREED
deriving DecidableEq

/-- Protocol context `MySQLProtocol`: sub-state, server challenge, and the
four bytes that `memcpy` stored in `client_capabilities`. -/
structure MySQLProtocol where
  state : MySQLState
  scramble : List Nat
  client_capabilities : List Nat
deriving DecidableEq

/-- Session data `MYSQL_session`: stage-1 hash, user name, database name. -/
structure MYSQL_session where
  client_sha1 : List Nat
  user : List Nat
  db : List Nat
deriving DecidableEq

/-- The backend connection of a session: code outside this file, known here
only as the target of calls through its function table. -/
structure BackendDCB where
  fd : Int
deriving DecidableEq

/-- Session `SESSION`: its data and its backend connection (`NULL` when no
backend is paired). -/
structure SESSION where
  data : MYSQL_session
  backends : Option BackendDCB
deriving DecidableEq

/-- Counters `dcb->stats` touched by this file. -/
structure DCBSTATS where
  n_writes : Nat
  n_buffered : Nat
deriving DecidableEq

/-- Client descriptor control block `DCB`; `writeq` is the chain of queued
buffers (`NULL` is the empty chain). -/
structure DCB where
  fd : Int
  state : DCBState
  protocol : Option MySQLProtocol
  session : Option SESSION
  writeq : List (List Nat)
  stats : DCBSTATS
deriving DecidableEq

/-- Outcome of one `GW_NOINTR_CALL(w = write(fd, data, len))`: the transport
took the first `min n len` bytes, or the call failed with an `errno`. -/
inductive WriteResult
  | accepted (n : Nat)
  | failed (errno : Nat)
deriving DecidableEq

/-- Which connection a call through a function table concerns. -/
inductive Peer
  | client
  | backend
deriving DecidableEq

/-- A call through a function table (`dcb->func.write`, `dcb->func.error`):
whose table, on which connection, with which buffer chain. -/
inductive Call
  | write (table : Peer) (target : Peer) (queue : List (List Nat))
  | error (table : Peer) (target : Peer)
deriving DecidableEq

/-- A client connection and its surroundings: the DCB pointer handed to the
handlers, the outcomes of the next `write` system calls on its socket (when
they run out the socket reports would-block), the bytes the socket has taken
so far, and the calls made through function tables, oldest first. -/
structure World where
  dcb : Option DCB
  script : List WriteResult
  sent : List Nat
  trace : List Call
deriving DecidableEq

/-- What the read handler finds on the socket: whether `ioctl(FIONREAD)`
succeeded, then the status and the buffer chain returned by
`gw_read_gwbuff` (a function of another file; only its result is used). -/
inductive ReadInput
  | ioctl_failed
  | read (ret : Int) (gw_buffer : List (List Nat))
deriving DecidableEq

/-! ## Buffers and wire encoding helpers -/

/-- Modelled from the spec: `gwbuf_append(head, tail)` (buffer file), "append
unconditionally (preserve byte order)": the chain `tail` is linked after the
chain `head`. -/
def gwbuf_append (head tail : List (List Nat)) : List (List Nat) := head ++ tail

/-- Modelled from the spec: `gwbuf_consume(head, length)` (buffer file),
"removal always removes exactly the number of bytes the underlying write call
reports as sent": `length` bytes leave the front of the first buffer, and a
first buffer left empty is unlinked. -/
def gwbuf_consume : List (List Nat) → Nat → List (List Nat)
  | [], _ => []
  | b :: rest, n => if b.drop n = [] then rest else b.drop n :: rest

/-- Modelled from the spec: macro `gw_mysql_set_byte2`, a 2-byte
little-endian field. -/
def gw_mysql_set_byte2 (n : Nat) : List Nat := [n % 256, n / 256 % 256]

/-- Modelled from the spec: macro `gw_mysql_set_byte3`, the "3-byte
little-endian length" of a frame header. -/
def gw_mysql_set_byte3 (n : Nat) : List Nat := [n % 256, n / 256 % 256, n / 65536 % 256]

/-- Modelled from the spec: macro `gw_mysql_get_byte4`, a 4-byte
little-endian field read as a number. -/
def gw_mysql_get_byte4 (b : List Nat) : Nat :=
  b.getD 0 0 + 256 * b.getD 1 0 + 65536 * b.getD 2 0 + 16777216 * b.getD 3 0

/-- The four little-endian bytes of a 32-bit number. -/
def le4 (c : Nat) : List Nat := [c % 256, c / 256 % 256, c / 65536 % 256, c / 16777216 % 256]

/-- A read of `n` bytes at offset `off` of the received buffer. -/
def readBytes (buf : List Nat) (off n : Nat) : Except Fault (List Nat) :=
  if off + n ≤ buf.length then .ok ((buf.drop off).take n) else .error .outsideFrame

/-- C `strncpy(dst, src, n)` followed by the uses of `dst` as a C string:
`src` is what the received buffer holds from the source pointer on. The
result is the string copied (the bytes before the first NUL). Reading
reaches the end of the buffer before a NUL and before `n` bytes: a read
outside the frame. `n` bytes without a NUL: `dst` has no terminator. -/
def strncpy : List Nat → Nat → Except Fault (List Nat)
  | _, 0 => .error .unterminated
  | [], _ + 1 => .error .outsideFrame
  | c :: cs, n + 1 => if c = 0 then .ok [] else (strncpy cs n).map (c :: ·)

/-! ## Auth-response decoder -/

/-- Source `gw_mysql_do_authentication(dcb, queue)`: `queue` is the data of
the first received buffer. Returns `auth_ret` and the DCB with the protocol
context and the session data as the function leaves them. The `malloc` of
the token copy is taken to succeed, the host to be little-endian (the length
byte is copied into the low byte of `auth_token_len`), and
`sizeof(protocol->scramble)` to be `GW_MYSQL_SCRAMBLE_SIZE`. -/
def gw_mysql_do_authentication (env : Env) (dcb : DCB) (queue : List Nat) :
    Except Fault (Int × DCB) :=
  match dcb.session, dcb.protocol with
  | none, _ => .error .nullDeref
  | some _, none => .error .nullDeref
  | some session, some protocol => do
    let client_data := session.data
    let client_capabilities ← readBytes queue 4 4
    let connect_with_db :=
      env.GW_MYSQL_CAPABILITIES_CONNECT_WITH_DB &&& gw_mysql_get_byte4 client_capabilities
    let username ← strncpy (queue.drop (4 + 4 + 4 + 1 + 23)) 128
    let len_byte ← readBytes queue (4 + 4 + 4 + 1 + 23 + username.length + 1) 1
    let auth_token_len := len_byte.headD 0
    let auth_token ←
      readBytes queue (4 + 4 + 4 + 1 + 23 + username.length + 1 + 1) auth_token_len
    let database ←
      if connect_with_db ≠ 0 then
        strncpy (queue.drop (4 + 4 + 4 + 1 + 23 + username.length + 1 + 1 + auth_token_len)) 128
      else .ok client_data.db
    let (auth_ret, stage1_hash) ←
      gw_check_mysql_scramble_data env (some auth_token) auth_token_len
        (some protocol.scramble) GW_MYSQL_SCRAMBLE_SIZE (some username)
        (some client_data.client_sha1)
    .ok (auth_ret,
      { dcb with
        protocol := some { protocol with client_capabilities := client_capabilities }
        session := some { session with
          data := { client_sha1 := stage1_hash.getD client_data.client_sha1
                    user := username
                    db := database } } })

/-! ## Buffered writer -/

/-- State of the write loop shared by `gw_MySQLWrite_client` and the drain
branch of `gw_write_client_event`. -/
structure WriteLoop where
  script : List WriteResult
  queue : List (List Nat)
  sent : List Nat
  n_writes : Nat
  saved_errno : Nat
deriving DecidableEq

/-- The loop `while (queue != NULL) { w = write(fd, GWBUF_DATA(queue), len);
saved_errno = errno; if (w < 0) break; queue = gwbuf_consume(queue, w); }`
run against the scripted socket. -/
def write_loop (env : Env) :
    List WriteResult → List (List Nat) → List Nat → Nat → Nat → WriteLoop
  | script, [], sent, n, e => ⟨script, [], sent, n, e⟩
  | [], b :: rest, sent, n, _ => ⟨[], b :: rest, sent, n + 1, env.EAGAIN⟩
  | .failed e :: script, b :: rest, sent, n, _ => ⟨script, b :: rest, sent, n + 1, e⟩
  | .accepted k :: script, b :: rest, sent, n, _ =>
    write_loop env script (gwbuf_consume (b :: rest) (min k b.length))
      (sent ++ b.take (min k b.length)) (n + 1) 0

/-- Source `gw_MySQLWrite_client(dcb, queue)`. -/
def gw_MySQLWrite_client (env : Env) (w : World) (queue : List (List Nat)) :
    Except Fault (Int × World) :=
  match w.dcb with
  | none => .error .nullDeref
  | some dcb =>
    if dcb.writeq ≠ [] then
      let dcb1 := { dcb with
        writeq := gwbuf_append dcb.writeq queue
        stats := { dcb.stats with n_buffered := dcb.stats.n_buffered + 1 } }
      let saved_errno := 0
      .ok (if queue ≠ [] ∧ (saved_errno ≠ env.EAGAIN ∨ saved_errno ≠ env.EWOULDBLOCK)
            then 1 else 0,
          { w with dcb := some dcb1 })
    else
      let r := write_loop env w.script queue w.sent 0 0
      let dcb1 := { dcb with
        writeq := r.queue
        stats := { n_writes := dcb.stats.n_writes + r.n_writes
                   n_buffered := if r.queue ≠ [] then dcb.stats.n_buffered + 1
                                 else dcb.stats.n_buffered } }
      .ok (if r.queue ≠ [] ∧ (r.saved_errno ≠ env.EAGAIN ∨ r.saved_errno ≠ env.EWOULDBLOCK)
            then 1 else 0,
          { w with dcb := some dcb1, script := r.script, sent := r.sent })

/-- A call `dcb->func.write(dcb, buf)` on the client connection, whose table
is this module's (`gw_MySQLWrite_client`); the status is ignored by every
caller. -/
def client_func_write (env : Env) (w : World) (buf : List (List Nat)) : Except Fault World :=
  (gw_MySQLWrite_client env { w with trace := w.trace ++ [.write .client .client buf] } buf).map
    Prod.snd

/-! ## Frames sent by the gateway -/

/-- Source `mysql_send_ok(dcb, packet_number, in_affected_rows,
mysql_message)`; buffer allocation is taken to succeed. The payload size is
a `uint8_t`; a message that does not fit the buffer of that size overruns
it. -/
def mysql_send_ok (env : Env) (w : World) (packet_number in_affected_rows : Int)
    (mysql_message : Option (List Nat)) : Except Fault (Int × World) :=
  let affected_rows := (in_affected_rows % 256).toNat
  let message := mysql_message.getD []
  let mysql_payload_size := (1 + 1 + 1 + 2 + 2 + message.length) % 256
  let mysql_packet_header :=
    gw_mysql_set_byte3 mysql_payload_size ++ [(packet_number % 256).toNat]
  let mysql_server_status := [2, 0]
  let mysql_warning_count := [0, 0]
  if mysql_payload_size < 1 + 1 + 1 + 2 + 2 + message.length then .error .bufferOverrun
  else do
    let buf := mysql_packet_header ++ [0] ++ [affected_rows] ++ [0] ++ mysql_server_status
      ++ mysql_warning_count ++ message
    let w1 ← client_func_write env w [buf]
    .ok ((4 + mysql_payload_size : Nat), w1)

/-- Source `mysql_send_auth_error(dcb, packet_number, in_affected_rows,
mysql_message)`; buffer allocation is taken to succeed. `memcpy(
mysql_statemsg+1, mysql_state, 5)` copies the four characters of `"2800"`
and the NUL that ends the literal. -/
def mysql_send_auth_error (env : Env) (w : World) (packet_number _in_affected_rows : Int)
    (mysql_message : Option (List Nat)) : Except Fault (Int × World) :=
  let mysql_errno := 1045
  let mysql_state := ascii "2800" ++ [0]
  let field_count := 0xff
  let mysql_err := gw_mysql_set_byte2 mysql_errno
  let mysql_statemsg := ascii "#" ++ mysql_state.take 5
  let mysql_error_msg := mysql_message.getD (ascii "Access denied!")
  let mysql_payload_size := (1 + 2 + 6 + mysql_error_msg.length) % 256
  let mysql_packet_header :=
    gw_mysql_set_byte3 mysql_payload_size ++ [(packet_number % 256).toNat]
  if mysql_payload_size < 1 + 2 + 6 + mysql_error_msg.length then .error .bufferOverrun
  else do
    let buf := mysql_packet_header ++ [field_count] ++ mysql_err ++ mysql_statemsg
      ++ mysql_error_msg
    let w1 ← client_func_write env w [buf]
    .ok ((4 + mysql_payload_size : Nat), w1)

/-! ## Event handlers -/

/-- Modelled from the spec: `gw_mysql_close(&dcb->protocol)` (protocol
utility file), "destroyed with the Connection ... release the descriptor and
drop all owned buffers": the protocol context is freed and the pointer set
to `NULL`. -/
def gw_mysql_close (dcb : DCB) : DCB := { dcb with protocol := none }

/-- Source `gw_error_client_event(dcb, epfd, event)`. -/
def gw_error_client_event (w : World) : Except Fault (Int × World) :=
  match w.dcb with
  | none => .error .nullDeref
  | some dcb =>
    if dcb.state = .DCB_STATE_DISCONNECTED then .ok (1, w)
    else
      let dcb1 :=
        if dcb.state ≠ .DCB_STATE_LISTENING then
          if dcb.fd ≠ 0 then { gw_mysql_close dcb with state := .DCB_STATE_DISCONNECTED }
          else dcb
        else dcb
      .ok (1, { w with dcb := some { dcb1 with state := .DCB_STATE_FREED } })

/-- A call `(dcb->func).error(dcb, epfd)` on the client connection, whose
table is this module's (`gw_error_client_event`). -/
def client_func_error (w : World) : Except Fault World :=
  (gw_error_client_event { w with trace := w.trace ++ [.error .client .client] }).map Prod.snd

/-- The assignment `protocol->state = s` through the handler's local
pointer to the protocol context. -/
def set_protocol_state (w : World) (s : MySQLState) : World :=
  { w with dcb := w.dcb.map fun dcb =>
      { dcb with protocol := dcb.protocol.map fun p => { p with state := s } } }

/-- Source `gw_write_client_event(dcb, epfd)`. -/
def gw_write_client_event (env : Env) (w : World) : Except Fault (Int × World) :=
  match w.dcb with
  | none => .ok (1, w)
  | some dcb =>
    if dcb.state = .DCB_STATE_DISCONNECTED then .ok (1, w)
    else
      match dcb.protocol with
      | none => .ok (1, w)
      | some protocol =>
        match dcb.session with
        | none => .ok (1, w)
        | some session =>
          if protocol.state = .MYSQL_AUTH_RECV then do
            let (_, w1) ← mysql_send_ok env w 2 0 none
            .ok (0, set_protocol_state w1 .MYSQL_IDLE)
          else if protocol.state = .MYSQL_AUTH_FAILED then do
            let (_, w1) ← mysql_send_auth_error env w 2 0 (some (ascii "Authorization failed"))
            let w2 ← client_func_error w1
            let w3 :=
              if session.backends.isSome then
                { w2 with trace := w2.trace ++ [.error .backend .backend] }
              else w2
            .ok (0, w3)
          else if protocol.state = .MYSQL_IDLE ∨ protocol.state = .MYSQL_WAITING_RESULT then
            if dcb.writeq ≠ [] then
              let r := write_loop env w.script dcb.writeq w.sent 0 0
              .ok (1, { w with dcb := some { dcb with writeq := r.queue }
                               script := r.script, sent := r.sent })
            else .ok (1, w)
          else .ok (1, w)

/-- Source `gw_read_client_event(dcb, epfd)`. -/
def gw_read_client_event (env : Env) (w : World) (input : ReadInput) :
    Except Fault (Int × World) :=
  match w.dcb with
  | none => .error .nullDeref
  | some dcb =>
    match input with
    | .ioctl_failed => .ok (1, w)
    | .read ret gw_buffer =>
      match dcb.protocol with
      | none => .error .nullDeref
      | some protocol =>
        match protocol.state with
        | .MYSQL_AUTH_SENT =>
          if ret ≠ 0 then .ok (ret, w)
          else
            match gw_buffer with
            | [] => .error .nullDeref
            | queue :: _ => do
              let (auth_val, dcb1) ← gw_mysql_do_authentication env dcb queue
              let w1 := { w with dcb := some dcb1 }
              if auth_val = 0 then .ok (0, set_protocol_state w1 .MYSQL_AUTH_RECV)
              else .ok (0, set_protocol_state w1 .MYSQL_AUTH_FAILED)
        | .MYSQL_IDLE | .MYSQL_WAITING_RESULT =>
          if ret ≠ 0 then .ok (ret, w)
          else
            match gw_buffer with
            | [] => .error .nullDeref
            | ptr_buff :: rest => do
              let command ← readBytes ptr_buff 4 1
              let mysql_command := command.headD 0
              if mysql_command = 1 then
                match dcb.session with
                | none => .error .nullDeref
                | some session =>
                  let w1 :=
                    if session.backends.isSome then
                      { w with trace := w.trace ++
                          [.write .backend .client (ptr_buff :: rest), .error .backend .backend] }
                    else w
                  do
                    let w2 ← client_func_error w1
                    .ok (1, w2)
              else
                let w1 := set_protocol_state w .MYSQL_ROUTING
                match dcb.session with
                | none => .error .nullDeref
                | some session =>
                  match session.backends with
                  | none => .error .nullDeref
                  | some _ =>
                    let w2 := { w1 with trace := w1.trace ++
                      [.write .backend .backend (ptr_buff :: rest)] }
                    .ok (0, set_protocol_state w2 .MYSQL_WAITING_RESULT)
        | _ => .ok (0, w)

/-- Protocol sub-state of the connection, when it still has a protocol
context. -/
def World.substate (w : World) : Option MySQLState :=
  (w.dcb.bind fun dcb => dcb.protocol).map fun p => p.state

/-- Queued bytes of the connection. -/
def World.queued (w : World) : List Nat :=
  match w.dcb with
  | none => []
  | some dcb => flat dcb.writeq

/-- The contents of `step2` after `gw_str_xor`: the XOR of the token with
`step1` over the token's length, then the zeros the array was declared with. -/
def step2_of (token step1 : List Nat) (token_len : Nat) : List Nat :=
  List.zipWith (· ^^^ ·) (token.take token_len) (step1.take token_len)
    ++ zeros (GW_MYSQL_SCRAMBLE_SIZE + 1 - token_len)

/-! ## Concrete inputs -/

/-- User name `alice`. -/
def userAlice : List Nat := ascii "alice"

/-- User name `kw`, whose SHA-1 ends in a zero byte. -/
def userKw : List Nat := ascii "kw"

/-- A 20-byte printable challenge. -/
def sampleChallenge : List Nat := ascii "abcdefghijklmnopqrst"

/-- SHA-1 of the password `alice`. -/
def aliceStage1 : List Nat :=
  [82, 43, 39, 106, 53, 107, 223, 57, 1, 61, 250, 190, 162, 205, 67, 225, 65, 236, 201, 232]

/-- SHA-1 of SHA-1 of the password `alice`: the stored hash of user `alice`. -/
def aliceStored : List Nat :=
  [79, 92, 202, 101, 123, 214, 29, 28, 17, 39, 229, 196, 234, 59, 14, 228, 169, 132, 27, 133]

/-- The token a client computes for user `alice`, password `alice` and
`sampleChallenge`. -/
def aliceToken : List Nat :=
  [103, 57, 208, 38, 137, 39, 254, 11, 176, 73, 61, 139, 241, 232, 125, 228, 79, 224, 43, 10]

/-- SHA-1 of the password `kw`. -/
def kwStage1 : List Nat :=
  [95, 28, 11, 232, 144, 19, 248, 253, 233, 105, 168, 220, 178, 250, 29, 82, 46, 148, 238, 0]

/-- The stored hash of user `kw`. -/
def kwStored : List Nat :=
  [35, 211, 192, 109, 145, 28, 0, 11, 114, 1, 198, 171, 92, 56, 180, 96, 17, 41, 214, 23]

/-- The first 19 bytes of the token a client computes for user `kw`,
password `kw` and `sampleChallenge`. -/
def kwToken19 : List Nat :=
  [254, 110, 139, 244, 146, 65, 208, 187, 154, 73, 41, 129, 123, 143, 213, 106, 132, 114, 73]

/-- The DCB as the decoder leaves it: capability bytes in the protocol
context; user name, database name and stage-1 buffer in the session data. -/
def decoded_dcb (dcb : DCB) (session : SESSION) (protocol : MySQLProtocol)
    (caps user db : List Nat) (stage1 : Option (List Nat)) : DCB :=
  { dcb with
    protocol := some { protocol with client_capabilities := caps }
    session := some { session with
      data := { client_sha1 := stage1.getD session.data.client_sha1
                user := user
                db := db } } }

/-- A client connection right after the handshake was sent: sub-state
`MYSQL_AUTH_SENT`, challenge `sampleChallenge`, empty session data, no
backend, empty write queue. -/
def sampleDcb : DCB :=
  { fd := 5
    state := .DCB_STATE_PROCESSING
    protocol := some { state := .MYSQL_AUTH_SENT, scramble := sampleChallenge,
                       client_capabilities := zeros 4 }
    session := some { data := { client_sha1 := zeros 20, user := [], db := [] },
                      backends := none }
    writeq := []
    stats := { n_writes := 0, n_buffered := 0 } }

/-- Client capability word `0x000fa68d`; bit `1 << 3` (connect with db) is
set. -/
def sampleCaps : Nat := 0x000fa68d

/-- Bytes 8..35 of an auth response: maximum packet size, character set, 23
reserved bytes. -/
def sampleSkip : List Nat := [0, 0, 0, 1] ++ [8] ++ zeros 23

/-- The auth response of user `alice` (password `alice`) to
`sampleChallenge`, asking for database `test`: 4-byte header, 64-byte
payload. -/
def aliceFrame : List Nat :=
  [64, 0, 0, 1] ++ le4 sampleCaps ++ sampleSkip ++ userAlice ++ [0] ++ [aliceToken.length]
    ++ aliceToken ++ ascii "test" ++ [0]

/-- A frame cut after 6 payload bytes: header, capability word, 2 bytes. -/
def shortFrame : List Nat := [6, 0, 0, 1] ++ le4 sampleCaps ++ [0, 0]

/-- A frame that ends inside the user name: the 36-byte prefix, then `ali`. -/
def cutUserFrame : List Nat := [35, 0, 0, 1] ++ le4 sampleCaps ++ sampleSkip ++ ascii "ali"

/-- A call on the write queue of one connection: `gw_MySQLWrite_client` with
a buffer chain, or the write-ready handler. -/
inductive QueueCall
  | enqueue (queue : List (List Nat))
  | drain
deriving DecidableEq

/-- The bytes a call adds to the stream of the connection. -/
def QueueCall.payload : QueueCall → List Nat
  | .enqueue queue => flat queue
  | .drain => []

/-- One call on the write queue. -/
def queue_step (env : Env) (w : World) : QueueCall → Except Fault (Int × World)
  | .enqueue queue => gw_MySQLWrite_client env w queue
  | .drain => gw_write_client_event env w

/-- A sequence of calls on the write queue, statuses dropped. -/
def queue_run (env : Env) : World → List QueueCall → Except Fault World
  | w, [] => .ok w
  | w, c :: cs =>
    match queue_step env w c with
    | .error e => .error e
    | .ok (_, w1) => queue_run env w1 cs

/-- A connection on which the write-ready handler drains the queue: not
disconnected, with a session, sub-state `MYSQL_IDLE` or
`MYSQL_WAITING_RESULT`. -/
def World.Draining (w : World) : Prop :=
  ∃ dcb protocol session, w.dcb = some dcb ∧ dcb.state ≠ .DCB_STATE_DISCONNECTED
    ∧ dcb.protocol = some protocol ∧ dcb.session = some session
    ∧ (protocol.state = .MYSQL_IDLE ∨ protocol.state = .MYSQL_WAITING_RESULT)

/-- An idle connection with two buffers queued, whose socket takes 3 bytes,
is offered 1 byte and takes it, fails with `EAGAIN`, then takes 1 byte. -/
def sampleIdleWorld : World :=
  { dcb := some { sampleDcb with
      protocol := some { state := .MYSQL_IDLE, scramble := sampleChallenge,
                         client_capabilities := le4 sampleCaps }
      writeq := [[1, 2, 3, 4], [5, 6]] }
    script := [.accepted 3, .accepted 2, .failed 11, .accepted 1]
    sent := []
    trace := [] }

/-- The client connection `sampleDcb` with a socket that takes whatever it is
offered once, nothing sent yet, no call made yet. -/
def sampleWorld : World :=
  { dcb := some sampleDcb, script := [.accepted 64], sent := [], trace := [] }

/-- The connection of `sampleWorld` after the auth response of `alice` was
decoded, with the sub-state given. -/
def aliceDcb (s : MySQLState) : DCB :=
  { sampleDcb with
    protocol := some { state := s, scramble := sampleChallenge,
                       client_capabilities := le4 sampleCaps }
    session := some { data := { client_sha1 := aliceStage1, user := userAlice,
                                db := ascii "test" },
                      backends := none } }

/-- The OK frame of sequence number 2: no affected rows, no message. -/
def okFrame2 : List Nat := [7, 0, 0, 2, 0, 0, 0, 2, 0, 0, 0]

/-- The ERROR frame of sequence number 2 sent after a failed
authentication: payload length 29, field count 0xff, error code 1045
little-endian, the six state bytes, the message. -/
def authErrorFrame2 : List Nat :=
  [29, 0, 0, 2, 0xff, 0x15, 0x04] ++ ascii "#2800" ++ [0] ++ ascii "Authorization failed"

/-- An authenticated, idle client connection paired with a backend: nothing
queued, nothing sent, no call made yet. -/
def sampleBackendWorld : World :=
  { dcb := some { aliceDcb .MYSQL_IDLE with
      session := some { data := { client_sha1 := aliceStage1, user := userAlice,
                                  db := ascii "test" },
                        backends := some { fd := 7 } } }
    script := []
    sent := []
    trace := [] }

/-- A command frame with the query `select 1`: command code 0x03. -/
def queryFrame : List Nat := [9, 0, 0, 0, 3] ++ ascii "select 1"

/-- The disconnect command frame: one payload byte, command code 0x01. -/
def quitFrame : List Nat := [1, 0, 0, 0, 1]

/-- A readiness event on the client connection: read-ready with what the
socket then delivers, or write-ready. -/
inductive Event
  | readable (input : ReadInput)
  | writable
deriving DecidableEq

/-- The handler that the event loop calls for an event. -/
def handle (env : Env) (w : World) : Event → Except Fault (Int × World)
  | .readable input => gw_read_client_event env w input
  | .writable => gw_write_client_event env w

/-- A sequence of events handled one after the other, statuses dropped; a
fault ends the run. -/
def handle_run (env : Env) : World → List Event → Except Fault World
  | w, [] => .ok w
  | w, e :: es =>
    match handle env w e with
    | .error f => .error f
    | .ok (_, w1) => handle_run env w1 es

/-- The connection of `alice` after a failed authentication was reported:
ERROR frame on the socket, client error handler called, protocol context
closed. -/
def failedClosedWorld : World :=
  { dcb := some { aliceDcb .MYSQL_AUTH_FAILED with
                  state := .DCB_STATE_FREED
                  protocol := none
                  stats := { n_writes := 1, n_buffered := 0 } }
    script := []
    sent := authErrorFrame2
    trace := [.write .client .client [authErrorFrame2], .error .client .client] }

/-- An auth response like `aliceFrame` for the user and token given, no
database name. -/
def authFrame (user token : List Nat) : List Nat :=
  [0, 0, 0, 1] ++ le4 0 ++ sampleSkip ++ user ++ [0] ++ [token.length] ++ token

/-! ## Server greeting -/

/-- Constants of the protocol header and of the process that
`MySQLSendHandshake` uses: none of them is defined in `mysql_client.c`. -/
structure HandshakeEnv where
  /-- macro `GW_MYSQL_PROTOCOL_VERSION` -/
  GW_MYSQL_PROTOCOL_VERSION : Nat
  /-- the characters of the string literal `GW_MYSQL_VERSION` -/
  GW_MYSQL_VERSION : List Nat
  /-- macro `GW_MYSQL_SERVER_CAPABILITIES_BYTE1` -/
  GW_MYSQL_SERVER_CAPABILITIES_BYTE1 : Nat
  /-- macro `GW_MYSQL_SERVER_CAPABILITIES_BYTE2` -/
  GW_MYSQL_SERVER_CAPABILITIES_BYTE2 : Nat
  /-- capability mask `GW_MYSQL_CAPABILITIES_COMPRESS` -/
  GW_MYSQL_CAPABILITIES_COMPRESS : Nat
  /-- capability mask `GW_MYSQL_CAPABILITIES_SSL` -/
  GW_MYSQL_CAPABILITIES_SSL : Nat
  /-- the value of `getpid()` -/
  pid : Nat

/-- Modelled from the spec: macro `GW_MYSQL_HANDSHAKE_FILLER`, "1 filler byte
(0x00)". -/
def GW_MYSQL_HANDSHAKE_FILLER : Nat := 0

/-- Modelled from the spec: macro `gw_mysql_set_byte4`, a 4-byte
little-endian field ("4-byte connection id") holding a C `int`. -/
def gw_mysql_set_byte4 (n : Int) : List Nat := le4 (n % 4294967296).toNat

/-- Modelled from the spec: `gw_generate_random_str(output, len)` (utility
file), "random 20 printable bytes": `output` receives the `len` characters
`random` drawn by the generator. -/
def gw_generate_random_str (random : List Nat) (len : Nat) : List Nat :=
  (random ++ zeros len).take len

/-- C `x &= ~m` on a `uint8_t x` and an `int` mask `m`: the bits of `m` are
cleared in the byte. -/
def and_not_byte (x m : Nat) : Nat := (x % 256) ^^^ ((x % 256) &&& m)

/-- Source `MySQLSendHandshake(dcb)`; `random` is what the random generator
draws, buffer allocation is taken to succeed. The payload size is a
`uint8_t`; a version string that does not fit the buffer of that size
overruns it. -/
def MySQLSendHandshake (env : Env) (cfg : HandshakeEnv) (random : List Nat) (w : World) :
    Except Fault (Int × World) :=
  match w.dcb with
  | none => .error .nullDeref
  | some dcb =>
    match dcb.protocol with
    | none => .error .nullDeref
    | some protocol =>
      let mysql_packet_id := 0
      let mysql_server_language := 8
      let mysql_scramble_len := 21
      let mysql_filler_ten := zeros 10
      let mysql_last_byte := 0
      let server_scramble := gw_generate_random_str random GW_MYSQL_SCRAMBLE_SIZE
      let protocol1 :=
        { protocol with
          scramble := memcpy protocol.scramble server_scramble GW_MYSQL_SCRAMBLE_SIZE }
      let mysql_thread_id := gw_mysql_set_byte4 ((cfg.pid : Int) + dcb.fd)
      let mysql_scramble_buf := memcpy (zeros 9) server_scramble 8
      let mysql_plugin_data := memcpy (zeros 13) (server_scramble.drop 8) 12
      let full_size := 1 + (cfg.GW_MYSQL_VERSION.length + 1) + 4 + 8 + 1 + 2 + 1 + 2 + 2 + 1
        + 10 + 12 + 1 + (ascii "mysql_native_password").length + 1
      let mysql_payload_size := full_size % 256
      if mysql_payload_size < full_size then .error .bufferOverrun
      else do
        let mysql_packet_header := gw_mysql_set_byte3 mysql_payload_size ++ [mysql_packet_id]
        let mysql_server_capabilities_one :=
          [and_not_byte
              (and_not_byte cfg.GW_MYSQL_SERVER_CAPABILITIES_BYTE1
                cfg.GW_MYSQL_CAPABILITIES_COMPRESS)
              cfg.GW_MYSQL_CAPABILITIES_SSL,
            cfg.GW_MYSQL_SERVER_CAPABILITIES_BYTE2 % 256]
        let mysql_server_status := [2, 0]
        let mysql_server_capabilities_two := [15, 128]
        let buf := mysql_packet_header
          ++ [cfg.GW_MYSQL_PROTOCOL_VERSION % 256]
          ++ cfg.GW_MYSQL_VERSION ++ [0]
          ++ mysql_thread_id
          ++ mysql_scramble_buf.take 8 ++ [GW_MYSQL_HANDSHAKE_FILLER]
          ++ mysql_server_capabilities_one
          ++ [mysql_server_language]
          ++ mysql_server_status
          ++ mysql_server_capabilities_two
          ++ [mysql_scramble_len]
          ++ mysql_filler_ten
          ++ mysql_plugin_data.take 12 ++ [mysql_last_byte]
          ++ ascii "mysql_native_password" ++ [mysql_last_byte]
        let w1 ← client_func_write env
          { w with dcb := some { dcb with protocol := some protocol1 } } [buf]
        .ok ((4 + mysql_payload_size : Nat), w1)

/-- The constants of the protocol header as the gateway ships them: protocol
version 10, capability bytes `0xff` and `0xf7`, compression bit `1 << 5`,
SSL bit `1 << 11`; a process id. -/
def sampleHandshakeEnv : HandshakeEnv :=
  { GW_MYSQL_PROTOCOL_VERSION := 10
    GW_MYSQL_VERSION := ascii "5.5.22-SKYSQL-0.1.0"
    GW_MYSQL_SERVER_CAPABILITIES_BYTE1 := 0xff
    GW_MYSQL_SERVER_CAPABILITIES_BYTE2 := 0xf7
    GW_MYSQL_CAPABILITIES_COMPRESS := 32
    GW_MYSQL_CAPABILITIES_SSL := 2048
    pid := 4242 }

/-- The same constants with the second initial capability byte configured as
`0xff`. -/
def allCapsHandshakeEnv : HandshakeEnv :=
  { sampleHandshakeEnv with GW_MYSQL_SERVER_CAPABILITIES_BYTE2 := 0xff }

/-- A freshly accepted client connection: sub-state `MYSQL_ALLOC`, challenge
not yet drawn, with a socket that takes the greeting at once. -/
def acceptedWorld : World :=
  { dcb := some { sampleDcb with
      protocol := some { state := .MYSQL_ALLOC, scramble := zeros 20,
                         client_capabilities := zeros 4 } }
    script := [.accepted 200]
    sent := []
    trace := [] }

/-- The payload of the greeting, field by field, for the constants `cfg`,
the descriptor `fd` and the challenge `random`. -/
def greeting_payload (cfg : HandshakeEnv) (fd : Int) (random : List Nat) : List Nat :=
  [cfg.GW_MYSQL_PROTOCOL_VERSION % 256]
    ++ cfg.GW_MYSQL_VERSION ++ [0]
    ++ gw_mysql_set_byte4 ((cfg.pid : Int) + fd)
    ++ random.take 8 ++ [0]
    ++ [and_not_byte
          (and_not_byte cfg.GW_MYSQL_SERVER_CAPABILITIES_BYTE1
            cfg.GW_MYSQL_CAPABILITIES_COMPRESS)
          cfg.GW_MYSQL_CAPABILITIES_SSL,
        cfg.GW_MYSQL_SERVER_CAPABILITIES_BYTE2 % 256]
    ++ [8] ++ [2, 0] ++ [15, 128] ++ [21] ++ zeros 10
    ++ random.drop 8 ++ [0]
    ++ ascii "mysql_native_password" ++ [0]

/-! ## Inputs for the writer's status and the absent backend -/

/-- An idle connection with the buffers `1 2 3 4` and `5 6` queued and the
socket script given. -/
def idleQueuedWorld (script : List WriteResult) : World :=
  { sampleIdleWorld with script := script }

/-- An idle connection with an empty write queue and no backend, as
`gw_MySQLAccept` and the authentication leave it. -/
def idleEmptyWorld : World :=
  { sampleWorld with dcb := some (aliceDcb .MYSQL_IDLE) }

/-- The handlers' argument when the DCB pointer is `NULL`. -/
def nullDcbWorld : World :=
  { sampleWorld with dcb := none }

/-- An idle connection whose DCB is `DCB_STATE_DISCONNECTED`. -/
def disconnectedWorld : World :=
  { sampleWorld with
    dcb := some { aliceDcb .MYSQL_IDLE with state := .DCB_STATE_DISCONNECTED } }

/-! ## Write loop against an unbounded transport -/

/-- What the write loop leaves when it exits: the chain still queued, the
bytes the socket took, the number of `write` calls made, `saved_errno`. -/
structure LoopEnd where
  queue : List (List Nat)
  sent : List Nat
  n_writes : Nat
  saved_errno : Nat
deriving DecidableEq

/-- The loop of `write_loop`, `while (queue != NULL) { w = write(fd,
GWBUF_DATA(queue), len); saved_errno = errno; if (w < 0) break; queue =
gwbuf_consume(queue, w); }`, against a socket whose outcome at the call of
index `i` is `t i` for every `i`. `fuel` bounds the number of iterations; the
result is `none` when the loop has not exited within them. -/
def write_loop_fuel (t : Nat → WriteResult) :
    Nat → Nat → List (List Nat) → List Nat → Nat → Nat → Option LoopEnd
  | _, _, [], sent, n, e => some ⟨[], sent, n, e⟩
  | 0, _, _ :: _, _, _, _ => none
  | fuel + 1, i, b :: rest, sent, n, _ =>
    match t i with
    | .failed e => some ⟨b :: rest, sent, n + 1, e⟩
    | .accepted k =>
      write_loop_fuel t fuel (i + 1) (gwbuf_consume (b :: rest) (min k b.length))
        (sent ++ b.take (min k b.length)) (n + 1) 0

/-- A socket that takes one byte at each call. -/
def byteAtATime : Nat → WriteResult := fun _ => .accepted 1

/-- A socket that takes one byte at each of its first three calls and then
fails with `EPIPE` (32). -/
def breakingTransport : Nat → WriteResult := fun i => if i < 3 then .accepted 1 else .failed 32

/-- A socket whose `write` returns 0 at each call. -/
def stalledTransport : Nat → WriteResult := fun _ => .accepted 0

/-! ## Helper lemmas -/

theorem zipWith_xor_cancel (a b : List Nat) (h : a.length = b.length) :
    List.zipWith (· ^^^ ·) (List.zipWith (· ^^^ ·) a b) b = a := by
  induction a generalizing b with
  | nil => simp
  | cons x xs ih =>
    cases b with
    | nil => simp at h
    | cons y ys =>
      simp only [List.length_cons, Nat.add_right_cancel_iff] at h
      simp [ih ys h, Nat.xor_cancel_right]

theorem memcmp_eq_zero_iff (n : Nat) (a b : List Nat) (ha : a.length = n) (hb : b.length = n) :
    memcmp a b n = 0 ↔ a = b := by
  induction n generalizing a b with
  | zero =>
    simp [memcmp, List.length_eq_zero.mp ha, List.length_eq_zero.mp hb]
  | succ n ih =>
    cases a with
    | nil => simp at ha
    | cons x xs =>
      cases b with
      | nil => simp at hb
      | cons y ys =>
        simp only [List.length_cons, Nat.add_right_cancel_iff] at ha hb
        by_cases hxy : x = y
        · simp [memcmp, hxy, ih xs ys ha hb]
        · simp [memcmp, hxy]
          omega

theorem find_accepts (env : Env) (hd : env.Digest20) (username stored : List Nat)
    (h : gw_find_mysql_user_password_sha1 env username (zeros GW_MYSQL_SCRAMBLE_SIZE)
      = (0, stored)) :
    username ≠ ascii "root" ∧ stored = env.gw_sha1_str (env.gw_sha1_str username) := by
  unfold gw_find_mysql_user_password_sha1 at h
  by_cases hr : username = ascii "root"
  · simp [hr] at h
  · simp only [hr, if_false, Prod.mk.injEq, true_and] at h
    refine ⟨hr, ?_⟩
    rw [← h]
    have h1 := hd username
    have h2 := hd ((env.gw_sha1_str username).take SHA_DIGEST_LENGTH)
    simp [memcpy, SHA_DIGEST_LENGTH, GW_MYSQL_SCRAMBLE_SIZE, zeros] at *
    rw [List.take_of_length_le (by omega)]
    rw [List.take_of_length_le (by omega)]

theorem str_xor_step2 (token step1 : List Nat) (token_len : Nat)
    (htl : token_len ≤ token.length) (h1 : step1.length = 20) (hlen : token_len ≤ 20) :
    gw_str_xor (zeros (GW_MYSQL_SCRAMBLE_SIZE + 1)) token step1 token_len
      = .ok (step2_of token step1 token_len) := by
  unfold gw_str_xor step2_of zeros
  rw [if_neg (by simp only [List.length_replicate, GW_MYSQL_SCRAMBLE_SIZE]; omega)]
  rw [List.drop_replicate]

/-- What the scramble check computes for a known user and a token of at most
20 bytes. -/
theorem check_known_user (env : Env) (hd : env.Digest20)
    (token scramble username stage1 stored : List Nat) (token_len : Nat)
    (hfind : gw_find_mysql_user_password_sha1 env username (zeros GW_MYSQL_SCRAMBLE_SIZE)
      = (0, stored))
    (hsc : scramble.length = 20) (htl : token_len ≤ token.length) (hlen : token_len ≤ 20) :
    gw_check_mysql_scramble_data env (some token) token_len (some scramble) 20
        (some username) (some stage1)
      = .ok (memcmp stored (env.gw_sha1_str
            ((step2_of token (env.gw_sha1_str (scramble ++ stored)) token_len).take 20)) 20,
          some (memcpy stage1
            (step2_of token (env.gw_sha1_str (scramble ++ stored)) token_len) 20)) := by
  have hst := (find_accepts env hd username stored hfind).2
  have hstl : stored.length = 20 := by rw [hst]; exact hd _
  have h1 := hd (scramble ++ stored)
  have e1 : List.take 20 scramble = scramble := List.take_of_length_le (by omega)
  have e2 : List.take 20 stored = stored := List.take_of_length_le (by omega)
  have hx := str_xor_step2 token (env.gw_sha1_str (scramble ++ stored)) token_len htl h1 hlen
  simp only [gw_check_mysql_scramble_data, hfind]
  simp only [gw_sha1_2_str, SHA_DIGEST_LENGTH, hsc, hstl, e1, e2]
  simp [bind, Except.bind, hx]

theorem linuxEnv_digest20 : linuxEnv.Digest20 := by
  intro x
  simp [linuxEnv, SHA1.sha1, SHA1.be]

/-- The SHA-1 model on the test vector `abc` of FIPS 180. -/
theorem sha1_test_vector_abc :
    SHA1.sha1 (ascii "abc")
      = [0xa9, 0x99, 0x3e, 0x36, 0x47, 0x06, 0x81, 0x6a, 0xba, 0x3e, 0x25, 0x71, 0x78, 0x50,
          0xc2, 0x6c, 0x9c, 0xd0, 0xd8, 0x9d] := by
  decide

/-- The SHA-1 model on the empty message. -/
theorem sha1_test_vector_empty :
    SHA1.sha1 []
      = [0xda, 0x39, 0xa3, 0xee, 0x5e, 0x6b, 0x4b, 0x0d, 0x32, 0x55, 0xbf, 0xef, 0x95, 0x60,
          0x18, 0x90, 0xaf, 0xd8, 0x07, 0x09] := by
  decide

/-- The SHA-1 model on a two-block message (the 56-byte test vector of
FIPS 180). -/
theorem sha1_test_vector_two_blocks :
    SHA1.sha1 (ascii "abcdbcdecdefdefgefghfghighijhijkijkljklmklmnlmnomnopnopq")
      = [0x84, 0x98, 0x3e, 0x44, 0x1c, 0x3b, 0xd2, 0x6e, 0xba, 0xae, 0x4a, 0xa1, 0xf9, 0x51,
          0x29, 0xe5, 0xe5, 0x46, 0x70, 0xf1] := by
  decide

theorem step2_of_full (token step1 : List Nat) (ht : token.length = 20)
    (h1 : step1.length = 20) :
    (step2_of token step1 20).take 20 = List.zipWith (· ^^^ ·) token step1 := by
  unfold step2_of
  have e1 : token.take 20 = token := List.take_of_length_le (by omega)
  have e2 : step1.take 20 = step1 := List.take_of_length_le (by omega)
  rw [e1, e2, List.take_append_of_le_length (by simp [ht, h1])]
  exact List.take_of_length_le (by simp [ht, h1])

/-! ## Authentication engine: C1, C2, C3, C7 -/

/-- C1: for a username the lookup accepts (returning `stored_hash`), a 20-byte
challenge and a 20-byte `s1` with `SHA1(s1) = stored_hash`, the check called
with the 20-byte token `s1 XOR SHA1(challenge ++ stored_hash)` returns 0 and
leaves exactly `s1` in the 20-byte `stage1_hash` buffer; the digest is any
function to 20 bytes. -/
theorem C1_correct_token_accepted (env : Env) (hd : env.Digest20)
    (username challenge stored_hash s1 stage1_hash : List Nat)
    (hfind : gw_find_mysql_user_password_sha1 env username (zeros GW_MYSQL_SCRAMBLE_SIZE)
      = (0, stored_hash))
    (hch : challenge.length = 20) (hs1 : s1.length = 20)
    (hsha : env.gw_sha1_str s1 = stored_hash) (hbuf : stage1_hash.length = 20) :
    gw_check_mysql_scramble_data env
        (some (List.zipWith (· ^^^ ·) s1 (env.gw_sha1_str (challenge ++ stored_hash)))) 20
        (some challenge) 20 (some username) (some stage1_hash)
      = .ok (0, some s1) := by
  have h1 := hd (challenge ++ stored_hash)
  have hstl : stored_hash.length = 20 := by rw [← hsha]; exact hd _
  have htok : (List.zipWith (· ^^^ ·) s1 (env.gw_sha1_str (challenge ++ stored_hash))).length
      = 20 := by simp [hs1, h1]
  rw [check_known_user env hd _ challenge username stage1_hash stored_hash 20 hfind hch
    (by omega) (by omega)]
  have hs2 := step2_of_full _ _ htok h1
  rw [zipWith_xor_cancel s1 _ (by omega)] at hs2
  have hmem : memcpy stage1_hash
      (step2_of (List.zipWith (· ^^^ ·) s1 (env.gw_sha1_str (challenge ++ stored_hash)))
        (env.gw_sha1_str (challenge ++ stored_hash)) 20) 20 = s1 := by
    unfold memcpy
    rw [hs2, List.drop_of_length_le (by omega), List.append_nil]
  rw [hs2, hmem, hsha, (memcmp_eq_zero_iff 20 stored_hash stored_hash hstl hstl).mpr rfl]

/-- C1 at user `alice` with the standard SHA-1: the client's token is
accepted and `SHA1("alice")` is written to the buffer. -/
theorem C1_correct_token_accepted_witness :
    gw_find_mysql_user_password_sha1 linuxEnv userAlice (zeros GW_MYSQL_SCRAMBLE_SIZE)
        = (0, aliceStored)
      ∧ linuxEnv.gw_sha1_str aliceStage1 = aliceStored
      ∧ List.zipWith (· ^^^ ·) aliceStage1
          (linuxEnv.gw_sha1_str (sampleChallenge ++ aliceStored)) = aliceToken
      ∧ gw_check_mysql_scramble_data linuxEnv
          (some (List.zipWith (· ^^^ ·) aliceStage1
            (linuxEnv.gw_sha1_str (sampleChallenge ++ aliceStored)))) 20
          (some sampleChallenge) 20 (some userAlice) (some (zeros 20))
        = .ok (0, some aliceStage1) :=
  ⟨by decide, by decide, by decide,
    C1_correct_token_accepted linuxEnv linuxEnv_digest20 userAlice sampleChallenge aliceStored
      aliceStage1 (zeros 20) (by decide) (by decide) (by decide) (by decide) (by decide)⟩

/-- The scramble check on a 20-byte token `t'`, for a known user and a
20-byte challenge: it returns a status, and the status is 0 exactly when
`SHA1(t' XOR SHA1(challenge ++ stored_hash))` is the stored hash. So when a
token that differs from `s1 XOR SHA1(challenge ++ stored_hash)` is accepted,
`t' XOR SHA1(challenge ++ stored_hash)` is a 20-byte value other than `s1`
whose digest is the stored hash. The digest is any function to 20 bytes,
the standard SHA-1 among them. -/
theorem wrong_token_accepted_iff (env : Env) (hd : env.Digest20)
    (username challenge stored_hash s1 t' stage1_hash : List Nat)
    (hfind : gw_find_mysql_user_password_sha1 env username (zeros GW_MYSQL_SCRAMBLE_SIZE)
      = (0, stored_hash))
    (hch : challenge.length = 20) (ht' : t'.length = 20) :
    ∃ ret stage1,
      gw_check_mysql_scramble_data env (some t') 20 (some challenge) 20 (some username)
          (some stage1_hash) = .ok (ret, stage1)
      ∧ (ret = 0 ↔
          env.gw_sha1_str (List.zipWith (· ^^^ ·) t'
            (env.gw_sha1_str (challenge ++ stored_hash))) = stored_hash)
      ∧ (t' ≠ List.zipWith (· ^^^ ·) s1 (env.gw_sha1_str (challenge ++ stored_hash)) →
          ret = 0 →
          (List.zipWith (· ^^^ ·) t' (env.gw_sha1_str (challenge ++ stored_hash))).length = 20
            ∧ List.zipWith (· ^^^ ·) t' (env.gw_sha1_str (challenge ++ stored_hash)) ≠ s1
            ∧ env.gw_sha1_str (List.zipWith (· ^^^ ·) t'
                (env.gw_sha1_str (challenge ++ stored_hash))) = stored_hash) := by
  have h1 := hd (challenge ++ stored_hash)
  have hstl : stored_hash.length = 20 := by
    rw [(find_accepts env hd username stored_hash hfind).2]; exact hd _
  refine ⟨_, _, check_known_user env hd t' challenge username stage1_hash stored_hash 20 hfind
    hch (by omega) (by omega), ?_, ?_⟩
  · rw [step2_of_full t' _ ht' h1, memcmp_eq_zero_iff 20 _ _ hstl (hd _)]
    exact eq_comm
  · intro hne hret
    rw [step2_of_full t' _ ht' h1, memcmp_eq_zero_iff 20 _ _ hstl (hd _)] at hret
    refine ⟨by simp [ht', h1], ?_, hret.symm⟩
    intro hx
    apply hne
    rw [← hx, zipWith_xor_cancel t' _ (by omega)]

/-- With the standard SHA-1, at user `alice` and `sampleChallenge`: the
correct token is accepted, and the correct token with the lowest bit of its
first byte flipped, the correct token with the highest bit of its last byte
flipped, and the token `1,0,...,0` are rejected. -/
theorem flipped_tokens_rejected :
    gw_check_mysql_scramble_data linuxEnv (some aliceToken) 20 (some sampleChallenge) 20
        (some userAlice) (some (zeros 20)) = .ok (0, some aliceStage1)
      ∧ (gw_check_mysql_scramble_data linuxEnv (some (102 :: aliceToken.tail)) 20
          (some sampleChallenge) 20 (some userAlice) (some (zeros 20))).map Prod.fst = .ok 6
      ∧ (gw_check_mysql_scramble_data linuxEnv (some (aliceToken.take 19 ++ [138])) 20
          (some sampleChallenge) 20 (some userAlice) (some (zeros 20))).map Prod.fst = .ok 53
      ∧ (gw_check_mysql_scramble_data linuxEnv (some (1 :: zeros 19)) 20
          (some sampleChallenge) 20 (some userAlice) (some (zeros 20))).map Prod.fst
            = .ok (-118) := by
  refine ⟨by decide, by decide, by decide, by decide⟩

/-- C3, refuted as stated: for user `alice` (standard SHA-1) the all-zero
token is rejected (status 37), yet the buffer, all zeros before the call,
holds `token XOR SHA1(challenge ++ stored_hash)` after it. -/
theorem C3_counterexample :
    gw_check_mysql_scramble_data linuxEnv (some (zeros 20)) 20 (some sampleChallenge) 20
        (some userAlice) (some (zeros 20))
      = .ok (37, some [53, 18, 247, 76, 188, 76, 33, 50, 177, 116, 199, 53, 83, 37, 62, 5,
          14, 12, 226, 226])
    ∧ (37 : Int) ≠ 0
    ∧ [53, 18, 247, 76, 188, 76, 33, 50, 177, 116, 199, 53, 83, 37, 62, 5, 14, 12, 226, 226]
        ≠ zeros 20 := by
  decide

/-- C3, amended: when the check fails before the token is looked at (a NULL
argument or a user the lookup does not know) the `stage1_hash` buffer is
returned as it was; for a known user and a token of at most 20 bytes the
20-byte buffer is overwritten with `token XOR SHA1(challenge ++ stored_hash)`
(zero-padded) before the comparison, whatever status is returned. -/
theorem C3_stage1_written_before_compare (env : Env) (hd : env.Digest20)
    (token scramble username stage1_hash : Option (List Nat)) (token_len scramble_len : Nat) :
    ((username = none ∨ token = none ∨ scramble = none ∨ stage1_hash = none
        ∨ ∃ u, username = some u
            ∧ (gw_find_mysql_user_password_sha1 env u (zeros GW_MYSQL_SCRAMBLE_SIZE)).1 ≠ 0) →
      gw_check_mysql_scramble_data env token token_len scramble scramble_len username
        stage1_hash = .ok (1, stage1_hash))
    ∧ (∀ u t c b stored_hash, username = some u → token = some t → scramble = some c →
        stage1_hash = some b →
        gw_find_mysql_user_password_sha1 env u (zeros GW_MYSQL_SCRAMBLE_SIZE)
          = (0, stored_hash) →
        c.length = 20 → scramble_len = 20 → b.length = 20 → token_len ≤ t.length →
        token_len ≤ 20 →
        ∃ ret, gw_check_mysql_scramble_data env token token_len scramble scramble_len username
            stage1_hash
          = .ok (ret, some ((step2_of t (env.gw_sha1_str (c ++ stored_hash)) token_len).take
              20))) := by
  constructor
  · intro h
    cases username with
    | none => cases token <;> cases scramble <;> cases stage1_hash <;> rfl
    | some u =>
      cases token with
      | none => cases scramble <;> cases stage1_hash <;> rfl
      | some t =>
        cases scramble with
        | none => cases stage1_hash <;> rfl
        | some c =>
          cases stage1_hash with
          | none => rfl
          | some b =>
            simp only [reduceCtorEq, false_or, Option.some.injEq, exists_eq_left'] at h
            simp only [gw_check_mysql_scramble_data]
            rw [if_pos h]
  · intro u t c b stored_hash hu ht hc hb hfind hcl hsl hbl htl hlen
    subst hu ht hc hb hsl
    rw [check_known_user env hd t c u b stored_hash token_len hfind hcl htl hlen]
    unfold memcpy
    rw [List.drop_of_length_le (by omega), List.append_nil]
    exact ⟨_, rfl⟩

/-- C3 amended, at the unknown user `root` and at user `alice` with a
rejected token. -/
theorem C3_stage1_written_before_compare_witness :
    gw_check_mysql_scramble_data linuxEnv (some (zeros 20)) 20 (some sampleChallenge) 20
        (some (ascii "root")) (some (zeros 20)) = .ok (1, some (zeros 20))
    ∧ ∃ ret, gw_check_mysql_scramble_data linuxEnv (some (zeros 20)) 20 (some sampleChallenge)
          20 (some userAlice) (some (zeros 20))
        = .ok (ret, some ((step2_of (zeros 20)
            (linuxEnv.gw_sha1_str (sampleChallenge ++ aliceStored)) 20).take 20)) :=
  ⟨(C3_stage1_written_before_compare linuxEnv linuxEnv_digest20 (some (zeros 20))
      (some sampleChallenge) (some (ascii "root")) (some (zeros 20)) 20 20).1
      (Or.inr (Or.inr (Or.inr (Or.inr ⟨ascii "root", rfl, by decide⟩)))),
    (C3_stage1_written_before_compare linuxEnv linuxEnv_digest20 (some (zeros 20))
      (some sampleChallenge) (some userAlice) (some (zeros 20)) 20 20).2
      userAlice (zeros 20) sampleChallenge (zeros 20) aliceStored rfl rfl rfl rfl (by decide)
      (by decide) rfl (by decide) (by decide) (by decide)⟩

/-- C7, refuted as stated: for user `kw` (standard SHA-1, `SHA1("kw")` ends
in a zero byte) the 19-byte token made of the first 19 bytes of the correct
token is accepted: the check returns 0. -/
theorem C7_counterexample :
    kwToken19.length = 19
      ∧ gw_check_mysql_scramble_data linuxEnv (some kwToken19) 19 (some sampleChallenge) 20
          (some userKw) (some (zeros 20))
        = .ok (0, some kwStage1) := by
  decide

/-- C7, amended: the check has no test of the token length. For a known user
and a token shorter than 20 bytes it returns 0 exactly when the SHA-1 of
`token XOR SHA1(challenge ++ stored_hash)`, padded with zero bytes to 20, is
the stored hash; for a token longer than 20 bytes `gw_str_xor` runs past the
20-byte `step1` array. -/
theorem C7_no_length_check (env : Env) (hd : env.Digest20)
    (username challenge stored_hash token stage1_hash : List Nat)
    (hfind : gw_find_mysql_user_password_sha1 env username (zeros GW_MYSQL_SCRAMBLE_SIZE)
      = (0, stored_hash))
    (hch : challenge.length = 20) :
    (token.length < 20 →
      ∃ ret stage1,
        gw_check_mysql_scramble_data env (some token) token.length (some challenge) 20
            (some username) (some stage1_hash) = .ok (ret, stage1)
        ∧ (ret = 0 ↔
            env.gw_sha1_str
              (List.zipWith (· ^^^ ·) token
                  ((env.gw_sha1_str (challenge ++ stored_hash)).take token.length)
                ++ zeros (20 - token.length)) = stored_hash))
    ∧ (20 < token.length →
        gw_check_mysql_scramble_data env (some token) token.length (some challenge) 20
          (some username) (some stage1_hash) = .error .bufferOverrun) := by
  have h1 := hd (challenge ++ stored_hash)
  have hstl : stored_hash.length = 20 := by
    rw [(find_accepts env hd username stored_hash hfind).2]; exact hd _
  constructor
  · intro hlt
    refine ⟨_, _, check_known_user env hd token challenge username stage1_hash stored_hash _
      hfind hch (le_refl _) (by omega), ?_⟩
    have hs2 : (step2_of token (env.gw_sha1_str (challenge ++ stored_hash)) token.length).take 20
        = List.zipWith (· ^^^ ·) token
            ((env.gw_sha1_str (challenge ++ stored_hash)).take token.length)
          ++ zeros (20 - token.length) := by
      unfold step2_of zeros
      rw [List.take_length, List.take_append_eq_append_take]
      rw [List.take_of_length_le (by simp [h1])]
      simp [h1, GW_MYSQL_SCRAMBLE_SIZE, List.take_replicate]
      omega
    rw [hs2, memcmp_eq_zero_iff 20 _ _ hstl (hd _)]
    exact eq_comm
  · intro hgt
    have e1 : List.take 20 challenge = challenge := List.take_of_length_le (by omega)
    have e2 : List.take 20 stored_hash = stored_hash := List.take_of_length_le (by omega)
    simp only [gw_check_mysql_scramble_data, hfind]
    simp only [gw_sha1_2_str, SHA_DIGEST_LENGTH, hch, hstl, e1, e2]
    have hx : gw_str_xor (zeros (GW_MYSQL_SCRAMBLE_SIZE + 1)) token
        (env.gw_sha1_str (challenge ++ stored_hash)) token.length
          = .error .bufferOverrun := by
      unfold gw_str_xor
      rw [if_pos (by omega)]
    simp [bind, Except.bind, hx]

/-- C7 amended, at user `kw` with the standard SHA-1 and the 19-byte token. -/
theorem C7_no_length_check_witness :
    gw_find_mysql_user_password_sha1 linuxEnv userKw (zeros GW_MYSQL_SCRAMBLE_SIZE)
        = (0, kwStored)
      ∧ kwToken19.length < 20
      ∧ ∃ ret stage1,
        gw_check_mysql_scramble_data linuxEnv (some kwToken19) kwToken19.length
            (some sampleChallenge) 20 (some userKw) (some (zeros 20)) = .ok (ret, stage1)
        ∧ (ret = 0 ↔
            linuxEnv.gw_sha1_str
              (List.zipWith (· ^^^ ·) kwToken19
                  ((linuxEnv.gw_sha1_str (sampleChallenge ++ kwStored)).take kwToken19.length)
                ++ zeros (20 - kwToken19.length)) = kwStored) :=
  ⟨by decide, by decide,
    (C7_no_length_check linuxEnv linuxEnv_digest20 userKw sampleChallenge kwStored kwToken19
      (zeros 20) (by decide) (by decide)).1 (by decide)⟩

/-! ## Decoder lemmas -/

theorem strncpy_ok (u rest : List Nat) (n : Nat) (hu : ∀ b ∈ u, b ≠ 0) (hn : u.length < n) :
    strncpy (u ++ 0 :: rest) n = .ok u := by
  induction u generalizing n with
  | nil =>
    cases n with
    | zero => simp at hn
    | succ n => simp [strncpy]
  | cons c cs ih =>
    cases n with
    | zero => simp at hn
    | succ n =>
      have hc : c ≠ 0 := hu c (List.mem_cons_self _ _)
      have hcs : ∀ b ∈ cs, b ≠ 0 := fun b hb => hu b (List.mem_cons_of_mem _ hb)
      simp only [List.length_cons, Nat.add_lt_add_iff_right] at hn
      simp [strncpy, hc, ih n hcs hn, Except.map]

theorem strncpy_inv (src u : List Nat) (n : Nat) (h : strncpy src n = .ok u) :
    ∃ rest, src = u ++ 0 :: rest ∧ (∀ b ∈ u, b ≠ 0) ∧ u.length < n := by
  induction src generalizing n u with
  | nil => cases n <;> simp [strncpy] at h
  | cons c cs ih =>
    cases n with
    | zero => simp [strncpy] at h
    | succ n =>
      by_cases hc : c = 0
      · simp [strncpy, hc] at h
        subst h
        exact ⟨cs, by simp [hc], by simp, by simp⟩
      · simp only [strncpy, hc, if_false] at h
        cases hr : strncpy cs n with
        | error e => simp [hr, Except.map] at h
        | ok v =>
          simp only [hr, Except.map, Except.ok.injEq] at h
          subst h
          obtain ⟨rest, h1, h2, h3⟩ := ih v n hr
          refine ⟨rest, by simp [h1], ?_, by simp; omega⟩
          intro b hb
          rcases List.mem_cons.mp hb with hb | hb
          · rw [hb]; exact hc
          · exact h2 b hb

theorem strncpy_truncated (u : List Nat) (n : Nat) (hu : ∀ b ∈ u, b ≠ 0) (hn : u.length < n) :
    strncpy u n = .error .outsideFrame := by
  induction u generalizing n with
  | nil =>
    cases n with
    | zero => simp at hn
    | succ n => simp [strncpy]
  | cons c cs ih =>
    cases n with
    | zero => simp at hn
    | succ n =>
      have hc : c ≠ 0 := hu c (List.mem_cons_self _ _)
      have hcs : ∀ b ∈ cs, b ≠ 0 := fun b hb => hu b (List.mem_cons_of_mem _ hb)
      simp only [List.length_cons, Nat.add_lt_add_iff_right] at hn
      simp [strncpy, hc, ih n hcs hn, Except.map]

theorem readBytes_mid (a b c : List Nat) (off n : Nat) (ha : a.length = off)
    (hb : b.length = n) : readBytes (a ++ b ++ c) off n = .ok b := by
  unfold readBytes
  rw [if_pos (by simp; omega)]
  subst ha hb
  simp

theorem readBytes_inv (buf x : List Nat) (off n : Nat) (h : readBytes buf off n = .ok x) :
    buf = buf.take off ++ x ++ buf.drop (off + n) ∧ (buf.take off).length = off
      ∧ x.length = n := by
  unfold readBytes at h
  split at h
  · rename_i hle
    simp only [Except.ok.injEq] at h
    subst h
    refine ⟨?_, by simp; omega, by simp; omega⟩
    rw [List.append_assoc, ← List.drop_drop, List.take_append_drop, List.take_append_drop]
  · simp at h

theorem readBytes_short (buf : List Nat) (off n : Nat) (h : buf.length < off + n) :
    readBytes buf off n = .error .outsideFrame := by
  unfold readBytes
  rw [if_neg (by omega)]

theorem get_byte4_le4 (c : Nat) (hc : c < 4294967296) : gw_mysql_get_byte4 (le4 c) = c := by
  simp [gw_mysql_get_byte4, le4]
  omega

theorem bind2_ok_inv {α β γ : Type} (X : Except Fault α) (Y : Except Fault (Int × β))
    (F : α → β → γ) (ret : Int) (out : γ)
    (h : Except.bind X (fun a => Except.bind Y (fun r => Except.ok (r.1, F a r.2)))
      = Except.ok (ret, out)) :
    ∃ a b, X = .ok a ∧ Y = .ok (ret, b) ∧ out = F a b := by
  cases X with
  | error e => simp [bind, Except.bind] at h
  | ok a =>
    cases Y with
    | error e => simp [bind, Except.bind] at h
    | ok r =>
      simp only [bind, Except.bind, Except.ok.injEq, Prod.mk.injEq] at h
      exact ⟨a, r.2, rfl, by rw [← h.1], h.2.symm⟩

/-- The decoder on a frame whose 36-byte prefix, NUL-terminated user name,
token length byte and token lie inside the frame. -/
theorem do_authentication_layout (env : Env) (dcb : DCB) (session : SESSION)
    (protocol : MySQLProtocol) (pre u t rest : List Nat)
    (hs : dcb.session = some session) (hp : dcb.protocol = some protocol)
    (hpre : pre.length = 36) (hu : ∀ b ∈ u, b ≠ 0) (hul : u.length < 128) :
    gw_mysql_do_authentication env dcb (pre ++ u ++ [0] ++ [t.length] ++ t ++ rest)
      = Except.bind
          (if env.GW_MYSQL_CAPABILITIES_CONNECT_WITH_DB
              &&& gw_mysql_get_byte4 ((pre.drop 4).take 4) ≠ 0 then
            strncpy rest 128
          else .ok session.data.db)
          (fun database =>
            Except.bind
              (gw_check_mysql_scramble_data env (some t) t.length (some protocol.scramble)
                GW_MYSQL_SCRAMBLE_SIZE (some u) (some session.data.client_sha1))
              (fun r => .ok (r.1,
                decoded_dcb dcb session protocol ((pre.drop 4).take 4) u database r.2))) := by
  have e1 : readBytes (pre ++ u ++ [0] ++ [t.length] ++ t ++ rest) 4 4
      = .ok ((pre.drop 4).take 4) := by
    unfold readBytes
    rw [if_pos (by simp; omega)]
    simp only [List.append_assoc]
    rw [List.drop_append_of_le_length (by omega), List.take_append_of_le_length (by simp; omega)]
  have e2 : List.drop (4 + 4 + 4 + 1 + 23) (pre ++ u ++ [0] ++ [t.length] ++ t ++ rest)
      = u ++ 0 :: ([t.length] ++ t ++ rest) := by
    have : pre ++ u ++ [0] ++ [t.length] ++ t ++ rest
        = pre ++ (u ++ 0 :: ([t.length] ++ t ++ rest)) := by simp
    rw [this, List.drop_left' (by omega)]
  have e3 : readBytes (pre ++ u ++ [0] ++ [t.length] ++ t ++ rest)
      (4 + 4 + 4 + 1 + 23 + u.length + 1) 1 = .ok [t.length] := by
    have := readBytes_mid (pre ++ u ++ [0]) [t.length] (t ++ rest)
      (4 + 4 + 4 + 1 + 23 + u.length + 1) 1 (by simp; omega) rfl
    simpa using this
  have e4 : readBytes (pre ++ u ++ [0] ++ [t.length] ++ t ++ rest)
      (4 + 4 + 4 + 1 + 23 + u.length + 1 + 1) t.length = .ok t := by
    have := readBytes_mid (pre ++ u ++ [0] ++ [t.length]) t rest
      (4 + 4 + 4 + 1 + 23 + u.length + 1 + 1) t.length (by simp; omega) rfl
    simpa using this
  have e5 : List.drop (4 + 4 + 4 + 1 + 23 + u.length + 1 + 1 + t.length)
      (pre ++ u ++ [0] ++ [t.length] ++ t ++ rest) = rest := by
    exact List.drop_left' (by simp; omega)
  unfold gw_mysql_do_authentication
  simp only [hs, hp]
  simp only [e1, bind, Except.bind, e2, strncpy_ok u _ 128 hu hul, e3, List.headD_cons, e4, e5]
  split <;> rename_i hdb
  · cases strncpy rest 128 with
    | error e => rfl
    | ok database =>
      cases gw_check_mysql_scramble_data env (some t) t.length (some protocol.scramble)
        GW_MYSQL_SCRAMBLE_SIZE (some u) (some session.data.client_sha1) with
      | error e => rfl
      | ok r => rfl
  · cases gw_check_mysql_scramble_data env (some t) t.length (some protocol.scramble)
        GW_MYSQL_SCRAMBLE_SIZE (some u) (some session.data.client_sha1) with
    | error e => rfl
    | ok r => rfl

/-- Whenever the decoder returns a status, the 36-byte prefix, the
NUL-terminated user name, the token length byte and the token lie inside
the frame, and the status is that of the scramble check on them. -/
theorem do_authentication_inv (env : Env) (dcb dcb1 : DCB) (frame : List Nat) (ret : Int)
    (h : gw_mysql_do_authentication env dcb frame = .ok (ret, dcb1)) :
    ∃ session protocol pre u t rest database stage1,
      dcb.session = some session ∧ dcb.protocol = some protocol
      ∧ frame = pre ++ u ++ [0] ++ [t.length] ++ t ++ rest
      ∧ pre.length = 36 ∧ (∀ b ∈ u, b ≠ 0) ∧ u.length < 128
      ∧ (if env.GW_MYSQL_CAPABILITIES_CONNECT_WITH_DB
              &&& gw_mysql_get_byte4 ((pre.drop 4).take 4) ≠ 0 then
            strncpy rest 128
          else .ok session.data.db) = .ok database
      ∧ gw_check_mysql_scramble_data env (some t) t.length (some protocol.scramble)
          GW_MYSQL_SCRAMBLE_SIZE (some u) (some session.data.client_sha1) = .ok (ret, stage1)
      ∧ dcb1 = decoded_dcb dcb session protocol ((pre.drop 4).take 4) u database stage1 := by
  cases hs : dcb.session with
  | none => simp [gw_mysql_do_authentication, hs] at h
  | some session =>
    cases hp : dcb.protocol with
    | none => simp [gw_mysql_do_authentication, hs, hp] at h
    | some protocol =>
      have h0 := h
      unfold gw_mysql_do_authentication at h0
      simp only [hs, hp, bind, Except.bind] at h0
      split at h0
      · simp at h0
      rename_i caps h1
      split at h0
      · simp at h0
      rename_i u h2
      split at h0
      · simp at h0
      rename_i lb h3
      split at h0
      · simp at h0
      rename_i t h4
      clear h0
      obtain ⟨rest1, hr1, hu, hul⟩ := strncpy_inv _ _ _ h2
      have hl36 : (frame.take 36).length = 36 := by
        have : (List.drop (4 + 4 + 4 + 1 + 23) frame).length = (u ++ 0 :: rest1).length := by
          rw [hr1]
        simp at this
        simp; omega
      have hf : frame = frame.take 36 ++ u ++ [0] ++ rest1 := by
        have : frame.take 36 ++ u ++ [0] ++ rest1 = frame.take 36 ++ (u ++ 0 :: rest1) := by simp
        rw [this, ← hr1]; exact (List.take_append_drop _ _).symm
      have hd1 : frame.drop (4 + 4 + 4 + 1 + 23 + u.length + 1) = rest1 := by
        conv => lhs; rw [hf]
        exact List.drop_left' (by simp only [List.length_append, hl36]; simp)
      have hd2 : frame.drop (4 + 4 + 4 + 1 + 23 + u.length + 1 + 1) = rest1.drop 1 := by
        rw [← hd1, List.drop_drop]
      unfold readBytes at h3 h4
      rw [hd1] at h3
      rw [hd2] at h4
      split at h3
      · rename_i hle3
        split at h4
        · rename_i hle4
          simp only [Except.ok.injEq] at h3 h4
          cases rest1 with
          | nil =>
            have := congrArg List.length hd1
            simp at this
            omega
          | cons b rest2 =>
            simp only [List.take_succ_cons, List.take_zero] at h3
            subst h3
            simp only [List.headD_cons, List.drop_succ_cons, List.drop_zero] at h4 hle4
            have hlen2 : b ≤ rest2.length := by
              have := congrArg List.length hd1
              simp at this
              omega
            have htl : t.length = b := by rw [← h4]; simp [hlen2]
            have hr2 : rest2 = t ++ rest2.drop b := by
              rw [← h4]; exact (List.take_append_drop _ _).symm
            have hfr : frame = frame.take 36 ++ u ++ [0] ++ [t.length] ++ t ++ rest2.drop b := by
              conv => lhs; rw [hf, hr2]
              rw [htl]
              simp
            rw [hfr, do_authentication_layout env dcb session protocol _ u t _ hs hp hl36 hu hul]
              at h
            obtain ⟨database, stage1, hdb, hr, hout⟩ := bind2_ok_inv _ _ _ _ _ h
            exact ⟨session, protocol, frame.take 36, u, t, rest2.drop b, database, stage1, rfl,
              rfl, hfr, hl36, hu, hul, hdb, hr, hout⟩
        · simp at h4
      · simp at h3

/-! ## Auth-response decoder: C4, C5 -/

/-- C4, refuted as stated: on a frame of 4 + 6 bytes the decoder reports no
truncation error; after the capability word it reads the user name at
offset 36, past the end of the frame. -/
theorem C4_counterexample :
    shortFrame.length = 10
      ∧ gw_mysql_do_authentication linuxEnv sampleDcb shortFrame = .error .outsideFrame := by
  decide

/-- C4, amended: the decoder has no bounds check and no truncation error. On
a frame shorter than 37 bytes, and on a frame that ends inside the user name
(fewer than 128 bytes, no NUL), before the token length byte, inside the
token, or inside a database name (fewer than 128 bytes, no NUL) asked for by
the connect-with-db bit, it reads at or past the end of the frame; when it
returns a status, prefix, user name, length byte and token were inside the
frame. -/
theorem C4_no_bounds_check (env : Env) (dcb : DCB) (session : SESSION)
    (protocol : MySQLProtocol) (hs : dcb.session = some session)
    (hp : dcb.protocol = some protocol) :
    (∀ frame : List Nat, frame.length < 37 →
        gw_mysql_do_authentication env dcb frame = .error .outsideFrame)
    ∧ (∀ pre u : List Nat, pre.length = 36 → (∀ b ∈ u, b ≠ 0) → u.length < 128 →
        gw_mysql_do_authentication env dcb (pre ++ u) = .error .outsideFrame
        ∧ gw_mysql_do_authentication env dcb (pre ++ u ++ [0]) = .error .outsideFrame
        ∧ (∀ (n : Nat) (t : List Nat), t.length < n →
            gw_mysql_do_authentication env dcb (pre ++ u ++ [0] ++ [n] ++ t)
              = .error .outsideFrame)
        ∧ (∀ t d : List Nat,
            env.GW_MYSQL_CAPABILITIES_CONNECT_WITH_DB
              &&& gw_mysql_get_byte4 ((pre.drop 4).take 4) ≠ 0 →
            (∀ b ∈ d, b ≠ 0) → d.length < 128 →
            gw_mysql_do_authentication env dcb (pre ++ u ++ [0] ++ [t.length] ++ t ++ d)
              = .error .outsideFrame))
    ∧ (∀ (frame : List Nat) (ret : Int) (dcb1 : DCB),
        gw_mysql_do_authentication env dcb frame = .ok (ret, dcb1) →
        ∃ pre u t rest, frame = pre ++ u ++ [0] ++ [t.length] ++ t ++ rest ∧ pre.length = 36
          ∧ (∀ b ∈ u, b ≠ 0) ∧ u.length < 128) := by
  refine ⟨?_, ?_, ?_⟩
  · intro frame hlen
    unfold gw_mysql_do_authentication
    simp only [hs, hp, bind, Except.bind]
    by_cases h8 : frame.length < 8
    · rw [readBytes_short frame 4 4 (by omega)]
    · have e1 : readBytes frame 4 4 = .ok ((frame.drop 4).take 4) := by
        unfold readBytes; rw [if_pos (by omega)]
      have e2 : List.drop (4 + 4 + 4 + 1 + 23) frame = [] :=
        List.drop_of_length_le (by omega)
      simp only [e1, e2, strncpy]
  · intro pre u hpre hu hul
    have e1 : ∀ rest : List Nat, readBytes (pre ++ rest) 4 4 = .ok ((pre.drop 4).take 4) := by
      intro rest
      unfold readBytes
      rw [if_pos (by simp; omega), List.drop_append_of_le_length (by omega),
        List.take_append_of_le_length (by simp; omega)]
    have e2 : ∀ rest : List Nat, List.drop (4 + 4 + 4 + 1 + 23) (pre ++ rest) = rest :=
      fun rest => List.drop_left' (by omega)
    refine ⟨?_, ?_, ?_, ?_⟩
    · unfold gw_mysql_do_authentication
      simp only [hs, hp, bind, Except.bind, e1, e2, strncpy_truncated u 128 hu hul]
    · unfold gw_mysql_do_authentication
      have e3 := strncpy_ok u [] 128 hu hul
      simp only [List.append_assoc] at e1 e2 ⊢
      simp only [hs, hp, bind, Except.bind, e1, e2, e3]
      rw [readBytes_short _ _ _ (by simp; omega)]
    · intro n t hn
      unfold gw_mysql_do_authentication
      have e3 := strncpy_ok u ([n] ++ t) 128 hu hul
      have e4 : readBytes (pre ++ (u ++ ([0] ++ ([n] ++ t)))) (4 + 4 + 4 + 1 + 23 + u.length + 1) 1
          = .ok [n] := by
        have := readBytes_mid (pre ++ u ++ [0]) [n] t (4 + 4 + 4 + 1 + 23 + u.length + 1) 1
          (by simp; omega) rfl
        simpa using this
      simp only [List.append_assoc] at e1 e2 ⊢
      simp only [List.singleton_append] at e3 e4 ⊢
      simp only [hs, hp, bind, Except.bind, e1, e2, e3, e4, List.headD_cons]
      rw [readBytes_short _ _ _ (by simp; omega)]
    · intro t d hbit hd hdl
      have := do_authentication_layout env dcb session protocol pre u t d hs hp hpre hu hul
      rw [this, if_pos hbit, strncpy_truncated d 128 hd hdl]
      rfl
  · intro frame ret dcb1 h
    obtain ⟨_, _, pre, u, t, rest, _, _, _, _, hf, hpre, hu, hul, _⟩ :=
      do_authentication_inv env dcb dcb1 frame ret h
    exact ⟨pre, u, t, rest, hf, hpre, hu, hul⟩

/-- C4 amended, at a frame that ends inside the user name. -/
theorem C4_no_bounds_check_witness :
    sampleDcb.session = some { data := { client_sha1 := zeros 20, user := [], db := [] },
                               backends := none }
      ∧ gw_mysql_do_authentication linuxEnv sampleDcb cutUserFrame = .error .outsideFrame :=
  ⟨rfl,
    ((C4_no_bounds_check linuxEnv sampleDcb _ _ rfl rfl).2.1
      ([35, 0, 0, 1] ++ le4 sampleCaps ++ sampleSkip) (ascii "ali") (by decide) (by decide)
      (by decide)).1⟩

/-- C5: on the frame made of a 4-byte header, the capability word `c`
little-endian, 28 skipped bytes, the user name `u` and a NUL, the byte
`len(t)`, the token `t`, the database name `d` and a NUL, the decoder stores
the four bytes of `c` (which read back as `c`) in the protocol context,
stores `u` as the session user, calls the scramble check with exactly `t`
and `len(t)`, and stores `d` as the session database when the
connect-with-db bit of `c` is set, leaving the database unchanged
otherwise. -/
theorem C5_decode_auth_response (env : Env) (dcb : DCB) (session : SESSION)
    (protocol : MySQLProtocol) (hdr skip u t d : List Nat) (c : Nat)
    (hs : dcb.session = some session) (hp : dcb.protocol = some protocol)
    (hc : c < 4294967296) (hhdr : hdr.length = 4) (hskip : skip.length = 28)
    (hu : ∀ b ∈ u, b ≠ 0) (hul : u.length < 128) (_htl : t.length ≤ 255)
    (hd : ∀ b ∈ d, b ≠ 0) (hdl : d.length < 128) :
    gw_mysql_get_byte4 (le4 c) = c
    ∧ gw_mysql_do_authentication env dcb
          (hdr ++ le4 c ++ skip ++ u ++ [0] ++ [t.length] ++ t ++ d ++ [0])
        = Except.bind
            (gw_check_mysql_scramble_data env (some t) t.length (some protocol.scramble)
              GW_MYSQL_SCRAMBLE_SIZE (some u) (some session.data.client_sha1))
            (fun r => .ok (r.1,
              decoded_dcb dcb session protocol (le4 c) u
                (if env.GW_MYSQL_CAPABILITIES_CONNECT_WITH_DB &&& c ≠ 0 then d
                 else session.data.db) r.2)) := by
  refine ⟨get_byte4_le4 c hc, ?_⟩
  have hcaps : ((hdr ++ le4 c ++ skip).drop 4).take 4 = le4 c := by
    rw [List.append_assoc, List.drop_left' hhdr]
    exact List.take_left' (by simp [le4])
  have hfr : hdr ++ le4 c ++ skip ++ u ++ [0] ++ [t.length] ++ t ++ d ++ [0]
      = (hdr ++ le4 c ++ skip) ++ u ++ [0] ++ [t.length] ++ t ++ (d ++ [0]) := by simp
  rw [hfr, do_authentication_layout env dcb session protocol _ u t _ hs hp
    (by simp [le4]; omega) hu hul, hcaps, get_byte4_le4 c hc]
  have hdb : strncpy (d ++ [0]) 128 = .ok d := strncpy_ok d [] 128 hd hdl
  by_cases hbit : env.GW_MYSQL_CAPABILITIES_CONNECT_WITH_DB &&& c ≠ 0
  · rw [if_pos hbit, if_pos hbit, hdb]; rfl
  · rw [if_neg hbit, if_neg hbit]; rfl

/-- C5 at the auth response of user `alice`: capability word, user `alice`,
database `test` and stage-1 hash `SHA1("alice")` are stored, and the check
accepts the token. -/
theorem C5_decode_auth_response_witness :
    sampleCaps < 4294967296
      ∧ gw_mysql_get_byte4 (le4 sampleCaps) = sampleCaps
      ∧ gw_mysql_do_authentication linuxEnv sampleDcb aliceFrame
        = .ok (0, { sampleDcb with
            protocol := some { state := .MYSQL_AUTH_SENT, scramble := sampleChallenge,
                               client_capabilities := le4 sampleCaps }
            session := some { data := { client_sha1 := aliceStage1, user := userAlice,
                                        db := ascii "test" },
                              backends := none } }) :=
  ⟨by decide,
    (C5_decode_auth_response linuxEnv sampleDcb _ _ [64, 0, 0, 1] sampleSkip userAlice
      aliceToken (ascii "test") sampleCaps rfl rfl (by decide) (by decide) (by decide)
      (by decide) (by decide) (by decide) (by decide) (by decide)).1,
    ((C5_decode_auth_response linuxEnv sampleDcb _ _ [64, 0, 0, 1] sampleSkip userAlice
      aliceToken (ascii "test") sampleCaps rfl rfl (by decide) (by decide) (by decide)
      (by decide) (by decide) (by decide) (by decide) (by decide)).2).trans (by decide)⟩

/-! ## Buffered writer: C6 -/

theorem flat_gwbuf_consume (b : List Nat) (rest : List (List Nat)) (m : Nat)
    (hm : m ≤ b.length) :
    flat (gwbuf_consume (b :: rest) m) = (flat (b :: rest)).drop m := by
  have h0 : m - b.length = 0 := by omega
  simp only [gwbuf_consume, flat]
  by_cases h : b.drop m = []
  · rw [if_pos h]
    simp only [List.flatten_cons]
    rw [List.drop_append_eq_append_drop, h, h0]
    simp
  · rw [if_neg h]
    simp only [List.flatten_cons]
    rw [List.drop_append_eq_append_drop, h0]
    simp

/-- The write loop hands a prefix of the queued bytes to the socket and
keeps the rest, in order. -/
theorem write_loop_split (env : Env) (script : List WriteResult) (q : List (List Nat))
    (sent : List Nat) (n e : Nat) :
    ∃ k, (write_loop env script q sent n e).sent = sent ++ (flat q).take k
      ∧ flat (write_loop env script q sent n e).queue = (flat q).drop k := by
  induction script generalizing q sent n e with
  | nil =>
    cases q with
    | nil => exact ⟨0, by simp [write_loop], by simp [write_loop]⟩
    | cons b rest => exact ⟨0, by simp [write_loop], by simp [write_loop]⟩
  | cons r script ih =>
    cases q with
    | nil => exact ⟨0, by simp [write_loop], by simp [write_loop]⟩
    | cons b rest =>
      cases r with
      | failed e1 => exact ⟨0, by simp [write_loop], by simp [write_loop]⟩
      | accepted k =>
        obtain ⟨j, h1, h2⟩ := ih (gwbuf_consume (b :: rest) (min k b.length))
          (sent ++ b.take (min k b.length)) (n + 1) 0
        have hm : min k b.length ≤ b.length := Nat.min_le_right _ _
        rw [flat_gwbuf_consume b rest _ hm] at h1 h2
        refine ⟨min k b.length + j, ?_, ?_⟩
        · simp only [write_loop]
          rw [h1, List.append_assoc]
          congr 1
          have hb : b.take (min k b.length) = (flat (b :: rest)).take (min k b.length) := by
            simp only [flat, List.flatten_cons]
            rw [List.take_append_of_le_length hm]
          rw [hb, List.take_add]
        · simp only [write_loop]
          rw [h2, List.drop_drop]

/-- One call on the write queue of a draining connection: the socket gets a
prefix of the bytes pending after the call's payload is appended, the queue
keeps exactly the rest, and the connection stays draining. -/
theorem queue_step_split (env : Env) (w : World) (hw : w.Draining) (c : QueueCall) :
    ∃ ret w1 k, queue_step env w c = .ok (ret, w1) ∧ w1.Draining
      ∧ w1.sent = w.sent ++ (w.queued ++ c.payload).take k
      ∧ w1.queued = (w.queued ++ c.payload).drop k := by
  obtain ⟨dcb, protocol, session, hdcb, hst, hp, hs, hidle⟩ := hw
  cases c with
  | enqueue queue =>
    simp only [queue_step, gw_MySQLWrite_client, hdcb, QueueCall.payload, World.queued]
    by_cases hq : dcb.writeq = []
    · obtain ⟨k, h1, h2⟩ := write_loop_split env w.script queue w.sent 0 0
      simp only [hq, ne_eq, not_true_eq_false, if_false]
      exact ⟨_, _, k, rfl, ⟨_, protocol, session, rfl, hst, hp, hs, hidle⟩,
        by simpa [flat] using h1, by simpa [flat] using h2⟩
    · simp only [hq, ne_eq, not_false_eq_true, if_true]
      exact ⟨_, _, 0, rfl, ⟨_, protocol, session, rfl, hst, hp, hs, hidle⟩,
        by simp, by simp [gwbuf_append, flat]⟩
  | drain =>
    have h1 : protocol.state ≠ .MYSQL_AUTH_RECV := by
      rcases hidle with h | h <;> rw [h] <;> decide
    have h2 : protocol.state ≠ .MYSQL_AUTH_FAILED := by
      rcases hidle with h | h <;> rw [h] <;> decide
    simp only [queue_step, gw_write_client_event, hdcb, hst, if_false, hp, hs, h1, h2, hidle,
      if_true, QueueCall.payload, World.queued, List.append_nil]
    by_cases hq : dcb.writeq = []
    · simp only [hq, ne_eq, not_true_eq_false, if_false]
      exact ⟨_, _, 0, rfl, ⟨dcb, protocol, session, hdcb, hst, hp, hs, hidle⟩,
        by simp, by simp [hdcb, hq]⟩
    · obtain ⟨k, h1, h2⟩ := write_loop_split env w.script dcb.writeq w.sent 0 0
      simp only [hq, ne_eq, not_false_eq_true, if_true]
      exact ⟨_, _, k, rfl, ⟨_, protocol, session, rfl, hst, rfl, rfl, hidle⟩, h1, h2⟩

/-- C6: for every sequence of enqueue calls (`gw_MySQLWrite_client`) and
drain calls (the write-ready handler in Idle/WaitingResult) on one
connection, whatever the socket answers to each write, the run ends in a
state where the bytes taken by the socket followed by the bytes in the write
queue are the bytes there at the start followed by all enqueued buffers in
call order; and any further call hands the socket a prefix of the pending
bytes and removes exactly that prefix from the queue. The sequence is
arbitrary, so this holds after every call of a run. -/
theorem C6_write_queue_order (env : Env) (w : World) (hw : w.Draining)
    (calls : List QueueCall) :
    ∃ w1, queue_run env w calls = .ok w1
      ∧ w1.sent ++ w1.queued
          = w.sent ++ w.queued ++ (calls.map QueueCall.payload).flatten
      ∧ ∀ c : QueueCall, ∃ ret w2 k, queue_step env w1 c = .ok (ret, w2)
          ∧ w2.sent = w1.sent ++ (w1.queued ++ c.payload).take k
          ∧ w2.queued = (w1.queued ++ c.payload).drop k := by
  induction calls generalizing w with
  | nil =>
    refine ⟨w, rfl, by simp, ?_⟩
    intro c
    obtain ⟨ret, w2, k, h1, _, h2, h3⟩ := queue_step_split env w hw c
    exact ⟨ret, w2, k, h1, h2, h3⟩
  | cons c cs ih =>
    obtain ⟨ret, w2, k, h1, hw2, h2, h3⟩ := queue_step_split env w hw c
    obtain ⟨w3, h4, h5, h6⟩ := ih w2 hw2
    refine ⟨w3, ?_, ?_, h6⟩
    · simp only [queue_run, h1, h4]
    · rw [h5, h2, h3]
      simp only [List.map_cons, List.flatten_cons, List.append_assoc]
      rw [← List.append_assoc ((w.queued ++ c.payload).take k), List.take_append_drop]
      simp

/-- C6 on an idle connection with 6 bytes queued whose socket takes 3 bytes,
then 1, then would block, then takes 1: after a drain, an enqueue of `7, 8`
and another drain, the socket has `1..5` and the queue holds `6, 7, 8`. -/
theorem C6_write_queue_order_witness :
    ∃ w1, queue_run linuxEnv sampleIdleWorld [.drain, .enqueue [[7, 8]], .drain] = .ok w1
      ∧ w1.sent ++ w1.queued
          = sampleIdleWorld.sent ++ sampleIdleWorld.queued
            ++ ([QueueCall.drain, .enqueue [[7, 8]], .drain].map QueueCall.payload).flatten
      ∧ ∀ c : QueueCall, ∃ ret w2 k, queue_step linuxEnv w1 c = .ok (ret, w2)
          ∧ w2.sent = w1.sent ++ (w1.queued ++ c.payload).take k
          ∧ w2.queued = (w1.queued ++ c.payload).drop k :=
  C6_write_queue_order linuxEnv sampleIdleWorld
    ⟨_, _, _, rfl, by decide, rfl, rfl, Or.inl rfl⟩ [.drain, .enqueue [[7, 8]], .drain]

/-! ## Event handlers: C8, C9, C10 -/

/-- Effect of `gw_MySQLWrite_client` on any connection: the socket gets a prefix of
the pending bytes, the queue keeps the rest; trace, protocol context,
session, descriptor and lifecycle state are untouched. -/
theorem write_client_split (env : Env) (w : World) (dcb : DCB) (hdcb : w.dcb = some dcb)
    (queue : List (List Nat)) :
    ∃ ret w1 dcb1 k, gw_MySQLWrite_client env w queue = .ok (ret, w1)
      ∧ w1.dcb = some dcb1 ∧ dcb1.protocol = dcb.protocol ∧ dcb1.session = dcb.session
      ∧ dcb1.state = dcb.state ∧ dcb1.fd = dcb.fd ∧ w1.trace = w.trace
      ∧ w1.sent = w.sent ++ (w.queued ++ flat queue).take k
      ∧ w1.queued = (w.queued ++ flat queue).drop k := by
  simp only [gw_MySQLWrite_client, hdcb, World.queued]
  by_cases hq : dcb.writeq = []
  · obtain ⟨k, h1, h2⟩ := write_loop_split env w.script queue w.sent 0 0
    simp only [hq, ne_eq, not_true_eq_false, if_false]
    exact ⟨_, _, _, k, rfl, rfl, rfl, rfl, rfl, rfl, rfl, by simpa [flat] using h1,
      by simpa [flat] using h2⟩
  · simp only [hq, ne_eq, not_false_eq_true, if_true]
    exact ⟨_, _, _, 0, rfl, rfl, rfl, rfl, rfl, rfl, rfl, by simp, by simp [gwbuf_append, flat]⟩

/-- C9: in sub-state `MYSQL_AUTH_RECV`, on a connection that is not
disconnected and has a session, the write-ready handler makes exactly one
call of the client write function, with the single buffer
`07 00 00 02 00 00 00 02 00 00 00` (OK frame, sequence 2, field count 0, no
affected rows, no message); these 11 bytes are appended to the bytes sent or
queued; then the sub-state is `MYSQL_IDLE` and the handler returns 0. -/
theorem C9_auth_recv_sends_ok (env : Env) (w : World) (dcb : DCB) (protocol : MySQLProtocol)
    (session : SESSION) (hdcb : w.dcb = some dcb)
    (hlive : dcb.state ≠ .DCB_STATE_DISCONNECTED) (hp : dcb.protocol = some protocol)
    (hs : dcb.session = some session) (hst : protocol.state = .MYSQL_AUTH_RECV) :
    ∃ w1, gw_write_client_event env w = .ok (0, w1)
      ∧ w1.trace = w.trace ++ [.write .client .client [okFrame2]]
      ∧ w1.sent ++ w1.queued = w.sent ++ w.queued ++ okFrame2
      ∧ w1.substate = some .MYSQL_IDLE
      ∧ (∃ ret w0, gw_MySQLWrite_client env
            { w with trace := w.trace ++ [.write .client .client [okFrame2]] } [okFrame2]
            = .ok (ret, w0)
          ∧ w1 = set_protocol_state w0 .MYSQL_IDLE) := by
  obtain ⟨ret, w0, dcb0, k, h1, h2, h3, _, _, _, h4, h5, h6⟩ :=
    write_client_split env { w with trace := w.trace ++ [.write .client .client [okFrame2]] }
      dcb hdcb [okFrame2]
  have hsend : mysql_send_ok env w 2 0 none = .ok (11, w0) := by
    simp only [mysql_send_ok, client_func_write, gw_mysql_set_byte3, Option.getD]
    have : (gw_MySQLWrite_client env
        { w with trace := w.trace ++ [.write .client .client [okFrame2]] } [okFrame2])
          = .ok (ret, w0) := h1
    simp only [okFrame2] at this
    simp [this, bind, Except.bind, Except.map]
  refine ⟨set_protocol_state w0 .MYSQL_IDLE, ?_, ?_, ?_, ?_, ⟨ret, w0, h1, rfl⟩⟩
  · simp only [gw_write_client_event, hdcb, hlive, if_false, hp, hs, hst, if_true, hsend, bind,
      Except.bind]
  · simpa [set_protocol_state] using h4
  · have : (set_protocol_state w0 .MYSQL_IDLE).queued = w0.queued := by
      simp [set_protocol_state, World.queued, h2]
    simp only [this]
    show w0.sent ++ w0.queued = _
    rw [h5, h6]
    simp only [World.queued, hdcb, flat, List.flatten_cons, List.flatten_nil, List.append_nil]
    rw [List.append_assoc, List.take_append_drop]
    simp
  · simp [World.substate, set_protocol_state, h2, h3, hp]

/-- C9 at the connection of `alice` in `MYSQL_AUTH_RECV`, with a socket that
takes the whole frame at once. -/
theorem C9_auth_recv_sends_ok_witness :
    gw_write_client_event linuxEnv { sampleWorld with dcb := some (aliceDcb .MYSQL_AUTH_RECV) }
        = .ok (0, { dcb := some { aliceDcb .MYSQL_IDLE with
                                  stats := { n_writes := 1, n_buffered := 0 } }
                    script := []
                    sent := okFrame2
                    trace := [.write .client .client [okFrame2]] })
      ∧ ∃ w1, gw_write_client_event linuxEnv
            { sampleWorld with dcb := some (aliceDcb .MYSQL_AUTH_RECV) } = .ok (0, w1)
        ∧ w1.trace = [] ++ [.write .client .client [okFrame2]]
        ∧ w1.sent ++ w1.queued = [] ++ [] ++ okFrame2
        ∧ w1.substate = some .MYSQL_IDLE
        ∧ (∃ ret w0, gw_MySQLWrite_client linuxEnv
              { dcb := some (aliceDcb .MYSQL_AUTH_RECV), script := [.accepted 64], sent := [],
                trace := [] ++ [.write .client .client [okFrame2]] } [okFrame2]
              = .ok (ret, w0)
            ∧ w1 = set_protocol_state w0 .MYSQL_IDLE) :=
  ⟨by decide,
    C9_auth_recv_sends_ok linuxEnv { sampleWorld with dcb := some (aliceDcb .MYSQL_AUTH_RECV) }
      (aliceDcb .MYSQL_AUTH_RECV) _ _ rfl (by decide) rfl rfl rfl⟩

/-- The client error handler on a connection that is not disconnected: one
call recorded, lifecycle state `DCB_STATE_FREED`, protocol context closed or
kept, socket and queue untouched. -/
theorem client_error_spec (w : World) (dcb : DCB) (hdcb : w.dcb = some dcb)
    (hlive : dcb.state ≠ .DCB_STATE_DISCONNECTED) :
    ∃ w2 dcb2, client_func_error w = .ok w2 ∧ w2.dcb = some dcb2
      ∧ dcb2.state = .DCB_STATE_FREED
      ∧ (dcb2.protocol = none ∨ dcb2.protocol = dcb.protocol)
      ∧ dcb2.writeq = dcb.writeq
      ∧ w2.trace = w.trace ++ [.error .client .client] ∧ w2.sent = w.sent := by
  simp only [client_func_error, gw_error_client_event, hdcb, hlive, if_false, Except.map]
  by_cases h1 : dcb.state = .DCB_STATE_LISTENING
  · simp only [h1, ne_eq, not_true_eq_false, if_false]
    exact ⟨_, _, rfl, rfl, rfl, Or.inr rfl, rfl, rfl, rfl⟩
  · by_cases h2 : dcb.fd = 0
    · simp only [h1, ne_eq, not_false_eq_true, if_true, h2, not_true_eq_false, if_false]
      exact ⟨_, _, rfl, rfl, rfl, Or.inr rfl, rfl, rfl, rfl⟩
    · simp only [h1, ne_eq, not_false_eq_true, if_true, h2, if_true]
      exact ⟨_, _, rfl, rfl, rfl, Or.inl rfl, rfl, rfl, rfl⟩

/-- C10: in sub-state `MYSQL_AUTH_FAILED`, on a connection that is not
disconnected and has a session, the write-ready handler first calls the
client write function with one ERROR frame (sequence 2, field count 0xff,
error code 1045), then the client error handler, then, when a backend is
paired, the backend error handler, and nothing else; the frame's bytes are
appended to the bytes sent or queued; afterwards the connection is
`DCB_STATE_FREED` and its sub-state is not `MYSQL_IDLE`. -/
theorem C10_auth_failed_sends_error (env : Env) (w : World) (dcb : DCB)
    (protocol : MySQLProtocol) (session : SESSION) (hdcb : w.dcb = some dcb)
    (hlive : dcb.state ≠ .DCB_STATE_DISCONNECTED) (hp : dcb.protocol = some protocol)
    (hs : dcb.session = some session) (hst : protocol.state = .MYSQL_AUTH_FAILED) :
    ∃ w1, gw_write_client_event env w = .ok (0, w1)
      ∧ authErrorFrame2.getD 3 0 = 2 ∧ authErrorFrame2.getD 4 0 = 0xff
      ∧ authErrorFrame2.getD 5 0 + 256 * authErrorFrame2.getD 6 0 = 1045
      ∧ w1.trace = w.trace
          ++ [.write .client .client [authErrorFrame2], .error .client .client]
          ++ (if session.backends.isSome then [.error .backend .backend] else [])
      ∧ w1.sent ++ w1.queued = w.sent ++ w.queued ++ authErrorFrame2
      ∧ w1.substate ≠ some .MYSQL_IDLE
      ∧ (∃ dcb1, w1.dcb = some dcb1 ∧ dcb1.state = .DCB_STATE_FREED) := by
  obtain ⟨ret, w0, dcb0, k, h1, h2, h3, _, h3s, _, h4, h5, h6⟩ :=
    write_client_split env
      { w with trace := w.trace ++ [.write .client .client [authErrorFrame2]] }
      dcb hdcb [authErrorFrame2]
  have hsend : mysql_send_auth_error env w 2 0 (some (ascii "Authorization failed"))
      = .ok (33, w0) := by
    have e : mysql_send_auth_error env w 2 0 (some (ascii "Authorization failed"))
        = Except.bind (client_func_write env w [authErrorFrame2]) (fun w1 => .ok (33, w1)) :=
      rfl
    rw [e]
    simp only [client_func_write, h1, Except.map, Except.bind]
  have hlive0 : dcb0.state ≠ .DCB_STATE_DISCONNECTED := by rw [h3s]; exact hlive
  obtain ⟨w2, dcb2, e1, e2, e3, e4, e5, e6, e7⟩ := client_error_spec w0 dcb0 h2 hlive0
  have hnot : protocol.state ≠ .MYSQL_AUTH_RECV := by rw [hst]; decide
  have hq : w2.queued = w0.queued := by simp [World.queued, e2, h2, e5]
  have hbytes : w2.sent ++ w2.queued = w.sent ++ w.queued ++ authErrorFrame2 := by
    rw [hq, e7, h5, h6]
    simp only [World.queued, hdcb, flat, List.flatten_cons, List.flatten_nil, List.append_nil]
    rw [List.append_assoc, List.take_append_drop]
    simp
  have hsub : w2.substate ≠ some .MYSQL_IDLE := by
    rcases e4 with e4 | e4
    · simp [World.substate, e2, e4]
    · simp [World.substate, e2, e4, h3, hp, hst]
  have htr : w2.trace
      = w.trace ++ [.write .client .client [authErrorFrame2], .error .client .client] := by
    rw [e6, h4]; simp
  simp only [gw_write_client_event, hdcb, hlive, if_false, hp, hs, hnot, hst, if_true, hsend,
    bind, Except.bind, e1]
  by_cases hb : session.backends.isSome = true
  · simp only [hb, if_true]
    exact ⟨_, rfl, by decide, by decide, by decide, by rw [htr], hbytes, hsub,
      ⟨dcb2, e2, e3⟩⟩
  · simp only [hb, if_false]
    exact ⟨_, rfl, by decide, by decide, by decide, by simpa using htr, hbytes, hsub,
      ⟨dcb2, e2, e3⟩⟩

/-- C10 at the connection of `alice` in `MYSQL_AUTH_FAILED` with no backend
and a socket that takes the whole frame at once: the handler returns 0. -/
theorem C10_auth_failed_sends_error_witness :
    gw_write_client_event linuxEnv
        { sampleWorld with dcb := some (aliceDcb .MYSQL_AUTH_FAILED) }
        = .ok (0, { dcb := some { aliceDcb .MYSQL_AUTH_FAILED with
                                  state := .DCB_STATE_FREED
                                  protocol := none
                                  stats := { n_writes := 1, n_buffered := 0 } }
                    script := []
                    sent := authErrorFrame2
                    trace := [.write .client .client [authErrorFrame2],
                              .error .client .client] })
      ∧ ∃ w1, gw_write_client_event linuxEnv
            { sampleWorld with dcb := some (aliceDcb .MYSQL_AUTH_FAILED) } = .ok (0, w1)
        ∧ authErrorFrame2.getD 3 0 = 2 ∧ authErrorFrame2.getD 4 0 = 0xff
        ∧ authErrorFrame2.getD 5 0 + 256 * authErrorFrame2.getD 6 0 = 1045
        ∧ w1.trace = []
            ++ [.write .client .client [authErrorFrame2], .error .client .client]
            ++ (if (none : Option BackendDCB).isSome then [.error .backend .backend] else [])
        ∧ w1.sent ++ w1.queued = [] ++ [] ++ authErrorFrame2
        ∧ w1.substate ≠ some .MYSQL_IDLE
        ∧ (∃ dcb1, w1.dcb = some dcb1 ∧ dcb1.state = .DCB_STATE_FREED) :=
  ⟨by decide,
    C10_auth_failed_sends_error linuxEnv
      { sampleWorld with dcb := some (aliceDcb .MYSQL_AUTH_FAILED) }
      (aliceDcb .MYSQL_AUTH_FAILED) _ _ rfl (by decide) rfl rfl rfl⟩

/-! ## Frames sent by the gateway: C15, C16, C17, C18 -/

/-- The buffer that `mysql_send_ok` builds. -/
theorem send_ok_frame (env : Env) (w : World) (dcb : DCB) (hdcb : w.dcb = some dcb)
    (s a : Int) (m : Option (List Nat)) (hm : 7 + (m.getD []).length < 256) :
    ∃ w1, mysql_send_ok env w s a m = .ok (((4 + (7 + (m.getD []).length) : Nat) : Int), w1)
      ∧ w1.trace = w.trace ++ [.write .client .client
          [gw_mysql_set_byte3 (7 + (m.getD []).length) ++ [(s % 256).toNat]
            ++ [0, (a % 256).toNat, 0, 2, 0, 0, 0] ++ m.getD []]] := by
  obtain ⟨ret, w0, dcb0, k, h1, _, _, _, _, _, h4, _, _⟩ :=
    write_client_split env
      { w with trace := w.trace ++ [.write .client .client
          [gw_mysql_set_byte3 (7 + (m.getD []).length) ++ [(s % 256).toNat]
            ++ [0, (a % 256).toNat, 0, 2, 0, 0, 0] ++ m.getD []]] }
      dcb hdcb
      [gw_mysql_set_byte3 (7 + (m.getD []).length) ++ [(s % 256).toNat]
            ++ [0, (a % 256).toNat, 0, 2, 0, 0, 0] ++ m.getD []]
  have hmod : (1 + 1 + 1 + 2 + 2 + (m.getD []).length) % 256 = 7 + (m.getD []).length := by
    omega
  refine ⟨w0, ?_, h4⟩
  simp only [mysql_send_ok, hmod, lt_irrefl, if_false, client_func_write]
  simp only [List.append_assoc, List.singleton_append, List.cons_append, List.nil_append] at h1 ⊢
  simp only [h1, Except.map, bind, Except.bind]
/-- C15: for every sequence number `s` in 0..255 and every optional message
`m` with `7 + len(m)` under 256, the frame that `mysql_send_ok` hands to the
client write function has its first three bytes, read little-endian, equal
to the payload length `7 + len(m)`, which is the frame's length minus 4; its
byte 3 is `s`; and the value returned is the frame's total length. -/
theorem C15_ok_header_round_trip (env : Env) (w : World) (dcb : DCB) (hdcb : w.dcb = some dcb)
    (s a : Int) (m : Option (List Nat)) (hs0 : 0 ≤ s) (hs1 : s < 256)
    (hm : 7 + (m.getD []).length < 256) :
    ∃ buf w1, mysql_send_ok env w s a m = .ok ((buf.length : Int), w1)
      ∧ w1.trace = w.trace ++ [.write .client .client [buf]]
      ∧ buf.getD 0 0 + 256 * buf.getD 1 0 + 65536 * buf.getD 2 0 = 7 + (m.getD []).length
      ∧ 7 + (m.getD []).length = buf.length - 4
      ∧ (buf.getD 3 0 : Int) = s := by
  obtain ⟨w1, h1, h2⟩ := send_ok_frame env w dcb hdcb s a m hm
  refine ⟨_, w1, ?_, h2, ?_, ?_, ?_⟩
  · rw [h1]
    simp [gw_mysql_set_byte3]
    omega
  · simp [gw_mysql_set_byte3]
    omega
  · simp [gw_mysql_set_byte3]
    omega
  · simp [gw_mysql_set_byte3]
    omega

/-- C15 at sequence number 2 with the message `done`. -/
theorem C15_ok_header_round_trip_witness :
    ∃ buf w1, mysql_send_ok linuxEnv sampleWorld 2 0 (some (ascii "done"))
        = .ok ((buf.length : Int), w1)
      ∧ w1.trace = sampleWorld.trace ++ [.write .client .client [buf]]
      ∧ buf.getD 0 0 + 256 * buf.getD 1 0 + 65536 * buf.getD 2 0
          = 7 + ((some (ascii "done")).getD []).length
      ∧ 7 + ((some (ascii "done")).getD []).length = buf.length - 4
      ∧ (buf.getD 3 0 : Int) = 2 :=
  C15_ok_header_round_trip linuxEnv sampleWorld sampleDcb rfl 2 0 (some (ascii "done"))
    (by decide) (by decide) (by decide)

/-- C16: for every affected-rows value `a` and optional message `m` with
`7 + len(m)` under 256, the payload of the frame that `mysql_send_ok` hands
to the client write function (the frame without its 4-byte header) is the 7
bytes `0x00, a mod 256, 0x00, 0x02, 0x00, 0x00, 0x00` followed by the bytes
of `m` and nothing else (nothing at all after the 7 bytes when `m` is
absent). -/
theorem C16_ok_payload_layout (env : Env) (w : World) (dcb : DCB) (hdcb : w.dcb = some dcb)
    (s a : Int) (m : Option (List Nat)) (hm : 7 + (m.getD []).length < 256) :
    ∃ buf w1 ret, mysql_send_ok env w s a m = .ok (ret, w1)
      ∧ w1.trace = w.trace ++ [.write .client .client [buf]]
      ∧ buf.drop 4 = [0, (a % 256).toNat, 0, 2, 0, 0, 0] ++ m.getD []
      ∧ (m = none → buf.drop 4 = [0, (a % 256).toNat, 0, 2, 0, 0, 0]) := by
  obtain ⟨w1, h1, h2⟩ := send_ok_frame env w dcb hdcb s a m hm
  refine ⟨_, w1, _, h1, h2, ?_, ?_⟩
  · simp [gw_mysql_set_byte3]
  · intro hn
    simp [gw_mysql_set_byte3, hn]

/-- C16 at 300 affected rows (byte 44) and the message `done`. -/
theorem C16_ok_payload_layout_witness :
    ∃ buf w1 ret, mysql_send_ok linuxEnv sampleWorld 1 300 (some (ascii "done")) = .ok (ret, w1)
      ∧ w1.trace = sampleWorld.trace ++ [.write .client .client [buf]]
      ∧ buf.drop 4 = [0, ((300 : Int) % 256).toNat, 0, 2, 0, 0, 0]
          ++ (some (ascii "done")).getD []
      ∧ (some (ascii "done") = none →
          buf.drop 4 = [0, ((300 : Int) % 256).toNat, 0, 2, 0, 0, 0]) :=
  C16_ok_payload_layout linuxEnv sampleWorld sampleDcb rfl 1 300 (some (ascii "done"))
    (by decide)
/-- The buffer that `mysql_send_auth_error` builds. -/
theorem send_auth_error_frame (env : Env) (w : World) (dcb : DCB) (hdcb : w.dcb = some dcb)
    (s a : Int) (m : Option (List Nat))
    (hm : 9 + (m.getD (ascii "Access denied!")).length < 256) :
    ∃ w1, mysql_send_auth_error env w s a m
        = .ok (((4 + (9 + (m.getD (ascii "Access denied!")).length) : Nat) : Int), w1)
      ∧ w1.trace = w.trace ++ [.write .client .client
          [gw_mysql_set_byte3 (9 + (m.getD (ascii "Access denied!")).length)
            ++ [(s % 256).toNat] ++ [0xff, 0x15, 0x04] ++ [35, 50, 56, 48, 48, 0]
            ++ m.getD (ascii "Access denied!")]] := by
  obtain ⟨ret, w0, dcb0, k, h1, _, _, _, _, _, h4, _, _⟩ :=
    write_client_split env
      { w with trace := w.trace ++ [.write .client .client
          [gw_mysql_set_byte3 (9 + (m.getD (ascii "Access denied!")).length)
            ++ [(s % 256).toNat] ++ [0xff, 0x15, 0x04] ++ [35, 50, 56, 48, 48, 0]
            ++ m.getD (ascii "Access denied!")]] }
      dcb hdcb
      [gw_mysql_set_byte3 (9 + (m.getD (ascii "Access denied!")).length)
            ++ [(s % 256).toNat] ++ [0xff, 0x15, 0x04] ++ [35, 50, 56, 48, 48, 0]
            ++ m.getD (ascii "Access denied!")]
  have hmod : (1 + 2 + 6 + (m.getD (ascii "Access denied!")).length) % 256
      = 9 + (m.getD (ascii "Access denied!")).length := by omega
  have hst : ascii "#" ++ (ascii "2800" ++ [0]).take 5 = [35, 50, 56, 48, 48, 0] := by decide
  have herr : gw_mysql_set_byte2 1045 = [0x15, 0x04] := by decide
  refine ⟨w0, ?_, h4⟩
  simp only [mysql_send_auth_error, hmod, lt_irrefl, if_false, client_func_write, hst, herr]
  simp only [List.append_assoc, List.singleton_append, List.cons_append, List.nil_append] at h1 ⊢
  simp only [h1, Except.map, bind, Except.bind]

/-- C17: for every sequence number `s` in 0..255 and optional message `m`,
with `msg` equal to `m` when supplied and to `Access denied!` otherwise and
`9 + len(msg)` under 256, the frame that `mysql_send_auth_error` hands to the
client write function declares the payload length `9 + len(msg)` in its
first three bytes, has `s` as byte 3, a payload that begins with `0xff`,
`0x15`, `0x04` (error code 1045 little-endian), and `msg` from payload
offset 9 to the end. -/
theorem C17_error_frame_layout (env : Env) (w : World) (dcb : DCB) (hdcb : w.dcb = some dcb)
    (s a : Int) (m : Option (List Nat)) (hs0 : 0 ≤ s) (hs1 : s < 256)
    (hm : 9 + (m.getD (ascii "Access denied!")).length < 256) :
    ∃ buf w1 ret, mysql_send_auth_error env w s a m = .ok (ret, w1)
      ∧ w1.trace = w.trace ++ [.write .client .client [buf]]
      ∧ buf.getD 0 0 + 256 * buf.getD 1 0 + 65536 * buf.getD 2 0
          = 9 + (m.getD (ascii "Access denied!")).length
      ∧ buf.length = 4 + (9 + (m.getD (ascii "Access denied!")).length)
      ∧ (buf.getD 3 0 : Int) = s
      ∧ (buf.drop 4).take 3 = [0xff, 0x15, 0x04]
      ∧ 0x15 + 256 * 0x04 = 1045
      ∧ (buf.drop 4).drop 9 = m.getD (ascii "Access denied!")
      ∧ (m = none → (buf.drop 4).drop 9 = ascii "Access denied!") := by
  obtain ⟨w1, h1, h2⟩ := send_auth_error_frame env w dcb hdcb s a m hm
  refine ⟨_, w1, _, h1, h2, ?_, ?_, ?_, ?_, by decide, ?_, ?_⟩
  · simp [gw_mysql_set_byte3]
    omega
  · simp [gw_mysql_set_byte3]
    omega
  · simp [gw_mysql_set_byte3]
    omega
  · simp [gw_mysql_set_byte3]
  · simp [gw_mysql_set_byte3]
  · intro hn
    simp [gw_mysql_set_byte3, hn]

/-- C17 at sequence number 2 without a message: the default text is sent. -/
theorem C17_error_frame_layout_witness :
    ∃ buf w1 ret, mysql_send_auth_error linuxEnv sampleWorld 2 0 none = .ok (ret, w1)
      ∧ w1.trace = sampleWorld.trace ++ [.write .client .client [buf]]
      ∧ buf.getD 0 0 + 256 * buf.getD 1 0 + 65536 * buf.getD 2 0
          = 9 + ((none : Option (List Nat)).getD (ascii "Access denied!")).length
      ∧ buf.length = 4 + (9 + ((none : Option (List Nat)).getD (ascii "Access denied!")).length)
      ∧ (buf.getD 3 0 : Int) = 2
      ∧ (buf.drop 4).take 3 = [0xff, 0x15, 0x04]
      ∧ 0x15 + 256 * 0x04 = 1045
      ∧ (buf.drop 4).drop 9 = (none : Option (List Nat)).getD (ascii "Access denied!")
      ∧ ((none : Option (List Nat)) = none → (buf.drop 4).drop 9 = ascii "Access denied!") :=
  C17_error_frame_layout linuxEnv sampleWorld sampleDcb rfl 2 0 none (by decide) (by decide)
    (by decide)

/-- C18, the code at the failing input: in the ERROR frame that
`mysql_send_auth_error(dcb, 2, 0, "Authorization failed")` hands to the
client write function, payload bytes 3 to 8 are `#`, `2`, `8`, `0`, `0` and
the byte 0x00 (the NUL that ends the literal `"2800"`), not the six
characters `#28000`. -/
theorem C18_state_marker_bytes :
    ∃ buf w1 ret,
      mysql_send_auth_error linuxEnv sampleWorld 2 0 (some (ascii "Authorization failed"))
        = .ok (ret, w1)
      ∧ w1.trace = [.write .client .client [buf]]
      ∧ ((buf.drop 4).drop 3).take 6 = [35, 50, 56, 48, 48, 0]
      ∧ ((buf.drop 4).drop 3).take 6 ≠ ascii "#28000" :=
  ⟨authErrorFrame2, _, _, rfl, by decide, by decide, by decide⟩

/-! ## Read handler after authentication: C13, C14 -/

theorem readBytes_command (frame : List Nat) (b : Nat) (h : frame[4]? = some b) :
    readBytes frame 4 1 = .ok [b] := by
  have hlen : 4 < frame.length := by
    by_contra hc
    rw [List.getElem?_eq_none (by omega)] at h
    cases h
  unfold readBytes
  rw [if_pos (by omega)]
  congr 1
  rw [List.getElem?_eq_getElem hlen] at h
  simp only [Option.some.injEq] at h
  rw [List.drop_eq_getElem_cons hlen, h]
  simp

/-- The client error handler on any connection: one call recorded; the
protocol context is closed or kept; socket and queue are untouched. -/
theorem client_error_any (w : World) (dcb : DCB) (hdcb : w.dcb = some dcb) :
    ∃ w2, client_func_error w = .ok w2
      ∧ w2.trace = w.trace ++ [.error .client .client]
      ∧ w2.sent = w.sent ∧ w2.queued = w.queued ∧ w2.script = w.script
      ∧ (w2.substate = none ∨ w2.substate = w.substate)
      ∧ (dcb.state ≠ .DCB_STATE_DISCONNECTED → dcb.state ≠ .DCB_STATE_LISTENING →
          dcb.fd ≠ 0 → w2.substate = none) := by
  simp only [client_func_error, gw_error_client_event, hdcb, Except.map]
  by_cases h0 : dcb.state = .DCB_STATE_DISCONNECTED
  · simp only [h0, if_true]
    exact ⟨_, rfl, rfl, rfl, by simp [World.queued, hdcb], rfl,
      Or.inr (by simp [World.substate, hdcb]), fun h => by simp at h⟩
  · by_cases h1 : dcb.state = .DCB_STATE_LISTENING
    · simp only [h0, if_false, h1, ne_eq, not_true_eq_false]
      exact ⟨_, rfl, rfl, rfl, by simp [World.queued, hdcb], rfl,
        Or.inr (by simp [World.substate, hdcb]), fun _ h => by simp at h⟩
    · by_cases h2 : dcb.fd = 0
      · simp only [h0, if_false, h1, ne_eq, not_false_eq_true, if_true, h2, not_true_eq_false]
        exact ⟨_, rfl, rfl, rfl, by simp [World.queued, hdcb], rfl,
          Or.inr (by simp [World.substate, hdcb]), fun _ _ h => by simp at h⟩
      · simp only [h0, if_false, h1, ne_eq, not_false_eq_true, if_true, h2]
        exact ⟨_, rfl, rfl, rfl, by simp [World.queued, hdcb, gw_mysql_close], rfl,
          Or.inl (by simp [World.substate, gw_mysql_close]),
          fun _ _ _ => by simp [World.substate, gw_mysql_close]⟩

/-- C13: in sub-state `MYSQL_IDLE` or `MYSQL_WAITING_RESULT` with a backend
paired, for every received chain whose first buffer has a byte at index 4
other than 0x01 (0x03 included), `gw_read_client_event` makes exactly one
call through a function table, the backend's write function on the backend
connection with the received chain unmodified; it writes nothing to the
client (socket and write queue unchanged), returns 0, and leaves the
sub-state `MYSQL_WAITING_RESULT`. -/
theorem C13_forward_to_backend (env : Env) (w : World) (dcb : DCB) (protocol : MySQLProtocol)
    (session : SESSION) (backend : BackendDCB) (frame : List Nat) (rest : List (List Nat))
    (b : Nat) (hdcb : w.dcb = some dcb) (hp : dcb.protocol = some protocol)
    (hs : dcb.session = some session) (hb : session.backends = some backend)
    (hst : protocol.state = .MYSQL_IDLE ∨ protocol.state = .MYSQL_WAITING_RESULT)
    (hcmd : frame[4]? = some b) (hne : b ≠ 1) :
    ∃ w1, gw_read_client_event env w (.read 0 (frame :: rest)) = .ok (0, w1)
      ∧ w1.trace = w.trace ++ [.write .backend .backend (frame :: rest)]
      ∧ w1.substate = some .MYSQL_WAITING_RESULT
      ∧ w1.sent = w.sent ∧ w1.queued = w.queued ∧ w1.script = w.script := by
  have hrd := readBytes_command frame b hcmd
  rcases hst with hst | hst
  · simp only [gw_read_client_event, hdcb, hp, hst, ne_eq, not_true_eq_false, if_false, hrd,
      bind, Except.bind, List.headD_cons, hne, hs, hb]
    refine ⟨_, rfl, rfl, ?_, rfl, ?_, rfl⟩
    · simp [World.substate, set_protocol_state, hdcb, hp]
    · simp [World.queued, set_protocol_state, hdcb]
  · simp only [gw_read_client_event, hdcb, hp, hst, ne_eq, not_true_eq_false, if_false, hrd,
      bind, Except.bind, List.headD_cons, hne, hs, hb]
    refine ⟨_, rfl, rfl, ?_, rfl, ?_, rfl⟩
    · simp [World.substate, set_protocol_state, hdcb, hp]
    · simp [World.queued, set_protocol_state, hdcb]

/-- C13 at a query frame on an idle connection with a backend. -/
theorem C13_forward_to_backend_witness :
    queryFrame[4]? = some 3
      ∧ ∃ w1, gw_read_client_event linuxEnv sampleBackendWorld (.read 0 [queryFrame])
          = .ok (0, w1)
        ∧ w1.trace = sampleBackendWorld.trace ++ [.write .backend .backend [queryFrame]]
        ∧ w1.substate = some .MYSQL_WAITING_RESULT
        ∧ w1.sent = sampleBackendWorld.sent ∧ w1.queued = sampleBackendWorld.queued
        ∧ w1.script = sampleBackendWorld.script :=
  ⟨by decide,
    C13_forward_to_backend linuxEnv sampleBackendWorld _ _ _ { fd := 7 } queryFrame [] 3
      rfl rfl rfl rfl (Or.inl rfl) (by decide) (by decide)⟩

/-- C14, refuted as stated: on an idle connection with a backend, the
disconnect frame `01 00 00 00 01` is passed to a write operation: the first
call of the handler is the backend's write function with the frame. -/
theorem C14_counterexample :
    quitFrame[4]? = some 1
      ∧ ∃ w1, gw_read_client_event linuxEnv sampleBackendWorld (.read 0 [quitFrame])
          = .ok (1, w1)
        ∧ w1.trace = [.write .backend .client [quitFrame], .error .backend .backend,
            .error .client .client] := by
  refine ⟨by decide, _, rfl, by decide⟩

/-- C14, amended: in sub-state `MYSQL_IDLE` or `MYSQL_WAITING_RESULT`, for
every received chain whose first buffer has 0x01 at index 4, the handler
returns 1 and never sets the sub-state (it ends closed or as it was). With a
backend paired it calls, in this order, the backend's write function with the
received chain, the backend's error handler and the client's error handler;
with no backend it calls the client's error handler only, so the frame is
passed to no write operation. Socket and write queue are left as they
were. -/
theorem C14_disconnect_command (env : Env) (w : World) (dcb : DCB) (protocol : MySQLProtocol)
    (session : SESSION) (frame : List Nat) (rest : List (List Nat))
    (hdcb : w.dcb = some dcb) (hp : dcb.protocol = some protocol)
    (hs : dcb.session = some session)
    (hst : protocol.state = .MYSQL_IDLE ∨ protocol.state = .MYSQL_WAITING_RESULT)
    (hcmd : frame[4]? = some 1) :
    ∃ w1, gw_read_client_event env w (.read 0 (frame :: rest)) = .ok (1, w1)
      ∧ (session.backends ≠ none → ∃ target,
          w1.trace = w.trace ++ [.write .backend target (frame :: rest),
            .error .backend .backend, .error .client .client])
      ∧ (session.backends = none → w1.trace = w.trace ++ [.error .client .client])
      ∧ (w1.substate = none ∨ w1.substate = some protocol.state)
      ∧ (dcb.state ≠ .DCB_STATE_DISCONNECTED → dcb.state ≠ .DCB_STATE_LISTENING →
          dcb.fd ≠ 0 → w1.substate = none)
      ∧ w1.sent = w.sent ∧ w1.queued = w.queued := by
  have hrd := readBytes_command frame 1 hcmd
  have hsub : w.substate = some protocol.state := by simp [World.substate, hdcb, hp]
  cases hbk : session.backends with
  | none =>
    obtain ⟨w2, e1, e2, e3, e4, _, e5, e6⟩ := client_error_any w dcb hdcb
    have hev : gw_read_client_event env w (.read 0 (frame :: rest)) = .ok (1, w2) := by
      rcases hst with hst | hst <;>
      simp [gw_read_client_event, hdcb, hp, hst, hrd, bind, Except.bind, hs, hbk, e1]
    refine ⟨w2, hev, fun h => absurd rfl h, fun _ => e2, ?_, e6, e3, e4⟩
    rw [← hsub]; exact e5
  | some backend =>
    obtain ⟨w2, e1, e2, e3, e4, _, e5, e6⟩ := client_error_any
      { w with trace := w.trace ++
          [.write .backend .client (frame :: rest), .error .backend .backend] } dcb hdcb
    have e1' := e1
    simp only [hdcb] at e1'
    have hev : gw_read_client_event env w (.read 0 (frame :: rest)) = .ok (1, w2) := by
      rcases hst with hst | hst <;>
      simp [gw_read_client_event, hdcb, hp, hst, hrd, bind, Except.bind, hs, hbk, e1']
    refine ⟨w2, hev, fun _ => ⟨.client, by rw [e2]; simp⟩, (fun h => by cases h), ?_, e6, e3,
      ?_⟩
    · rw [← hsub]; exact e5
    · rw [e4]; simp [World.queued]

/-- C14 amended, at the disconnect frame on the connection of `sampleWorld`
moved to `MYSQL_IDLE`, which has no backend. -/
theorem C14_disconnect_command_witness :
    quitFrame[4]? = some 1
      ∧ ∃ w1, gw_read_client_event linuxEnv
            { sampleWorld with dcb := some (aliceDcb .MYSQL_IDLE) } (.read 0 [quitFrame])
          = .ok (1, w1)
        ∧ w1.trace = [] ++ [.error .client .client]
        ∧ w1.substate = none
        ∧ w1.sent = [] ∧ w1.queued = [] := by
  obtain ⟨w1, h1, _, h3, _, h5, h6, h7⟩ :=
    C14_disconnect_command linuxEnv { sampleWorld with dcb := some (aliceDcb .MYSQL_IDLE) }
      (aliceDcb .MYSQL_IDLE) _ _ quitFrame [] rfl rfl rfl (Or.inl rfl) (by decide)
  exact ⟨by decide, w1, h1, h3 rfl, h5 (by decide) (by decide) (by decide), h6, h7⟩

/-! ## Failed authentication: C11, C12 -/

/-- Result of `gw_MySQLWrite_client` as a function of the socket script, the
bytes sent and the write queue. -/
theorem write_client_io (env : Env) (w : World) (dcb : DCB) (hdcb : w.dcb = some dcb)
    (queue : List (List Nat)) :
    ∃ ret w1 dcb1, gw_MySQLWrite_client env w queue = .ok (ret, w1)
      ∧ w1.dcb = some dcb1 ∧ dcb1.protocol = dcb.protocol ∧ dcb1.session = dcb.session
      ∧ dcb1.state = dcb.state ∧ dcb1.fd = dcb.fd ∧ w1.trace = w.trace
      ∧ w1.sent = (if dcb.writeq ≠ [] then w.sent
          else (write_loop env w.script queue w.sent 0 0).sent)
      ∧ dcb1.writeq = (if dcb.writeq ≠ [] then gwbuf_append dcb.writeq queue
          else (write_loop env w.script queue w.sent 0 0).queue)
      ∧ w1.script = (if dcb.writeq ≠ [] then w.script
          else (write_loop env w.script queue w.sent 0 0).script) := by
  simp only [gw_MySQLWrite_client, hdcb]
  by_cases hq : dcb.writeq = []
  · simp only [hq, ne_eq, not_true_eq_false, if_false]
    exact ⟨_, _, _, rfl, rfl, rfl, rfl, rfl, rfl, rfl, rfl, rfl, rfl⟩
  · simp only [hq, ne_eq, not_false_eq_true, if_true]
    exact ⟨_, _, _, rfl, rfl, rfl, rfl, rfl, rfl, rfl, rfl, rfl, rfl⟩

/-- The write-ready handler in sub-state `MYSQL_AUTH_FAILED`: calls made,
bytes handed to the socket and bytes queued, as functions of the connection
before the event. -/
theorem auth_failed_write_event (env : Env) (w : World) (dcb : DCB) (protocol : MySQLProtocol)
    (session : SESSION) (hdcb : w.dcb = some dcb)
    (hlive : dcb.state ≠ .DCB_STATE_DISCONNECTED) (hp : dcb.protocol = some protocol)
    (hs : dcb.session = some session) (hst : protocol.state = .MYSQL_AUTH_FAILED) :
    ∃ w1 dcb1, gw_write_client_event env w = .ok (0, w1) ∧ w1.dcb = some dcb1
      ∧ w1.trace = w.trace
          ++ [.write .client .client [authErrorFrame2], .error .client .client]
          ++ (if session.backends.isSome then [.error .backend .backend] else [])
      ∧ w1.sent = (if dcb.writeq ≠ [] then w.sent
          else (write_loop env w.script [authErrorFrame2] w.sent 0 0).sent)
      ∧ dcb1.writeq = (if dcb.writeq ≠ [] then gwbuf_append dcb.writeq [authErrorFrame2]
          else (write_loop env w.script [authErrorFrame2] w.sent 0 0).queue)
      ∧ w1.script = (if dcb.writeq ≠ [] then w.script
          else (write_loop env w.script [authErrorFrame2] w.sent 0 0).script)
      ∧ (w1.substate = none ∨ w1.substate = some .MYSQL_AUTH_FAILED) := by
  obtain ⟨ret, w0, dcb0, h1, h2, h3, _, h3s, _, h4, h5, h6, h7⟩ :=
    write_client_io env
      { w with trace := w.trace ++ [.write .client .client [authErrorFrame2]] }
      dcb hdcb [authErrorFrame2]
  have hsend : mysql_send_auth_error env w 2 0 (some (ascii "Authorization failed"))
      = .ok (33, w0) := by
    have e : mysql_send_auth_error env w 2 0 (some (ascii "Authorization failed"))
        = Except.bind (client_func_write env w [authErrorFrame2]) (fun w1 => .ok (33, w1)) :=
      rfl
    rw [e]
    simp only [client_func_write, h1, Except.map, Except.bind]
  have hlive0 : dcb0.state ≠ .DCB_STATE_DISCONNECTED := by rw [h3s]; exact hlive
  obtain ⟨w2, dcb2, e1, e2, e3, e4, e5, e6, e7⟩ := client_error_spec w0 dcb0 h2 hlive0
  have hnot : protocol.state ≠ .MYSQL_AUTH_RECV := by rw [hst]; decide
  have hsub : w2.substate = none ∨ w2.substate = some .MYSQL_AUTH_FAILED := by
    rcases e4 with e4 | e4
    · left; simp [World.substate, e2, e4]
    · right; simp [World.substate, e2, e4, h3, hp, hst]
  have htr : w2.trace
      = w.trace ++ [.write .client .client [authErrorFrame2], .error .client .client] := by
    rw [e6, h4]; simp
  have hscr : w2.script = w0.script := by
    have := e1
    simp only [client_func_error, gw_error_client_event, h2, hlive0, if_false, Except.map,
      Except.ok.injEq] at this
    rw [← this]
  have hsent2 : w2.sent = (if dcb.writeq ≠ [] then w.sent
      else (write_loop env w.script [authErrorFrame2] w.sent 0 0).sent) := by
    rw [e7]; exact h5
  have hq2 : dcb2.writeq = (if dcb.writeq ≠ [] then gwbuf_append dcb.writeq [authErrorFrame2]
      else (write_loop env w.script [authErrorFrame2] w.sent 0 0).queue) := by
    rw [e5]; exact h6
  have hscr2 : w2.script = (if dcb.writeq ≠ [] then w.script
      else (write_loop env w.script [authErrorFrame2] w.sent 0 0).script) := by
    rw [hscr]; exact h7
  simp only [gw_write_client_event, hdcb, hlive, if_false, hp, hs, hnot, hst, if_true, hsend,
    bind, Except.bind, e1]
  cases hbk : session.backends with
  | none =>
    simp only [Option.isSome, Bool.false_eq_true, if_false, List.append_nil]
    exact ⟨w2, dcb2, rfl, e2, htr, hsent2, hq2, hscr2, hsub⟩
  | some backend =>
    simp only [Option.isSome, if_true]
    exact ⟨_, dcb2, rfl, e2, by rw [htr], hsent2, hq2, hscr2, hsub⟩
/-- An event on a connection whose sub-state is `MYSQL_AUTH_FAILED`, or
whose protocol context is closed, leaves it in one of these two
conditions. -/
theorem handle_keeps_failed (env : Env) (w w1 : World) (e : Event) (r : Int)
    (hinv : w.substate = none ∨ w.substate = some .MYSQL_AUTH_FAILED)
    (h : handle env w e = .ok (r, w1)) :
    w1.substate = none ∨ w1.substate = some .MYSQL_AUTH_FAILED := by
  cases hd : w.dcb with
  | none =>
    cases e with
    | readable input => simp [handle, gw_read_client_event, hd] at h
    | writable =>
      simp only [handle, gw_write_client_event, hd, Except.ok.injEq, Prod.mk.injEq] at h
      rw [← h.2]; exact hinv
  | some dcb =>
    cases hp : dcb.protocol with
    | none =>
      cases e with
      | readable input =>
        cases input with
        | ioctl_failed =>
          simp only [handle, gw_read_client_event, hd, Except.ok.injEq, Prod.mk.injEq] at h
          rw [← h.2]; exact hinv
        | read ret buf => simp [handle, gw_read_client_event, hd, hp] at h
      | writable =>
        by_cases h0 : dcb.state = .DCB_STATE_DISCONNECTED
        · simp only [handle, gw_write_client_event, hd, h0, if_true, Except.ok.injEq,
            Prod.mk.injEq] at h
          rw [← h.2]; exact hinv
        · simp only [handle, gw_write_client_event, hd, h0, if_false, hp, Except.ok.injEq,
            Prod.mk.injEq] at h
          rw [← h.2]; exact hinv
    | some protocol =>
      have hst : protocol.state = .MYSQL_AUTH_FAILED := by
        simp only [World.substate, hd, hp, Option.bind, Option.map, reduceCtorEq, false_or,
          Option.some.injEq] at hinv
        exact hinv
      cases e with
      | readable input =>
        cases input with
        | ioctl_failed =>
          simp only [handle, gw_read_client_event, hd, Except.ok.injEq, Prod.mk.injEq] at h
          rw [← h.2]; exact hinv
        | read ret buf =>
          simp only [handle, gw_read_client_event, hd, hp, hst, Except.ok.injEq,
            Prod.mk.injEq] at h
          rw [← h.2]; exact hinv
      | writable =>
        by_cases h0 : dcb.state = .DCB_STATE_DISCONNECTED
        · simp only [handle, gw_write_client_event, hd, h0, if_true, Except.ok.injEq,
            Prod.mk.injEq] at h
          rw [← h.2]; exact hinv
        · cases hs : dcb.session with
          | none =>
            simp only [handle, gw_write_client_event, hd, h0, if_false, hp, hs, Except.ok.injEq,
              Prod.mk.injEq] at h
            rw [← h.2]; exact hinv
          | some session =>
            obtain ⟨w2, _, e1, _, _, _, _, _, e2⟩ :=
              auth_failed_write_event env w dcb protocol session hd h0 hp hs hst
            simp only [handle, e1, Except.ok.injEq, Prod.mk.injEq] at h
            rw [← h.2]; exact e2

/-- C12: in the step relation made of `gw_read_client_event` and
`gw_write_client_event`, from a state whose sub-state is
`MYSQL_AUTH_FAILED`, every sequence of read-ready and write-ready events that
runs to a state ends in a state whose sub-state is neither `MYSQL_IDLE` nor
`MYSQL_WAITING_RESULT`: the sub-state is still `MYSQL_AUTH_FAILED` or the
protocol context has been closed. The sequence is arbitrary, so this holds
after every event of a run. -/
theorem C12_failed_never_idle (env : Env) (w w1 : World) (events : List Event)
    (hst : w.substate = some .MYSQL_AUTH_FAILED)
    (hrun : handle_run env w events = .ok w1) :
    w1.substate ≠ some .MYSQL_IDLE ∧ w1.substate ≠ some .MYSQL_WAITING_RESULT
      ∧ (w1.substate = none ∨ w1.substate = some .MYSQL_AUTH_FAILED) := by
  have key : ∀ (es : List Event) (v : World),
      (v.substate = none ∨ v.substate = some .MYSQL_AUTH_FAILED) →
      handle_run env v es = .ok w1 →
      (w1.substate = none ∨ w1.substate = some .MYSQL_AUTH_FAILED) := by
    intro es
    induction es with
    | nil =>
      intro v hv h
      simp only [handle_run, Except.ok.injEq] at h
      rw [← h]; exact hv
    | cons e es ih =>
      intro v hv h
      simp only [handle_run] at h
      cases he : handle env v e with
      | error f => simp [he] at h
      | ok p =>
        obtain ⟨r, v1⟩ := p
        simp only [he] at h
        exact ih v1 (handle_keeps_failed env v v1 e r hv he) h
  have hfin := key events w (Or.inr hst) hrun
  refine ⟨?_, ?_, hfin⟩
  · rcases hfin with h | h <;> rw [h] <;> simp
  · rcases hfin with h | h <;> rw [h] <;> simp

/-- C12 on the connection of `alice` in `MYSQL_AUTH_FAILED`: a read-ready
event with a query frame, then two write-ready events; the run ends with the
protocol context closed. -/
theorem C12_failed_never_idle_witness :
    handle_run linuxEnv { sampleWorld with dcb := some (aliceDcb .MYSQL_AUTH_FAILED) }
        [.readable (.read 0 [queryFrame]), .writable, .writable]
      = .ok failedClosedWorld
    ∧ failedClosedWorld.substate ≠ some .MYSQL_IDLE
    ∧ failedClosedWorld.substate ≠ some .MYSQL_WAITING_RESULT
    ∧ (failedClosedWorld.substate = none
        ∨ failedClosedWorld.substate = some .MYSQL_AUTH_FAILED) :=
  ⟨by decide,
    C12_failed_never_idle linuxEnv
      { sampleWorld with dcb := some (aliceDcb .MYSQL_AUTH_FAILED) } failedClosedWorld
      [.readable (.read 0 [queryFrame]), .writable, .writable] rfl (by decide)⟩
/-- The read handler in sub-state `MYSQL_AUTH_SENT` when the decoder returns
a status: what it leaves of the connection. -/
theorem auth_sent_read_event (env : Env) (w : World) (dcb dcb1 : DCB)
    (protocol : MySQLProtocol) (frame : List Nat) (rest : List (List Nat)) (auth_val : Int)
    (hdcb : w.dcb = some dcb) (hp : dcb.protocol = some protocol)
    (hst : protocol.state = .MYSQL_AUTH_SENT)
    (hauth : gw_mysql_do_authentication env dcb frame = .ok (auth_val, dcb1)) :
    ∃ w1 d p s session, gw_read_client_event env w (.read 0 (frame :: rest)) = .ok (0, w1)
      ∧ w1.dcb = some d ∧ d.state = dcb.state ∧ d.writeq = dcb.writeq
      ∧ d.protocol = some p
      ∧ p.state = (if auth_val = 0 then .MYSQL_AUTH_RECV else .MYSQL_AUTH_FAILED)
      ∧ dcb.session = some session ∧ d.session = some s ∧ s.backends = session.backends
      ∧ w1.trace = w.trace ∧ w1.sent = w.sent ∧ w1.script = w.script := by
  obtain ⟨session, protocol', pre, u, t, tail, database, stage1, hs, hp', _, _, _, _, _,
    _, hd1⟩ := do_authentication_inv env dcb dcb1 frame auth_val hauth
  rw [hp] at hp'
  cases hp'
  subst hd1
  have key : ∀ S : MySQLState,
      ∃ d p s,
        (set_protocol_state
          { w with dcb := some (decoded_dcb dcb session protocol ((pre.drop 4).take 4) u
              database stage1) } S).dcb = some d
        ∧ d.state = dcb.state ∧ d.writeq = dcb.writeq ∧ d.protocol = some p ∧ p.state = S
        ∧ d.session = some s ∧ s.backends = session.backends := by
    intro S
    exact ⟨{ dcb with
        protocol := some { state := S, scramble := protocol.scramble,
                           client_capabilities := (pre.drop 4).take 4 }
        session := some { session with
          data := { client_sha1 := stage1.getD session.data.client_sha1
                    user := u
                    db := database } } },
      { state := S, scramble := protocol.scramble, client_capabilities := (pre.drop 4).take 4 },
      { session with
          data := { client_sha1 := stage1.getD session.data.client_sha1
                    user := u
                    db := database } },
      rfl, rfl, rfl, rfl, rfl, rfl, rfl⟩
  simp only [gw_read_client_event, hdcb, hp, hst, ne_eq, not_true_eq_false, if_false, hauth,
    bind, Except.bind]
  by_cases h0 : auth_val = 0
  · obtain ⟨d, p, s, k1, k2, k3, k4, k5, k6, k7⟩ := key .MYSQL_AUTH_RECV
    simp only [h0, if_true]
    exact ⟨_, d, p, s, session, rfl, k1, k2, k3, k4, k5, hs, k6, k7, rfl, rfl, rfl⟩
  · obtain ⟨d, p, s, k1, k2, k3, k4, k5, k6, k7⟩ := key .MYSQL_AUTH_FAILED
    simp only [h0, if_false]
    exact ⟨_, d, p, s, session, rfl, k1, k2, k3, k4, k5, hs, k6, k7, rfl, rfl, rfl⟩
/-- C11: on one connection in sub-state `MYSQL_AUTH_SENT`, for any two
auth-response frames on which the decoder returns a non-zero status (unknown
user, rejected token of 20 bytes or fewer), both runs of the read handler end
in sub-state `MYSQL_AUTH_FAILED`, and the write-ready event that follows
makes the same calls in both runs, the first being the client write of the
same ERROR frame, and leaves the same bytes on the socket and in the write
queue. -/
theorem C11_failure_indistinguishable (env : Env) (w : World) (dcb da db : DCB)
    (protocol : MySQLProtocol) (fa fb : List Nat) (resta restb : List (List Nat))
    (ra rb : Int) (hdcb : w.dcb = some dcb) (hlive : dcb.state ≠ .DCB_STATE_DISCONNECTED)
    (hp : dcb.protocol = some protocol) (hst : protocol.state = .MYSQL_AUTH_SENT)
    (ha : gw_mysql_do_authentication env dcb fa = .ok (ra, da)) (hra : ra ≠ 0)
    (hb : gw_mysql_do_authentication env dcb fb = .ok (rb, db)) (hrb : rb ≠ 0) :
    ∃ a1 b1 a2 b2 tail,
      gw_read_client_event env w (.read 0 (fa :: resta)) = .ok (0, a1)
      ∧ gw_read_client_event env w (.read 0 (fb :: restb)) = .ok (0, b1)
      ∧ a1.substate = some .MYSQL_AUTH_FAILED ∧ b1.substate = some .MYSQL_AUTH_FAILED
      ∧ gw_write_client_event env a1 = .ok (0, a2)
      ∧ gw_write_client_event env b1 = .ok (0, b2)
      ∧ a2.trace = w.trace ++ [.write .client .client [authErrorFrame2]] ++ tail
      ∧ b2.trace = a2.trace ∧ b2.sent = a2.sent ∧ b2.queued = a2.queued := by
  obtain ⟨a1, d1, p1, s1, session, e1, e2, e3, e4, e5, e6, e7, e8, e9, e10, e11, e12⟩ :=
    auth_sent_read_event env w dcb da protocol fa resta ra hdcb hp hst ha
  obtain ⟨b1, d2, p2, s2, session', f1, f2, f3, f4, f5, f6, f7, f8, f9, f10, f11, f12⟩ :=
    auth_sent_read_event env w dcb db protocol fb restb rb hdcb hp hst hb
  rw [e7] at f7
  cases f7
  rw [if_neg hra] at e6
  rw [if_neg hrb] at f6
  obtain ⟨a2, da2, g1, g2, g3, g4, g5, _, _⟩ :=
    auth_failed_write_event env a1 d1 p1 s1 e2 (by rw [e3]; exact hlive) e5 e8 e6
  obtain ⟨b2, db2, k1, k2, k3, k4, k5, _, _⟩ :=
    auth_failed_write_event env b1 d2 p2 s2 f2 (by rw [f3]; exact hlive) f5 f8 f6
  refine ⟨a1, b1, a2, b2,
    [.error .client .client]
      ++ (if session.backends.isSome then [.error .backend .backend] else []),
    e1, f1, ?_, ?_, g1, k1, ?_, ?_, ?_, ?_⟩
  · simp [World.substate, e2, e5, e6]
  · simp [World.substate, f2, f5, f6]
  · rw [g3, e10, e9]; simp
  · rw [g3, k3, e10, f10, e9, f9]
  · rw [g4, k4, e4, f4, e11, f11, e12, f12]
  · simp only [World.queued, g2, k2]
    rw [g5, k5, e4, f4, e11, f11, e12, f12]

/-- C11 at two failing frames on the connection of `sampleWorld`: one names
the unknown user `root`, the other carries an all-zero token for `alice`. -/
theorem C11_failure_indistinguishable_witness :
    (∃ da, gw_mysql_do_authentication linuxEnv sampleDcb (authFrame (ascii "root") (zeros 20))
        = .ok (1, da))
      ∧ (∃ db, gw_mysql_do_authentication linuxEnv sampleDcb (authFrame userAlice (zeros 20))
        = .ok (37, db))
      ∧ ∃ a1 b1 a2 b2 tail,
        gw_read_client_event linuxEnv sampleWorld
            (.read 0 [authFrame (ascii "root") (zeros 20)]) = .ok (0, a1)
        ∧ gw_read_client_event linuxEnv sampleWorld
            (.read 0 [authFrame userAlice (zeros 20)]) = .ok (0, b1)
        ∧ a1.substate = some .MYSQL_AUTH_FAILED ∧ b1.substate = some .MYSQL_AUTH_FAILED
        ∧ gw_write_client_event linuxEnv a1 = .ok (0, a2)
        ∧ gw_write_client_event linuxEnv b1 = .ok (0, b2)
        ∧ a2.trace = sampleWorld.trace ++ [.write .client .client [authErrorFrame2]] ++ tail
        ∧ b2.trace = a2.trace ∧ b2.sent = a2.sent ∧ b2.queued = a2.queued :=
  ⟨⟨_, rfl⟩, ⟨_, rfl⟩,
    C11_failure_indistinguishable linuxEnv sampleWorld sampleDcb _ _
      { state := .MYSQL_AUTH_SENT, scramble := sampleChallenge, client_capabilities := zeros 4 }
      (authFrame (ascii "root") (zeros 20)) (authFrame userAlice (zeros 20)) [] [] 1 37
      rfl (by decide) rfl rfl rfl (by decide) rfl (by decide)⟩

/-! ## Server greeting: C19, C20 -/

/-- The greeting buffer for the constants `cfg`, the descriptor `fd` and the
20 challenge bytes `random`. -/
theorem greeting_random (random : List Nat) (hr : random.length = 20) :
    gw_generate_random_str random GW_MYSQL_SCRAMBLE_SIZE = random
      ∧ (memcpy (zeros 9) random 8).take 8 = random.take 8
      ∧ (memcpy (zeros 13) (random.drop 8) 12).take 12 = random.drop 8 := by
  refine ⟨?_, ?_, ?_⟩
  · unfold gw_generate_random_str GW_MYSQL_SCRAMBLE_SIZE
    rw [List.take_append_of_le_length (by omega)]
    exact List.take_of_length_le (by omega)
  · unfold memcpy
    rw [List.take_append_of_le_length (by simp [hr])]
    simp
  · unfold memcpy
    rw [List.take_append_of_le_length (by simp [hr])]
    simp only [List.take_take, Nat.min_self]
    exact List.take_of_length_le (by simp [hr])

/-- What `MySQLSendHandshake` returns, hands to the client write function
and stores, with the payload as `greeting_payload`. -/
theorem send_handshake_frame (env : Env) (cfg : HandshakeEnv) (random : List Nat) (w : World)
    (dcb : DCB) (protocol : MySQLProtocol) (hdcb : w.dcb = some dcb)
    (hp : dcb.protocol = some protocol) (hr : random.length = 20)
    (hv : cfg.GW_MYSQL_VERSION.length + 68 < 256) :
    ∃ w1 dcb1 p1, MySQLSendHandshake env cfg random w
        = .ok (((4 + (cfg.GW_MYSQL_VERSION.length + 68) : Nat) : Int), w1)
      ∧ w1.trace = w.trace ++ [.write .client .client
          [[cfg.GW_MYSQL_VERSION.length + 68, 0, 0, 0] ++ greeting_payload cfg dcb.fd random]]
      ∧ w1.dcb = some dcb1 ∧ dcb1.protocol = some p1 ∧ p1.state = protocol.state
      ∧ p1.scramble.take 20 = random
      ∧ (greeting_payload cfg dcb.fd random).length = cfg.GW_MYSQL_VERSION.length + 68 := by
  obtain ⟨g1, g2, g3⟩ := greeting_random random hr
  have hnp : (ascii "mysql_native_password").length = 21 := by decide
  have hfull : 1 + (cfg.GW_MYSQL_VERSION.length + 1) + 4 + 8 + 1 + 2 + 1 + 2 + 2 + 1 + 10 + 12 + 1
      + (ascii "mysql_native_password").length + 1 = cfg.GW_MYSQL_VERSION.length + 68 := by
    rw [hnp]; omega
  have hmod : (cfg.GW_MYSQL_VERSION.length + 68) % 256 = cfg.GW_MYSQL_VERSION.length + 68 :=
    Nat.mod_eq_of_lt hv
  have hb3 : gw_mysql_set_byte3 (cfg.GW_MYSQL_VERSION.length + 68)
      = [cfg.GW_MYSQL_VERSION.length + 68, 0, 0] := by
    simp only [gw_mysql_set_byte3, hmod]
    congr 1
    congr 1
    · omega
    · congr 1; omega
  have hscr : (memcpy protocol.scramble random GW_MYSQL_SCRAMBLE_SIZE).take 20 = random := by
    unfold memcpy GW_MYSQL_SCRAMBLE_SIZE
    rw [List.take_of_length_le (by omega : random.length ≤ 20),
      List.take_append_of_le_length (by omega)]
    exact List.take_of_length_le (by omega)
  have hlen : (greeting_payload cfg dcb.fd random).length = cfg.GW_MYSQL_VERSION.length + 68 := by
    simp [greeting_payload, gw_mysql_set_byte4, le4, hnp, zeros, hr]
  obtain ⟨ret, w0, dcb0, h1, h2, h3, _, _, _, h4, _, _, _⟩ :=
    write_client_io env
      { dcb := some { dcb with protocol := some { protocol with
            scramble := memcpy protocol.scramble random GW_MYSQL_SCRAMBLE_SIZE } }
        script := w.script
        sent := w.sent
        trace := w.trace ++ [.write .client .client
          [[cfg.GW_MYSQL_VERSION.length + 68, 0, 0, 0] ++ greeting_payload cfg dcb.fd random]] }
      _ rfl
      [[cfg.GW_MYSQL_VERSION.length + 68, 0, 0, 0] ++ greeting_payload cfg dcb.fd random]
  have hcall : MySQLSendHandshake env cfg random w
      = .ok (((4 + (cfg.GW_MYSQL_VERSION.length + 68) : Nat) : Int), w0) := by
    simp only [greeting_payload, List.append_assoc, List.singleton_append, List.cons_append,
      List.nil_append] at h1
    simp only [MySQLSendHandshake, hdcb, hp, hfull, hmod, lt_irrefl, if_false, g1, g2, g3, hb3,
      client_func_write, GW_MYSQL_HANDSHAKE_FILLER, List.append_assoc, List.singleton_append,
      List.cons_append, List.nil_append, h1, Except.map, bind, Except.bind]
  exact ⟨w0, dcb0, _, hcall, h4, h2, h3, rfl, hscr, hlen⟩

/-- C19: `MySQLSendHandshake` hands to the client write function one frame
with sequence number 0 whose header declares exactly the payload's length
and whose payload is, in order: the protocol-version byte, the
server-version string and a NUL, the connection id (`getpid() + fd`) as 4
little-endian bytes, challenge bytes 0..7, 0x00, the 2 capability-low bytes,
the character-set byte 8, the status bytes `02 00`, the capability-high
bytes `0f 80`, the byte 21, ten 0x00, challenge bytes 8..19, 0x00, the text
`mysql_native_password`, 0x00. The challenge is the 20 bytes the call stores
as the connection's scramble, so the 8 + 12 bytes read back from the frame
are the stored challenge. The value returned is the frame's length. -/
theorem C19_greeting_layout (env : Env) (cfg : HandshakeEnv) (random : List Nat) (w : World)
    (dcb : DCB) (protocol : MySQLProtocol) (hdcb : w.dcb = some dcb)
    (hp : dcb.protocol = some protocol) (hr : random.length = 20)
    (hv : cfg.GW_MYSQL_VERSION.length + 68 < 256) :
    ∃ buf w1 dcb1 p1, MySQLSendHandshake env cfg random w = .ok ((buf.length : Int), w1)
      ∧ w1.trace = w.trace ++ [.write .client .client [buf]]
      ∧ buf.getD 3 0 = 0
      ∧ buf.getD 0 0 + 256 * buf.getD 1 0 + 65536 * buf.getD 2 0 = (buf.drop 4).length
      ∧ buf.drop 4 = [cfg.GW_MYSQL_PROTOCOL_VERSION % 256]
          ++ cfg.GW_MYSQL_VERSION ++ [0]
          ++ gw_mysql_set_byte4 ((cfg.pid : Int) + dcb.fd)
          ++ random.take 8 ++ [0]
          ++ [and_not_byte
                (and_not_byte cfg.GW_MYSQL_SERVER_CAPABILITIES_BYTE1
                  cfg.GW_MYSQL_CAPABILITIES_COMPRESS)
                cfg.GW_MYSQL_CAPABILITIES_SSL,
              cfg.GW_MYSQL_SERVER_CAPABILITIES_BYTE2 % 256]
          ++ [8] ++ [2, 0] ++ [15, 128] ++ [21] ++ zeros 10
          ++ random.drop 8 ++ [0]
          ++ ascii "mysql_native_password" ++ [0]
      ∧ w1.dcb = some dcb1 ∧ dcb1.protocol = some p1 ∧ p1.state = protocol.state
      ∧ p1.scramble.take 20 = random
      ∧ (buf.drop (4 + 1 + cfg.GW_MYSQL_VERSION.length + 1 + 4)).take 8
          ++ (buf.drop (4 + 1 + cfg.GW_MYSQL_VERSION.length + 1 + 4 + 8 + 1 + 2 + 1 + 2 + 2 + 1
                + 10)).take 12
          = p1.scramble.take 20 := by
  obtain ⟨w1, dcb1, p1, h1, h2, h3, h4, h5, h6, h7⟩ :=
    send_handshake_frame env cfg random w dcb protocol hdcb hp hr hv
  have hid : (gw_mysql_set_byte4 ((cfg.pid : Int) + dcb.fd)).length = 4 := by
    simp [gw_mysql_set_byte4, le4]
  refine ⟨[cfg.GW_MYSQL_VERSION.length + 68, 0, 0, 0] ++ greeting_payload cfg dcb.fd random,
    w1, dcb1, p1, ?_, h2, rfl, ?_, rfl, h3, h4, h5, h6, ?_⟩
  · rw [h1]
    simp [h7]
    omega
  · simp [h7]
  · rw [h6]
    have e1 : (([cfg.GW_MYSQL_VERSION.length + 68, 0, 0, 0]
          ++ greeting_payload cfg dcb.fd random).drop
            (4 + 1 + cfg.GW_MYSQL_VERSION.length + 1 + 4)).take 8 = random.take 8 := by
      have : [cfg.GW_MYSQL_VERSION.length + 68, 0, 0, 0] ++ greeting_payload cfg dcb.fd random
          = ([cfg.GW_MYSQL_VERSION.length + 68, 0, 0, 0]
              ++ [cfg.GW_MYSQL_PROTOCOL_VERSION % 256] ++ cfg.GW_MYSQL_VERSION ++ [0]
              ++ gw_mysql_set_byte4 ((cfg.pid : Int) + dcb.fd))
            ++ (random.take 8 ++ ([0]
              ++ [and_not_byte
                    (and_not_byte cfg.GW_MYSQL_SERVER_CAPABILITIES_BYTE1
                      cfg.GW_MYSQL_CAPABILITIES_COMPRESS)
                    cfg.GW_MYSQL_CAPABILITIES_SSL,
                  cfg.GW_MYSQL_SERVER_CAPABILITIES_BYTE2 % 256]
              ++ [8] ++ [2, 0] ++ [15, 128] ++ [21] ++ zeros 10
              ++ random.drop 8 ++ [0]
              ++ ascii "mysql_native_password" ++ [0])) := by
        simp [greeting_payload]
      rw [this, List.drop_left' (by simp [hid]; omega)]
      exact List.take_left' (by simp [hr])
    have e2 : (([cfg.GW_MYSQL_VERSION.length + 68, 0, 0, 0]
          ++ greeting_payload cfg dcb.fd random).drop
            (4 + 1 + cfg.GW_MYSQL_VERSION.length + 1 + 4 + 8 + 1 + 2 + 1 + 2 + 2 + 1 + 10)).take 12
        = random.drop 8 := by
      have : [cfg.GW_MYSQL_VERSION.length + 68, 0, 0, 0] ++ greeting_payload cfg dcb.fd random
          = ([cfg.GW_MYSQL_VERSION.length + 68, 0, 0, 0]
              ++ [cfg.GW_MYSQL_PROTOCOL_VERSION % 256] ++ cfg.GW_MYSQL_VERSION ++ [0]
              ++ gw_mysql_set_byte4 ((cfg.pid : Int) + dcb.fd)
              ++ random.take 8 ++ [0]
              ++ [and_not_byte
                    (and_not_byte cfg.GW_MYSQL_SERVER_CAPABILITIES_BYTE1
                      cfg.GW_MYSQL_CAPABILITIES_COMPRESS)
                    cfg.GW_MYSQL_CAPABILITIES_SSL,
                  cfg.GW_MYSQL_SERVER_CAPABILITIES_BYTE2 % 256]
              ++ [8] ++ [2, 0] ++ [15, 128] ++ [21] ++ zeros 10)
            ++ (random.drop 8 ++ ([0] ++ ascii "mysql_native_password" ++ [0])) := by
        simp [greeting_payload]
      rw [this, List.drop_left' (by simp [hid, hr, zeros]; omega)]
      exact List.take_left' (by simp [hr])
    rw [e1, e2, List.take_append_drop]
/-- C19 on a freshly accepted connection with the shipped constants and the
challenge `abcdefghijklmnopqrst`: a frame of 4 + 87 bytes. -/
theorem C19_greeting_layout_witness :
    ∃ buf w1 dcb1 p1,
      MySQLSendHandshake linuxEnv sampleHandshakeEnv sampleChallenge acceptedWorld
        = .ok ((buf.length : Int), w1)
      ∧ w1.trace = acceptedWorld.trace ++ [.write .client .client [buf]]
      ∧ buf.getD 3 0 = 0
      ∧ buf.getD 0 0 + 256 * buf.getD 1 0 + 65536 * buf.getD 2 0 = (buf.drop 4).length
      ∧ buf.drop 4 = [sampleHandshakeEnv.GW_MYSQL_PROTOCOL_VERSION % 256]
          ++ sampleHandshakeEnv.GW_MYSQL_VERSION ++ [0]
          ++ gw_mysql_set_byte4 ((sampleHandshakeEnv.pid : Int) + sampleDcb.fd)
          ++ sampleChallenge.take 8 ++ [0]
          ++ [and_not_byte
                (and_not_byte sampleHandshakeEnv.GW_MYSQL_SERVER_CAPABILITIES_BYTE1
                  sampleHandshakeEnv.GW_MYSQL_CAPABILITIES_COMPRESS)
                sampleHandshakeEnv.GW_MYSQL_CAPABILITIES_SSL,
              sampleHandshakeEnv.GW_MYSQL_SERVER_CAPABILITIES_BYTE2 % 256]
          ++ [8] ++ [2, 0] ++ [15, 128] ++ [21] ++ zeros 10
          ++ sampleChallenge.drop 8 ++ [0]
          ++ ascii "mysql_native_password" ++ [0]
      ∧ w1.dcb = some dcb1 ∧ dcb1.protocol = some p1 ∧ p1.state = .MYSQL_ALLOC
      ∧ p1.scramble.take 20 = sampleChallenge
      ∧ (buf.drop (4 + 1 + sampleHandshakeEnv.GW_MYSQL_VERSION.length + 1 + 4)).take 8
          ++ (buf.drop (4 + 1 + sampleHandshakeEnv.GW_MYSQL_VERSION.length + 1 + 4 + 8 + 1 + 2
                + 1 + 2 + 2 + 1 + 10)).take 12
          = p1.scramble.take 20 :=
  C19_greeting_layout linuxEnv sampleHandshakeEnv sampleChallenge acceptedWorld
    { sampleDcb with
      protocol := some { state := .MYSQL_ALLOC, scramble := zeros 20,
                         client_capabilities := zeros 4 } }
    { state := .MYSQL_ALLOC, scramble := zeros 20, client_capabilities := zeros 4 }
    rfl rfl (by decide) (by decide)

/-- C20, the code at the failing input: with the initial capability bytes
configured as `0xff`, `0xff` and the protocol's masks (compression `1 << 5`,
SSL `1 << 11`), the 2-byte capability-flags-low field of the greeting is
`df ff`: read little-endian it has the compression bit 0 and the SSL bit
still 1. Byte 0 alone is masked; the SSL bit lies in byte 1. -/
theorem C20_ssl_bit_left_set :
    ∃ buf w1 ret,
      MySQLSendHandshake linuxEnv allCapsHandshakeEnv sampleChallenge acceptedWorld
        = .ok (ret, w1)
      ∧ w1.trace = [.write .client .client [buf]]
      ∧ (buf.drop (4 + 1 + allCapsHandshakeEnv.GW_MYSQL_VERSION.length + 1 + 4 + 8 + 1)).take 2
          = [0xdf, 0xff]
      ∧ (0xdf + 256 * 0xff) &&& allCapsHandshakeEnv.GW_MYSQL_CAPABILITIES_COMPRESS = 0
      ∧ (0xdf + 256 * 0xff) &&& allCapsHandshakeEnv.GW_MYSQL_CAPABILITIES_SSL ≠ 0 :=
  ⟨[87, 0, 0, 0] ++ greeting_payload allCapsHandshakeEnv 5 sampleChallenge, _, _, rfl,
    by decide, by decide, by decide, by decide⟩

/-- The shipped second capability byte `0xf7` has the SSL bit clear, which
hides the missing mask: the field is then `df f7`. -/
theorem greeting_caps_shipped :
    ∃ buf w1 ret,
      MySQLSendHandshake linuxEnv sampleHandshakeEnv sampleChallenge acceptedWorld
        = .ok (ret, w1)
      ∧ w1.trace = [.write .client .client [buf]]
      ∧ (buf.drop (4 + 1 + sampleHandshakeEnv.GW_MYSQL_VERSION.length + 1 + 4 + 8 + 1)).take 2
          = [0xdf, 0xf7]
      ∧ (0xdf + 256 * 0xf7) &&& sampleHandshakeEnv.GW_MYSQL_CAPABILITIES_SSL = 0 :=
  ⟨[87, 0, 0, 0] ++ greeting_payload sampleHandshakeEnv 5 sampleChallenge, _, _, rfl,
    by decide, by decide, by decide⟩

/-! ## Built-in credential lookup: C27 -/

/-- C27: for every user name `u` other than `root` the lookup succeeds with
the stored hash `SHA1(SHA1(u))`, and for every 20-byte challenge the scramble
check accepts the 20-byte token `SHA1(u) XOR SHA1(challenge ++
SHA1(SHA1(u)))` (status 0, `SHA1(u)` left in the 20-byte buffer): the
password is the user name. For the user name `root` the lookup fails and the
check returns 1 for every token, token length and challenge. The digest is
any function to 20 bytes. -/
theorem C27_password_is_username (env : Env) (hd : env.Digest20) :
    (∀ u challenge stage1_hash : List Nat, u ≠ ascii "root" → challenge.length = 20 →
        stage1_hash.length = 20 →
        gw_find_mysql_user_password_sha1 env u (zeros GW_MYSQL_SCRAMBLE_SIZE)
          = (0, env.gw_sha1_str (env.gw_sha1_str u))
        ∧ gw_check_mysql_scramble_data env
            (some (List.zipWith (· ^^^ ·) (env.gw_sha1_str u)
              (env.gw_sha1_str (challenge ++ env.gw_sha1_str (env.gw_sha1_str u))))) 20
            (some challenge) 20 (some u) (some stage1_hash)
          = .ok (0, some (env.gw_sha1_str u)))
    ∧ (∀ (token scramble stage1_hash : Option (List Nat)) (token_len scramble_len : Nat),
        (gw_find_mysql_user_password_sha1 env (ascii "root")
            (zeros GW_MYSQL_SCRAMBLE_SIZE)).1 = 1
        ∧ gw_check_mysql_scramble_data env token token_len scramble scramble_len
            (some (ascii "root")) stage1_hash = .ok (1, stage1_hash)) := by
  constructor
  · intro u challenge stage1_hash hu hch hbuf
    have hfind : gw_find_mysql_user_password_sha1 env u (zeros GW_MYSQL_SCRAMBLE_SIZE)
        = (0, env.gw_sha1_str (env.gw_sha1_str u)) := by
      have h1 := hd u
      have h2 := hd (env.gw_sha1_str u)
      have e1 : (env.gw_sha1_str u).take 20 = env.gw_sha1_str u :=
        List.take_of_length_le (by omega)
      have e2 : (env.gw_sha1_str (env.gw_sha1_str u)).take 20
          = env.gw_sha1_str (env.gw_sha1_str u) := List.take_of_length_le (by omega)
      simp only [gw_find_mysql_user_password_sha1, hu, if_false, memcpy, SHA_DIGEST_LENGTH,
        GW_MYSQL_SCRAMBLE_SIZE, zeros, e1, e2]
      simp
    refine ⟨hfind, ?_⟩
    have h1 := hd (challenge ++ env.gw_sha1_str (env.gw_sha1_str u))
    have hs1 := hd u
    have hst := hd (env.gw_sha1_str u)
    have htok : (List.zipWith (· ^^^ ·) (env.gw_sha1_str u)
        (env.gw_sha1_str (challenge ++ env.gw_sha1_str (env.gw_sha1_str u)))).length = 20 := by
      simp [hs1, h1]
    rw [check_known_user env hd _ challenge u stage1_hash _ 20 hfind hch (by omega) (by omega)]
    have hs2 := step2_of_full _ _ htok h1
    rw [zipWith_xor_cancel _ _ (by omega)] at hs2
    have hmem : memcpy stage1_hash
        (step2_of (List.zipWith (· ^^^ ·) (env.gw_sha1_str u)
            (env.gw_sha1_str (challenge ++ env.gw_sha1_str (env.gw_sha1_str u))))
          (env.gw_sha1_str (challenge ++ env.gw_sha1_str (env.gw_sha1_str u))) 20) 20
        = env.gw_sha1_str u := by
      unfold memcpy
      rw [hs2, List.drop_of_length_le (by omega), List.append_nil]
    rw [hs2, hmem, (memcmp_eq_zero_iff 20 _ _ hst hst).mpr rfl]
  · intro token scramble stage1_hash token_len scramble_len
    refine ⟨by simp [gw_find_mysql_user_password_sha1], ?_⟩
    cases token <;> cases scramble <;> cases stage1_hash <;>
      simp [gw_check_mysql_scramble_data, gw_find_mysql_user_password_sha1]

/-- C27 with the standard SHA-1 at user `kw`: the token computed from the
password `kw` is accepted. -/
theorem C27_password_is_username_witness :
    linuxEnv.gw_sha1_str userKw = kwStage1
      ∧ gw_find_mysql_user_password_sha1 linuxEnv userKw (zeros GW_MYSQL_SCRAMBLE_SIZE)
          = (0, linuxEnv.gw_sha1_str (linuxEnv.gw_sha1_str userKw))
      ∧ gw_check_mysql_scramble_data linuxEnv
          (some (List.zipWith (· ^^^ ·) (linuxEnv.gw_sha1_str userKw)
            (linuxEnv.gw_sha1_str (sampleChallenge
              ++ linuxEnv.gw_sha1_str (linuxEnv.gw_sha1_str userKw))))) 20
          (some sampleChallenge) 20 (some userKw) (some (zeros 20))
        = .ok (0, some (linuxEnv.gw_sha1_str userKw)) :=
  ⟨by decide,
    (C27_password_is_username linuxEnv linuxEnv_digest20).1 userKw sampleChallenge (zeros 20)
      (by decide) (by decide) (by decide)⟩
/-! ## Status of the writer and of the drain: C21, C22, C23 -/

/-- C21, the code at the failing input: on a connection with two buffers
queued, `gw_MySQLWrite_client` appends the buffer `7 8` to the queue without
any write and returns 1, the value it documents as a real write failure. On
an empty queue it returns 0 when the socket takes every byte and, with
`EAGAIN = EWOULDBLOCK`, when the remainder is queued after would-block. -/
theorem C21_append_reports_failure :
    gw_MySQLWrite_client linuxEnv sampleIdleWorld [[7, 8]]
        = .ok (1, { sampleIdleWorld with
            dcb := some { sampleDcb with
              protocol := some { state := .MYSQL_IDLE, scramble := sampleChallenge,
                                 client_capabilities := le4 sampleCaps }
              writeq := [[1, 2, 3, 4], [5, 6], [7, 8]]
              stats := { n_writes := 0, n_buffered := 1 } } })
      ∧ (∃ w1, gw_MySQLWrite_client linuxEnv
            { idleEmptyWorld with script := [.accepted 2] } [[7, 8]] = .ok (0, w1)
          ∧ w1.sent = [7, 8] ∧ w1.queued = [])
      ∧ (∃ w1, gw_MySQLWrite_client linuxEnv
            { idleEmptyWorld with script := [.accepted 1, .failed 11] } [[7, 8]] = .ok (0, w1)
          ∧ w1.sent = [7] ∧ w1.queued = [8]) := by
  refine ⟨by decide, ⟨_, rfl, by decide, by decide⟩, ⟨_, rfl, by decide, by decide⟩⟩

/-- The status of an append to a non-empty queue, in general: 1 for every
non-empty chain, whatever the platform's non-zero `EAGAIN`. -/
theorem append_returns_one (env : Env) (w : World) (dcb : DCB) (queue : List (List Nat))
    (hdcb : w.dcb = some dcb) (hq : dcb.writeq ≠ []) (hn : queue ≠ []) (he : env.EAGAIN ≠ 0) :
    ∃ w1, gw_MySQLWrite_client env w queue = .ok (1, w1) ∧ w1.sent = w.sent
      ∧ w1.script = w.script ∧ w1.queued = w.queued ++ flat queue := by
  have he' : ¬ (0 = env.EAGAIN) := fun h => he h.symm
  simp only [gw_MySQLWrite_client, hdcb, hq, ne_eq, not_false_eq_true, if_true, hn, he',
    true_or, and_self]
  exact ⟨_, rfl, rfl, rfl, by simp [World.queued, gwbuf_append, flat, hdcb]⟩

/-- C22, the code at the failing input: the drain returns 1 in a run where
the write fails with `EPIPE` (32), in a run where it fails with `EAGAIN`
(11), and in a run where the queue drains completely; the three statuses do
not differ. -/
theorem C22_drain_status_constant :
    (∃ w1, gw_write_client_event linuxEnv (idleQueuedWorld [.failed 32]) = .ok (1, w1)
        ∧ w1.sent = [] ∧ w1.queued = [1, 2, 3, 4, 5, 6])
      ∧ (∃ w1, gw_write_client_event linuxEnv (idleQueuedWorld [.failed 11]) = .ok (1, w1)
        ∧ w1.sent = [] ∧ w1.queued = [1, 2, 3, 4, 5, 6])
      ∧ (∃ w1, gw_write_client_event linuxEnv (idleQueuedWorld [.accepted 4, .accepted 2])
          = .ok (1, w1)
        ∧ w1.sent = [1, 2, 3, 4, 5, 6] ∧ w1.queued = []) := by
  refine ⟨⟨_, rfl, by decide, by decide⟩, ⟨_, rfl, by decide, by decide⟩,
    ⟨_, rfl, by decide, by decide⟩⟩

/-- The status of the write-ready handler in Idle/WaitingResult, in general:
1 in every run. -/
theorem drain_returns_one (env : Env) (w : World) (hw : w.Draining) :
    ∃ w1, gw_write_client_event env w = .ok (1, w1) := by
  obtain ⟨dcb, protocol, session, hdcb, hst, hp, hs, hidle⟩ := hw
  have h1 : protocol.state ≠ .MYSQL_AUTH_RECV := by
    rcases hidle with h | h <;> rw [h] <;> decide
  have h2 : protocol.state ≠ .MYSQL_AUTH_FAILED := by
    rcases hidle with h | h <;> rw [h] <;> decide
  simp only [gw_write_client_event, hdcb, hst, if_false, hp, hs, h1, h2, hidle, if_true]
  by_cases hq : dcb.writeq = []
  · simp only [hq, ne_eq, not_true_eq_false, if_false]
    exact ⟨_, rfl⟩
  · simp only [hq, ne_eq, not_false_eq_true, if_true]
    exact ⟨_, rfl⟩

/-- C23, the code at the failing input: on an idle connection with an empty
write queue the write-ready handler changes nothing (no write, same queue,
same sub-state, same fields) and a second call gives the same state and
result, but the result is 1, the value it also returns for a NULL DCB and
for a disconnected one. -/
theorem C23_empty_drain_status :
    gw_write_client_event linuxEnv idleEmptyWorld = .ok (1, idleEmptyWorld)
      ∧ idleEmptyWorld.queued = []
      ∧ idleEmptyWorld.substate = some .MYSQL_IDLE
      ∧ gw_write_client_event linuxEnv nullDcbWorld = .ok (1, nullDcbWorld)
      ∧ gw_write_client_event linuxEnv disconnectedWorld = .ok (1, disconnectedWorld) := by
  decide

/-! ## Absent backend: C28 -/

/-- C28, the code at the failing input: on an idle connection whose session
has no backend (`session->backends == NULL`, as `gw_MySQLAccept` leaves it),
the read handler given a query frame (command 0x03, 13 bytes) dereferences
the NULL backend pointer; on the disconnect frame it tests the pointer and
returns 1. -/
theorem C28_null_backend_dereferenced :
    5 ≤ queryFrame.length
      ∧ gw_read_client_event linuxEnv idleEmptyWorld (.read 0 [queryFrame])
          = .error .nullDeref
      ∧ ∃ w1, gw_read_client_event linuxEnv idleEmptyWorld (.read 0 [quitFrame])
          = .ok (1, w1) := by
  refine ⟨by decide, by decide, _, rfl⟩

/-- The read handler without a backend, in general: every frame with a
command byte other than 0x01 ends in the NULL dereference. -/
theorem read_without_backend (env : Env) (w : World) (dcb : DCB) (protocol : MySQLProtocol)
    (session : SESSION) (frame : List Nat) (rest : List (List Nat)) (b : Nat)
    (hdcb : w.dcb = some dcb) (hp : dcb.protocol = some protocol)
    (hs : dcb.session = some session) (hb : session.backends = none)
    (hst : protocol.state = .MYSQL_IDLE ∨ protocol.state = .MYSQL_WAITING_RESULT)
    (hcmd : frame[4]? = some b) (hne : b ≠ 1) :
    gw_read_client_event env w (.read 0 (frame :: rest)) = .error .nullDeref := by
  have hrd := readBytes_command frame b hcmd
  rcases hst with hst | hst <;>
  simp [gw_read_client_event, hdcb, hp, hst, hrd, bind, Except.bind, hne, hs, hb]

/-! ## After authentication: C24 -/

/-- A read-ready event in Idle/WaitingResult that returns leaves the
sub-state Idle or WaitingResult, or the protocol context closed. -/
theorem read_keeps_idle (env : Env) (w w1 : World) (dcb : DCB) (protocol : MySQLProtocol)
    (input : ReadInput) (r : Int) (hdcb : w.dcb = some dcb) (hp : dcb.protocol = some protocol)
    (hst : protocol.state = .MYSQL_IDLE ∨ protocol.state = .MYSQL_WAITING_RESULT)
    (h : gw_read_client_event env w input = .ok (r, w1)) :
    w1.substate = none ∨ w1.substate = some .MYSQL_IDLE
      ∨ w1.substate = some .MYSQL_WAITING_RESULT := by
  have hsub : w.substate = some protocol.state := by simp [World.substate, hdcb, hp]
  have hinv : w.substate = none ∨ w.substate = some .MYSQL_IDLE
      ∨ w.substate = some .MYSQL_WAITING_RESULT := by
    rcases hst with hst | hst
    · right; left; rw [hsub, hst]
    · right; right; rw [hsub, hst]
  cases input with
  | ioctl_failed =>
    simp only [gw_read_client_event, hdcb, Except.ok.injEq, Prod.mk.injEq] at h
    rw [← h.2]; exact hinv
  | read ret buf =>
    have h' : gw_read_client_event env w (.read ret buf) = .ok (r, w1) := h
    clear h
    by_cases hret : ret = 0
    · cases buf with
      | nil => rcases hst with hst | hst <;> simp [gw_read_client_event, hdcb, hp, hst, hret] at h'
      | cons frame rest =>
        cases hrd : readBytes frame 4 1 with
        | error e =>
          rcases hst with hst | hst <;>
            simp [gw_read_client_event, hdcb, hp, hst, hret, hrd, bind, Except.bind] at h'
        | ok command =>
          cases hs : dcb.session with
          | none =>
            rcases hst with hst | hst <;>
              simp [gw_read_client_event, hdcb, hp, hst, hret, hrd, bind, Except.bind, hs] at h'
          | some session =>
            obtain ⟨_, _, hcl⟩ := readBytes_inv _ _ _ _ hrd
            obtain ⟨b, rfl⟩ : ∃ b, command = [b] := by
              cases command with
              | nil => simp at hcl
              | cons x xs =>
                cases xs with
                | nil => exact ⟨x, rfl⟩
                | cons y ys => simp at hcl
            by_cases hc : b = 1
            · have hd' : (if session.backends.isSome then
                  { w with trace := w.trace ++
                      [.write .backend .client (frame :: rest), .error .backend .backend] }
                else w).dcb = some dcb := by
                split <;> simp [hdcb]
              have hsub' : (if session.backends.isSome then
                  { w with trace := w.trace ++
                      [.write .backend .client (frame :: rest), .error .backend .backend] }
                else w).substate = w.substate := by
                split <;> simp [World.substate]
              obtain ⟨w2, e1, _, _, _, _, e5, _⟩ := client_error_any _ dcb hd'
              have e1' := e1
              simp only [hdcb] at e1'
              have hw : w1 = w2 := by
                rcases hst with hst | hst <;>
                · simp only [gw_read_client_event, hdcb, hp, hst, hret, ne_eq,
                    not_true_eq_false, if_false, hrd, bind, Except.bind, List.headD_cons, hc,
                    if_true, hs, e1', Except.ok.injEq, Prod.mk.injEq] at h'
                  exact h'.2.symm
              rw [hw]
              rcases e5 with e5 | e5
              · left; exact e5
              · rw [e5, hsub']; exact hinv
            · cases hb : session.backends with
              | none =>
                rcases hst with hst | hst <;>
                  simp [gw_read_client_event, hdcb, hp, hst, hret, hrd, bind, Except.bind, hs,
                    hc, hb] at h'
              | some backend =>
                have hw : w1.substate = some .MYSQL_WAITING_RESULT := by
                  rcases hst with hst | hst <;>
                  · simp only [gw_read_client_event, hdcb, hp, hst, hret, ne_eq,
                      not_true_eq_false, if_false, hrd, bind, Except.bind, List.headD_cons, hc,
                      hs, hb, Except.ok.injEq, Prod.mk.injEq] at h'
                    rw [← h'.2]
                    simp [World.substate, set_protocol_state, hdcb, hp]
                right; right; exact hw
    · have hw : w1 = w := by
        rcases hst with hst | hst <;>
        · simp only [gw_read_client_event, hdcb, hp, hst, hret, ne_eq, not_false_eq_true,
            if_true, Except.ok.injEq, Prod.mk.injEq] at h'
          exact h'.2.symm
      rw [hw]; exact hinv

/-- A write-ready event in Idle/WaitingResult leaves the sub-state as it
is. -/
theorem write_keeps_idle (env : Env) (w w1 : World) (dcb : DCB) (protocol : MySQLProtocol)
    (r : Int) (hdcb : w.dcb = some dcb) (hp : dcb.protocol = some protocol)
    (hst : protocol.state = .MYSQL_IDLE ∨ protocol.state = .MYSQL_WAITING_RESULT)
    (h : gw_write_client_event env w = .ok (r, w1)) :
    w1.substate = w.substate := by
  have h1 : protocol.state ≠ .MYSQL_AUTH_RECV := by
    rcases hst with h | h <;> rw [h] <;> decide
  have h2 : protocol.state ≠ .MYSQL_AUTH_FAILED := by
    rcases hst with h | h <;> rw [h] <;> decide
  by_cases h0 : dcb.state = .DCB_STATE_DISCONNECTED
  · simp only [gw_write_client_event, hdcb, h0, if_true, Except.ok.injEq, Prod.mk.injEq] at h
    rw [← h.2]
  · cases hs : dcb.session with
    | none =>
      simp only [gw_write_client_event, hdcb, h0, if_false, hp, hs, Except.ok.injEq,
        Prod.mk.injEq] at h
      rw [← h.2]
    | some session =>
      by_cases hq : dcb.writeq = []
      · simp only [gw_write_client_event, hdcb, h0, if_false, hp, hs, h1, h2, hst, if_true, hq,
          ne_eq, not_true_eq_false, Except.ok.injEq, Prod.mk.injEq] at h
        rw [← h.2]
      · simp only [gw_write_client_event, hdcb, h0, if_false, hp, hs, h1, h2, hst, if_true, hq,
          ne_eq, not_false_eq_true, Except.ok.injEq, Prod.mk.injEq] at h
        rw [← h.2]
        simp [World.substate, hdcb, hp]

/-- An event on a connection whose sub-state is `MYSQL_IDLE` or
`MYSQL_WAITING_RESULT`, or whose protocol context is closed, leaves it in one
of these three conditions. -/
theorem handle_keeps_idle (env : Env) (w w1 : World) (e : Event) (r : Int)
    (hinv : w.substate = none ∨ w.substate = some .MYSQL_IDLE
      ∨ w.substate = some .MYSQL_WAITING_RESULT)
    (h : handle env w e = .ok (r, w1)) :
    w1.substate = none ∨ w1.substate = some .MYSQL_IDLE
      ∨ w1.substate = some .MYSQL_WAITING_RESULT := by
  cases hd : w.dcb with
  | none =>
    cases e with
    | readable input => simp [handle, gw_read_client_event, hd] at h
    | writable =>
      simp only [handle, gw_write_client_event, hd, Except.ok.injEq, Prod.mk.injEq] at h
      rw [← h.2]; exact hinv
  | some dcb =>
    cases hp : dcb.protocol with
    | none =>
      cases e with
      | readable input =>
        cases input with
        | ioctl_failed =>
          simp only [handle, gw_read_client_event, hd, Except.ok.injEq, Prod.mk.injEq] at h
          rw [← h.2]; exact hinv
        | read ret buf => simp [handle, gw_read_client_event, hd, hp] at h
      | writable =>
        by_cases h0 : dcb.state = .DCB_STATE_DISCONNECTED
        · simp only [handle, gw_write_client_event, hd, h0, if_true, Except.ok.injEq,
            Prod.mk.injEq] at h
          rw [← h.2]; exact hinv
        · simp only [handle, gw_write_client_event, hd, h0, if_false, hp, Except.ok.injEq,
            Prod.mk.injEq] at h
          rw [← h.2]; exact hinv
    | some protocol =>
      have hst : protocol.state = .MYSQL_IDLE ∨ protocol.state = .MYSQL_WAITING_RESULT := by
        simp only [World.substate, hd, hp, Option.bind, Option.map, reduceCtorEq, false_or,
          Option.some.injEq] at hinv
        exact hinv
      cases e with
      | readable input => exact read_keeps_idle env w w1 dcb protocol input r hd hp hst h
      | writable =>
        rw [write_keeps_idle env w w1 dcb protocol r hd hp hst h]; exact hinv

/-- C24: in the step relation made of `gw_read_client_event` and
`gw_write_client_event`, from a state whose sub-state is `MYSQL_IDLE` or
`MYSQL_WAITING_RESULT`, every sequence of read-ready and write-ready events
that runs to a state ends in a state whose sub-state is `MYSQL_IDLE` or
`MYSQL_WAITING_RESULT`, or whose protocol context has been closed (the
connection torn down); it is none of `MYSQL_ALLOC`, `MYSQL_AUTH_SENT`,
`MYSQL_AUTH_RECV`, `MYSQL_AUTH_FAILED`. The sequence is arbitrary, so this
holds after every event of a run, and for one event in particular. -/
theorem C24_idle_never_reauthenticates (env : Env) (w w1 : World) (events : List Event)
    (hst : w.substate = some .MYSQL_IDLE ∨ w.substate = some .MYSQL_WAITING_RESULT)
    (hrun : handle_run env w events = .ok w1) :
    (w1.substate = none ∨ w1.substate = some .MYSQL_IDLE
        ∨ w1.substate = some .MYSQL_WAITING_RESULT)
      ∧ w1.substate ≠ some .MYSQL_ALLOC ∧ w1.substate ≠ some .MYSQL_AUTH_SENT
      ∧ w1.substate ≠ some .MYSQL_AUTH_RECV ∧ w1.substate ≠ some .MYSQL_AUTH_FAILED := by
  have key : ∀ (es : List Event) (v : World),
      (v.substate = none ∨ v.substate = some .MYSQL_IDLE
        ∨ v.substate = some .MYSQL_WAITING_RESULT) →
      handle_run env v es = .ok w1 →
      (w1.substate = none ∨ w1.substate = some .MYSQL_IDLE
        ∨ w1.substate = some .MYSQL_WAITING_RESULT) := by
    intro es
    induction es with
    | nil =>
      intro v hv h
      simp only [handle_run, Except.ok.injEq] at h
      rw [← h]; exact hv
    | cons e es ih =>
      intro v hv h
      simp only [handle_run] at h
      cases he : handle env v e with
      | error f => simp [he] at h
      | ok p =>
        obtain ⟨r, v1⟩ := p
        simp only [he] at h
        exact ih v1 (handle_keeps_idle env v v1 e r hv he) h
  have hfin := key events w (Or.inr hst) hrun
  refine ⟨hfin, ?_, ?_, ?_, ?_⟩ <;>
  · rcases hfin with h | h | h <;> rw [h] <;> simp

/-- C24 on an idle connection paired with a backend: a query frame is read
and forwarded, a write-ready event follows, then the disconnect frame is
read; after the first two events the sub-state is `MYSQL_WAITING_RESULT`,
after the third the protocol context is closed. -/
theorem C24_idle_never_reauthenticates_witness :
    sampleBackendWorld.substate = some .MYSQL_IDLE
    ∧ (∃ w1, handle_run linuxEnv sampleBackendWorld
          [.readable (.read 0 [queryFrame]), .writable] = .ok w1
        ∧ w1.substate = some .MYSQL_WAITING_RESULT
        ∧ w1.substate ≠ some .MYSQL_AUTH_FAILED)
    ∧ (∃ w1, handle_run linuxEnv sampleBackendWorld
          [.readable (.read 0 [queryFrame]), .writable, .readable (.read 0 [quitFrame])]
            = .ok w1
        ∧ w1.substate = none
        ∧ (w1.substate = none ∨ w1.substate = some .MYSQL_IDLE
            ∨ w1.substate = some .MYSQL_WAITING_RESULT)
        ∧ w1.substate ≠ some .MYSQL_ALLOC ∧ w1.substate ≠ some .MYSQL_AUTH_SENT
        ∧ w1.substate ≠ some .MYSQL_AUTH_RECV ∧ w1.substate ≠ some .MYSQL_AUTH_FAILED) :=
  ⟨by decide,
    ⟨_, rfl, by decide, by decide⟩,
    ⟨_, rfl, by decide,
      C24_idle_never_reauthenticates linuxEnv sampleBackendWorld _
        [.readable (.read 0 [queryFrame]), .writable, .readable (.read 0 [quitFrame])]
        (Or.inl (by decide)) rfl⟩⟩

/-! ## Termination of the write loops: C26 -/

/-- One iteration that does not exit, on a non-empty first buffer of which
the socket took at least one byte, leaves strictly fewer bytes queued. -/
theorem consume_decreases (b : List Nat) (rest : List (List Nat)) (k : Nat)
    (hb : b ≠ []) (hk : 1 ≤ k) :
    (flat (gwbuf_consume (b :: rest) (min k b.length))).length
      < (flat (b :: rest)).length := by
  have hm : min k b.length ≤ b.length := Nat.min_le_right _ _
  have hl : 1 ≤ b.length := by
    cases b with
    | nil => exact absurd rfl hb
    | cons x xs => simp
  rw [flat_gwbuf_consume b rest _ hm, List.length_drop]
  have h2 : b.length ≤ (flat (b :: rest)).length := by
    simp [flat]
  have h3 : 1 ≤ min k b.length := Nat.le_min.mpr ⟨hk, hl⟩
  omega

/-- A chain of non-empty buffers stays one under `gwbuf_consume`. -/
theorem consume_nonempty (b : List Nat) (rest : List (List Nat)) (m : Nat)
    (hq : ∀ x ∈ b :: rest, x ≠ []) :
    ∀ x ∈ gwbuf_consume (b :: rest) m, x ≠ [] := by
  intro x hx
  simp only [gwbuf_consume] at hx
  split at hx
  · exact hq x (List.mem_cons_of_mem _ hx)
  · rename_i hne
    rcases List.mem_cons.mp hx with h | h
    · rw [h]; exact hne
    · exact hq x (List.mem_cons_of_mem _ h)

/-- The write loop against a productive socket, from any loop state: it
exits within `queued bytes + 1` calls, and the loop on the script made of
the socket's next `fuel` outcomes exits in the same state. -/
theorem write_loop_fuel_spec (env : Env) (t : Nat → WriteResult)
    (ht : ∀ i k, t i = .accepted k → 1 ≤ k) (fuel : Nat) :
    ∀ (q : List (List Nat)), (∀ b ∈ q, b ≠ []) → (flat q).length + 1 ≤ fuel →
    ∀ (i : Nat) (sent : List Nat) (n e : Nat),
    ∃ r c, write_loop_fuel t fuel i q sent n e = some r
      ∧ r.n_writes = n + c ∧ c ≤ (flat q).length + 1
      ∧ write_loop env ((List.range' i fuel).map t) q sent n e
          = ⟨(List.range' (i + c) (fuel - c)).map t, r.queue, r.sent, r.n_writes,
              r.saved_errno⟩ := by
  induction fuel with
  | zero => intro q _ hf; omega
  | succ fuel ih =>
    intro q hq hf i sent n e
    cases q with
    | nil =>
      refine ⟨⟨[], sent, n, e⟩, 0, by simp [write_loop_fuel], rfl, by omega, ?_⟩
      simp [write_loop]
    | cons b rest =>
      cases hti : t i with
      | failed e1 =>
        refine ⟨⟨b :: rest, sent, n + 1, e1⟩, 1, by simp [write_loop_fuel, hti], rfl, by omega,
          ?_⟩
        simp [List.range'_succ, write_loop, hti]
      | accepted k =>
        have hk := ht i k hti
        have hb : b ≠ [] := hq b (List.mem_cons_self _ _)
        have hdec := consume_decreases b rest k hb hk
        obtain ⟨r, c, h1, h2, h3, h4⟩ :=
          ih (gwbuf_consume (b :: rest) (min k b.length))
            (consume_nonempty b rest _ hq) (by omega) (i + 1)
            (sent ++ b.take (min k b.length)) (n + 1) 0
        refine ⟨r, c + 1, by simp only [write_loop_fuel, hti]; exact h1, by omega, by omega,
          ?_⟩
        simp only [List.range'_succ, List.map_cons, hti, write_loop]
        rw [h4]
        have e1 : i + 1 + c = i + (c + 1) := by omega
        have e2 : fuel - c = fuel + 1 - (c + 1) := by omega
        rw [e1, e2]

/-- A socket whose `write` keeps returning 0 never lets the loop exit: the
fuel runs out, whatever it is. -/
theorem stalled_never_exits (fuel i : Nat) (b : List Nat) (rest : List (List Nat))
    (sent : List Nat) (n e : Nat) (hb : b ≠ []) :
    write_loop_fuel stalledTransport fuel i (b :: rest) sent n e = none := by
  induction fuel generalizing i sent n e with
  | zero => simp [write_loop_fuel]
  | succ fuel ih =>
    have hd : gwbuf_consume (b :: rest) 0 = b :: rest := by
      simp [gwbuf_consume, hb]
    simp only [write_loop_fuel, stalledTransport, Nat.zero_min, hd, List.take_zero,
      List.append_nil]
    exact ih (i + 1) sent (n + 1) 0

/-- C26: against a socket that at every call fails or takes at least one
byte, and on a chain `q` of non-empty buffers, the write loop exits within
any fuel of at least `queued bytes + 1`, having made at most `queued bytes +
1` calls of `write`; an iteration that does not exit leaves strictly fewer
bytes queued. `write_loop` on the script of the socket's next `fuel` outcomes
exits in the same state, with the outcomes not used left on the script, and
so do both callers: `gw_MySQLWrite_client` on an empty write queue with the
chain `q`, which adds the calls made to `stats.n_writes`, and the write-ready
handler of a connection in Idle/WaitingResult whose write queue is `q`. -/
theorem C26_write_loops_terminate (env : Env) (t : Nat → WriteResult)
    (ht : ∀ i k, t i = .accepted k → 1 ≤ k)
    (q : List (List Nat)) (hq : ∀ b ∈ q, b ≠ [])
    (fuel : Nat) (hf : (flat q).length + 1 ≤ fuel) (i : Nat) (sent : List Nat) :
    ∃ r, write_loop_fuel t fuel i q sent 0 0 = some r
      ∧ r.n_writes ≤ (flat q).length + 1
      ∧ (∀ b rest k, b ≠ [] → 1 ≤ k →
          (flat (gwbuf_consume (b :: rest) (min k b.length))).length
            < (flat (b :: rest)).length)
      ∧ write_loop env ((List.range' i fuel).map t) q sent 0 0
          = ⟨(List.range' (i + r.n_writes) (fuel - r.n_writes)).map t, r.queue, r.sent,
              r.n_writes, r.saved_errno⟩
      ∧ (∀ w dcb, w.dcb = some dcb → dcb.writeq = [] →
          w.script = (List.range' i fuel).map t → w.sent = sent →
          ∃ st w1 dcb1, gw_MySQLWrite_client env w q = .ok (st, w1) ∧ w1.dcb = some dcb1
            ∧ dcb1.writeq = r.queue ∧ w1.sent = r.sent
            ∧ w1.script = (List.range' (i + r.n_writes) (fuel - r.n_writes)).map t
            ∧ dcb1.stats.n_writes = dcb.stats.n_writes + r.n_writes)
      ∧ (∀ w dcb, w.Draining → w.dcb = some dcb → dcb.writeq = q →
          w.script = (List.range' i fuel).map t → w.sent = sent →
          ∃ w1 dcb1, gw_write_client_event env w = .ok (1, w1) ∧ w1.dcb = some dcb1
            ∧ dcb1.writeq = r.queue ∧ w1.sent = r.sent
            ∧ w1.script = (List.range' (i + r.n_writes) (fuel - r.n_writes)).map t) := by
  obtain ⟨r, c, h1, h2, h3, h4⟩ := write_loop_fuel_spec env t ht fuel q hq hf i sent 0 0
  have hc : r.n_writes = c := by omega
  rw [← hc] at h3 h4
  refine ⟨r, h1, h3, fun b rest k hb hk => consume_decreases b rest k hb hk, h4, ?_, ?_⟩
  · intro w dcb hdcb hwq hscr hsent
    simp only [gw_MySQLWrite_client, hdcb, hwq, ne_eq, not_true_eq_false, if_false, hscr, hsent,
      h4]
    exact ⟨_, _, _, rfl, rfl, rfl, rfl, rfl, rfl⟩
  · intro w dcb hw hdcb hwq hscr hsent
    obtain ⟨dcb0, protocol, session, hdcb0, hst, hp, hs, hidle⟩ := hw
    rw [hdcb] at hdcb0
    cases hdcb0
    have g1 : protocol.state ≠ .MYSQL_AUTH_RECV := by
      rcases hidle with h | h <;> rw [h] <;> decide
    have g2 : protocol.state ≠ .MYSQL_AUTH_FAILED := by
      rcases hidle with h | h <;> rw [h] <;> decide
    simp only [gw_write_client_event, hdcb, hst, if_false, hp, hs, g1, g2, hidle, if_true, hwq]
    by_cases hq0 : q = []
    · subst hq0
      have hr : r = ⟨[], sent, 0, 0⟩ := by
        simp only [write_loop_fuel, Option.some.injEq] at h1
        exact h1.symm
      simp only [ne_eq, not_true_eq_false, if_false]
      refine ⟨w, dcb, rfl, hdcb, ?_, ?_, ?_⟩
      · rw [hwq, hr]
      · rw [hsent, hr]
      · rw [hscr, hr]; simp
    · simp only [hq0, ne_eq, not_false_eq_true, if_true, hscr, hsent, h4]
      exact ⟨_, _, rfl, rfl, rfl, rfl, rfl⟩

/-- C26 on two buffers of 4 and 2 bytes and a socket that takes one byte at
each call: with fuel 7 the loop exits after 6 calls with every byte sent, and
on a socket that breaks at its fourth call it exits after 4 calls. -/
theorem C26_write_loops_terminate_witness :
    (∀ i k, byteAtATime i = .accepted k → 1 ≤ k)
    ∧ (∀ b ∈ [[1, 2, 3, 4], [5, 6]], b ≠ [])
    ∧ (flat [[1, 2, 3, 4], [5, 6]]).length + 1 ≤ 7
    ∧ write_loop_fuel byteAtATime 7 0 [[1, 2, 3, 4], [5, 6]] [] 0 0
        = some ⟨[], [1, 2, 3, 4, 5, 6], 6, 0⟩
    ∧ write_loop_fuel breakingTransport 7 0 [[1, 2, 3, 4], [5, 6]] [] 0 0
        = some ⟨[[4], [5, 6]], [1, 2, 3], 4, 32⟩
    ∧ ∃ r, write_loop_fuel byteAtATime 7 0 [[1, 2, 3, 4], [5, 6]] [] 0 0 = some r
      ∧ r.n_writes ≤ (flat [[1, 2, 3, 4], [5, 6]]).length + 1
      ∧ (∀ b rest k, b ≠ [] → 1 ≤ k →
          (flat (gwbuf_consume (b :: rest) (min k b.length))).length
            < (flat (b :: rest)).length)
      ∧ write_loop linuxEnv ((List.range' 0 7).map byteAtATime) [[1, 2, 3, 4], [5, 6]] [] 0 0
          = ⟨(List.range' (0 + r.n_writes) (7 - r.n_writes)).map byteAtATime, r.queue, r.sent,
              r.n_writes, r.saved_errno⟩
      ∧ (∀ w dcb, w.dcb = some dcb → dcb.writeq = [] →
          w.script = (List.range' 0 7).map byteAtATime → w.sent = [] →
          ∃ st w1 dcb1, gw_MySQLWrite_client linuxEnv w [[1, 2, 3, 4], [5, 6]] = .ok (st, w1)
            ∧ w1.dcb = some dcb1
            ∧ dcb1.writeq = r.queue ∧ w1.sent = r.sent
            ∧ w1.script = (List.range' (0 + r.n_writes) (7 - r.n_writes)).map byteAtATime
            ∧ dcb1.stats.n_writes = dcb.stats.n_writes + r.n_writes)
      ∧ (∀ w dcb, w.Draining → w.dcb = some dcb → dcb.writeq = [[1, 2, 3, 4], [5, 6]] →
          w.script = (List.range' 0 7).map byteAtATime → w.sent = [] →
          ∃ w1 dcb1, gw_write_client_event linuxEnv w = .ok (1, w1) ∧ w1.dcb = some dcb1
            ∧ dcb1.writeq = r.queue ∧ w1.sent = r.sent
            ∧ w1.script = (List.range' (0 + r.n_writes) (7 - r.n_writes)).map byteAtATime) :=
  ⟨fun i k h => by cases h; decide, by decide, by decide, by decide, by decide,
    C26_write_loops_terminate linuxEnv byteAtATime (fun i k h => by cases h; decide)
      [[1, 2, 3, 4], [5, 6]] (by decide) 7 (by decide) 0 []⟩

end MaxScale
